import Mathlib

/-!
# Vulkan CTS framework utilities: a verification development

Shallow embedding of

* `vkRayTracingUtil.hpp`: the `RaytracedGeometry<V, I>` vertex packer
  (`calcBlockSize`, `addNativeVertex`, the getters) and the `SerialStorage`
  header layout;
* `vkDeviceDriverImpl.inl`: the generated `DeviceDriver` forwarding methods;
* `vktConditionalRenderingTestUtil.cpp`: `checkConditionalRenderingCapabilities`
  and `createConditionalRenderingBuffer`.

Machine integers are natural numbers reduced explicitly: `uint32_t`
arithmetic modulo `2^32`, `size_t` / `VkDeviceSize` arithmetic modulo `2^64`.
A byte buffer (`std::vector<uint8_t>`, mapped memory) is a `List Byte` and
allocation never fails; the theorems about packed buffers assume that the
buffer is addressable, that is, shorter than `2^64` bytes. An access outside a
buffer is undefined behaviour in C++ and is reported here as
`Failure.outOfBounds`. A `DE_ASSERT` is checked in builds with `DE_DEBUG` only;
the functions that reach one take the build as the parameter `deDebug`.
-/

namespace vk

/-! ## Machine arithmetic and byte buffers -/

/-- One `uint8_t`. -/
abbrev Byte := Fin 256

/-- Number of values of `uint32_t`. -/
def UINT32_RANGE : Nat := 4294967296

/-- Number of values of `size_t` and of `VkDeviceSize` (both 64 bits wide). -/
def SIZE_RANGE : Nat := 18446744073709551616

/-- Result of an expression of type `uint32_t`. -/
def u32 (n : Nat) : Nat := n % UINT32_RANGE

/-- Result of an expression of type `size_t`. -/
def usize (n : Nat) : Nat := n % SIZE_RANGE

/-- Subtraction `a - b` on `size_t`, wrapping below zero. -/
def usizeSub (a b : Nat) : Nat := (usize a + (SIZE_RANGE - usize b)) % SIZE_RANGE

/-- What can stop a call: a failed `DE_ASSERT`, an access outside a buffer, or
a `TCU_THROW (TestError, msg)`. -/
inductive Failure where
  | assertion
  | outOfBounds
  | testError (msg : String)
  deriving DecidableEq, Repr

/-- Modelled from the spec: the macro `DE_ASSERT`, which is defined outside the
given sources. `deDebug` says whether the build defines `DE_DEBUG`: there a false
condition stops the program at the assertion; in a release build the macro
expands to nothing, the case for which the source keeps
`DE_UNREF (geometryType); // For release builds.` next to it. -/
def DE_ASSERT (deDebug : Bool) (condition : Prop) [Decidable condition] :
    Except Failure Unit :=
  if deDebug then
    (if condition then .ok () else .error .assertion)
  else
    .ok ()

/-- The call `std::vector<uint8_t>::resize (n, value)`. -/
def resize (v : List Byte) (n : Nat) (value : Byte) : List Byte :=
  if n ≤ v.length then v.take n else v ++ List.replicate (n - v.length) value

/-- The call `deMemcpy (&dst[offset], src, src.length)` on a byte vector: the
bytes `[offset, offset + src.length)` of `dst` are overwritten by `src`; the
range has to lie inside `dst`. -/
def deMemcpy (dst : List Byte) (offset : Nat) (src : List Byte) : Except Failure (List Byte) :=
  if offset + src.length ≤ dst.length then
    .ok (dst.take offset ++ src ++ dst.drop (offset + src.length))
  else
    .error .outOfBounds

/-- The call `deMemset (dst, value, numBytes)` on a byte region. -/
def deMemset (dst : List Byte) (value : Byte) (numBytes : Nat) : Except Failure (List Byte) :=
  if numBytes ≤ dst.length then
    .ok (List.replicate numBytes value ++ dst.drop numBytes)
  else
    .error .outOfBounds

/-! ## `RaytracedGeometry<V, I>` -/

/-- The enumeration `VkGeometryTypeKHR`. -/
inductive VkGeometryTypeKHR where
  | TRIANGLES
  | AABBS
  | INSTANCES
  deriving DecidableEq, Repr

/-- The enumeration `VkIndexType`, as far as `indexTypeFromType` produces it. -/
inductive VkIndexType where
  | UINT16
  | UINT32
  | NONE_KHR
  deriving DecidableEq, Repr

/-- A value of the vertex type `V`, as `deMemcpy` sees it: the `sizeof (V)`
bytes of its object representation. -/
structure NativeVertex (kVertexSize : Nat) where
  bytes : List Byte
  size_eq : bytes.length = kVertexSize

/-- The constant `kAABBPadBaseSize`. -/
def kAABBPadBaseSize : Nat := 8

/-- Data members of `RaytracedGeometry<V, I>` together with those of its base
class that the packer reads; `kVertexSize` is `sizeof (V)`. The union
`m_blockSize` has two `size_t` members sharing storage, so it is one number. -/
structure RaytracedGeometry (kVertexSize : Nat) where
  m_geometryType : VkGeometryTypeKHR
  m_indexType : VkIndexType
  m_geometryFlags : Nat
  m_paddingBlocks : Nat
  m_vertexCount : Nat
  m_vertices : List Byte
  m_indices : List Nat
  m_blockSize : Nat

namespace RaytracedGeometry

variable {kVertexSize : Nat}

/-- The method `RaytracedGeometryBase::isTrianglesType`. -/
def isTrianglesType (g : RaytracedGeometry kVertexSize) : Bool :=
  g.m_geometryType == VkGeometryTypeKHR.TRIANGLES

/-- The method `RaytracedGeometryBase::usesIndices`. -/
def usesIndices (g : RaytracedGeometry kVertexSize) : Bool :=
  g.m_indexType != VkIndexType.NONE_KHR

/-- The method `checkGeometryType`: its `DE_ASSERT`, in a build with `DE_DEBUG`
(`deDebug = true`) or in a release build. -/
def checkGeometryType (deDebug : Bool) (g : RaytracedGeometry kVertexSize) :
    Except Failure Unit :=
  DE_ASSERT deDebug
    (g.m_geometryType = VkGeometryTypeKHR.TRIANGLES ∨
      g.m_geometryType = VkGeometryTypeKHR.AABBS)

/-- The method `calcBlockSize`. For triangles `1u + m_paddingBlocks` is an
`unsigned int` sum, converted to `size_t` afterwards; for AABBs every operand is
a `size_t`. -/
def calcBlockSize (g : RaytracedGeometry kVertexSize) : RaytracedGeometry kVertexSize :=
  if g.isTrianglesType then
    { g with m_blockSize := usize (kVertexSize * usize (u32 (1 + g.m_paddingBlocks))) }
  else
    { g with m_blockSize := usize (usize (2 * kVertexSize) + usize (g.m_paddingBlocks * kAABBPadBaseSize)) }

/-- The method `getBlockSize`. -/
def getBlockSize (g : RaytracedGeometry kVertexSize) : Nat :=
  if g.isTrianglesType then g.m_blockSize else g.m_blockSize

/-- The method `init`, run in both constructors. -/
def init (deDebug : Bool) (g : RaytracedGeometry kVertexSize) :
    Except Failure (RaytracedGeometry kVertexSize) := do
  checkGeometryType deDebug g
  pure (calcBlockSize g)

/-- The method `addNativeVertex`. -/
def addNativeVertex (g : RaytracedGeometry kVertexSize) (vertex : NativeVertex kVertexSize) :
    Except Failure (RaytracedGeometry kVertexSize) :=
  let oldSize := g.m_vertices.length
  let blockSize := g.getBlockSize
  if g.isTrianglesType then do
    -- Reserve new block, copy vertex at the beginning of the new block.
    let resized := resize g.m_vertices (usize (oldSize + blockSize)) 0
    let written ← deMemcpy resized oldSize vertex.bytes
    pure { g with m_vertices := written, m_vertexCount := usize (g.m_vertexCount + 1) }
  else if g.m_vertexCount % 2 = 0 then do
    -- New block needed.
    let resized := resize g.m_vertices (usize (oldSize + blockSize)) 0
    let written ← deMemcpy resized oldSize vertex.bytes
    pure { g with m_vertices := written, m_vertexCount := usize (g.m_vertexCount + 1) }
  else do
    -- Insert in the second position of last existing block.
    let written ← deMemcpy g.m_vertices (usize (usizeSub oldSize blockSize + kVertexSize)) vertex.bytes
    pure { g with m_vertices := written, m_vertexCount := usize (g.m_vertexCount + 1) }

/-- The method `addVertex`; `convertFloatTo` is the conversion `convertFloatTo<V>`
from a `tcu::Vec3` to the native vertex type. -/
def addVertex {Vec3 : Type} (convertFloatTo : Vec3 → NativeVertex kVertexSize)
    (g : RaytracedGeometry kVertexSize) (vertex : Vec3) :
    Except Failure (RaytracedGeometry kVertexSize) :=
  addNativeVertex g (convertFloatTo vertex)

/-- The constructor `RaytracedGeometry (geometryType, paddingBlocks)`. The index
type is `indexTypeFromType<I> ()`; `geometryFlags` is the value the base-class
constructor stores in `m_geometryFlags`; `deDebug` is the build, see `DE_ASSERT`. -/
def construct (deDebug : Bool) (kVertexSize : Nat) (indexType : VkIndexType)
    (geometryFlags : Nat) (geometryType : VkGeometryTypeKHR) (paddingBlocks : Nat) :
    Except Failure (RaytracedGeometry kVertexSize) :=
  init deDebug
    { m_geometryType := geometryType
      m_indexType := indexType
      m_geometryFlags := geometryFlags
      m_paddingBlocks := paddingBlocks
      m_vertexCount := 0
      m_vertices := []
      m_indices := []
      m_blockSize := 0 }

/-- The constructor `RaytracedGeometry (geometryType, vertices, indices, paddingBlocks)`:
`init`, then `addNativeVertex` for each vertex in order. -/
def constructFrom (deDebug : Bool) (kVertexSize : Nat) (indexType : VkIndexType)
    (geometryFlags : Nat) (geometryType : VkGeometryTypeKHR)
    (vertices : List (NativeVertex kVertexSize)) (indices : List Nat) (paddingBlocks : Nat) :
    Except Failure (RaytracedGeometry kVertexSize) := do
  let g ← init deDebug
    { m_geometryType := geometryType
      m_indexType := indexType
      m_geometryFlags := geometryFlags
      m_paddingBlocks := paddingBlocks
      m_vertexCount := 0
      m_vertices := []
      m_indices := indices
      m_blockSize := 0 }
  vertices.foldlM addNativeVertex g

/-- The method `getVertexCount`. -/
def getVertexCount (g : RaytracedGeometry kVertexSize) : Nat :=
  if g.isTrianglesType then u32 g.m_vertexCount else 0

/-- The method `getVertexStride`. -/
def getVertexStride (g : RaytracedGeometry kVertexSize) : Nat :=
  if !g.isTrianglesType then 0 else usize g.getBlockSize

/-- The method `getAABBStride`. -/
def getAABBStride (g : RaytracedGeometry kVertexSize) : Nat :=
  if g.isTrianglesType then 0 else usize g.getBlockSize

/-- The method `getVertexByteSize`. -/
def getVertexByteSize (g : RaytracedGeometry kVertexSize) : Nat :=
  g.m_vertices.length

/-- The method `getPrimitiveCount`. -/
def getPrimitiveCount (g : RaytracedGeometry kVertexSize) : Nat :=
  u32 (if g.isTrianglesType then
        (if g.usesIndices then g.m_indices.length / 3 else g.m_vertexCount / 3)
      else g.m_vertexCount / 2)

end RaytracedGeometry

/-- One step of a caller that fills a geometry: `addNativeVertex (v)` or
`addVertex (x)`. -/
inductive AddCall (kVertexSize : Nat) (Vec3 : Type) where
  | native (vertex : NativeVertex kVertexSize)
  | converted (vertex : Vec3)

/-- The native vertex a call stores. -/
def AddCall.stored {kVertexSize : Nat} {Vec3 : Type}
    (convertFloatTo : Vec3 → NativeVertex kVertexSize) :
    AddCall kVertexSize Vec3 → NativeVertex kVertexSize
  | .native v => v
  | .converted x => convertFloatTo x

/-- Performing one call on a geometry. -/
def AddCall.run {kVertexSize : Nat} {Vec3 : Type}
    (convertFloatTo : Vec3 → NativeVertex kVertexSize)
    (g : RaytracedGeometry kVertexSize) :
    AddCall kVertexSize Vec3 → Except Failure (RaytracedGeometry kVertexSize)
  | .native v => g.addNativeVertex v
  | .converted x => g.addVertex convertFloatTo x

end vk



/-! ## Indices of a `RaytracedGeometry<V, I>` -/

namespace vk

/-- The function template `convertIndexTo<I>`; the index type `I` is named by
`indexTypeFromType<I> ()`: `uint16_t`, `uint32_t`, or `EmptyIndex` for
`VK_INDEX_TYPE_NONE_KHR`. -/
def convertIndexTo (indexType : VkIndexType) (index : Nat) : Except Failure Nat :=
  match indexType with
  | VkIndexType.NONE_KHR => .error (Failure.testError "Cannot add empty index")
  | VkIndexType.UINT16 => .ok (index % 65536)
  | VkIndexType.UINT32 => .ok index

namespace RaytracedGeometry

variable {kVertexSize : Nat}

/-- The method `addIndex`: `m_indices.push_back (convertIndexTo<I> (index))`. The
argument is evaluated first; when it throws, `push_back` is not reached. The
result is the outcome of the call and the geometry as the call leaves it. -/
def addIndex (g : RaytracedGeometry kVertexSize) (index : Nat) :
    Except Failure Unit × RaytracedGeometry kVertexSize :=
  match convertIndexTo g.m_indexType index with
  | .error thrown => (.error thrown, g)
  | .ok converted => (.ok (), { g with m_indices := g.m_indices ++ [converted] })

end RaytracedGeometry

end vk
/-! ## The documented layout of the vertex buffer -/

namespace vk

variable {kVertexSize : Nat}

/-- The pseudo-structure `struct Vertex { V vertex; uint8_t padding[m_paddingBlocks * sizeof (V)]; }`
of the layout comment, as bytes. -/
def trianglesBlock (paddingBlocks : Nat) (vertex : NativeVertex kVertexSize) : List Byte :=
  vertex.bytes ++ List.replicate (paddingBlocks * kVertexSize) 0

/-- The documented triangles buffer: one `Vertex` block per vertex, in order. -/
def trianglesLayout (paddingBlocks : Nat) (vertices : List (NativeVertex kVertexSize)) : List Byte :=
  vertices.flatMap (trianglesBlock paddingBlocks)

/-- Bytes of the vertex slot `i` of an AABB buffer: the vertex `i` when it has
been added, zero bytes otherwise. -/
def aabbsSlot (vertices : List (NativeVertex kVertexSize)) (i : Nat) : List Byte :=
  match vertices[i]? with
  | some vertex => vertex.bytes
  | none => List.replicate kVertexSize 0

/-- The pseudo-structure `struct VertexPair { V vertices[2]; uint8_t padding[m_paddingBlocks * kAABBPadBaseSize]; }`
of the layout comment for block `j`, as bytes. -/
def aabbsBlock (paddingBlocks : Nat) (vertices : List (NativeVertex kVertexSize)) (j : Nat) :
    List Byte :=
  aabbsSlot vertices (2 * j) ++ aabbsSlot vertices (2 * j + 1) ++
    List.replicate (paddingBlocks * kAABBPadBaseSize) 0

/-- The documented AABB buffer: `ceil (n / 2)` `VertexPair` blocks. -/
def aabbsLayout (paddingBlocks : Nat) (vertices : List (NativeVertex kVertexSize)) : List Byte :=
  (List.range ((vertices.length + 1) / 2)).flatMap (aabbsBlock paddingBlocks vertices)

end vk

/-! ## The generated `DeviceDriver` methods (`vkDeviceDriverImpl.inl`) -/

namespace vk

/-- The table `m_vk` of native entry points. An entry point is selected by its
name, receives its arguments in order, acts on the state of the driver and
yields a result. -/
abbrev DeviceFunctions (Arg Res World : Type) := String → List Arg → World → Res × World

/-- An entry-point table that also records every call made through it, by
name and argument list, in call order. -/
def DeviceFunctions.recording {Arg Res World : Type} (m_vk : DeviceFunctions Arg Res World) :
    DeviceFunctions Arg Res (World × List (String × List Arg)) :=
  fun name args state =>
    ((m_vk name args state.1).1, ((m_vk name args state.1).2, state.2 ++ [(name, args)]))

namespace DeviceDriver

variable {Arg Res World : Type}

/-- The method `PFN_vkVoidFunction DeviceDriver::getDeviceProcAddr`. -/
def getDeviceProcAddr (m_vk : DeviceFunctions Arg Res World) (device pName : Arg) : World → Res × World :=
  m_vk "getDeviceProcAddr" [device, pName]

/-- The method `void DeviceDriver::destroyDevice`. -/
def destroyDevice (m_vk : DeviceFunctions Arg Res World) (device pAllocator : Arg) : World → World :=
  fun world => (m_vk "destroyDevice" [device, pAllocator] world).2

/-- The method `void DeviceDriver::getDeviceQueue`. -/
def getDeviceQueue (m_vk : DeviceFunctions Arg Res World) (device queueFamilyIndex queueIndex pQueue : Arg) : World → World :=
  fun world => (m_vk "getDeviceQueue" [device, queueFamilyIndex, queueIndex, pQueue] world).2

/-- The method `VkResult DeviceDriver::queueSubmit`. -/
def queueSubmit (m_vk : DeviceFunctions Arg Res World) (queue submitCount pSubmits fence : Arg) : World → Res × World :=
  m_vk "queueSubmit" [queue, submitCount, pSubmits, fence]

/-- The method `VkResult DeviceDriver::queueWaitIdle`. -/
def queueWaitIdle (m_vk : DeviceFunctions Arg Res World) (queue : Arg) : World → Res × World :=
  m_vk "queueWaitIdle" [queue]

/-- The method `VkResult DeviceDriver::deviceWaitIdle`. -/
def deviceWaitIdle (m_vk : DeviceFunctions Arg Res World) (device : Arg) : World → Res × World :=
  m_vk "deviceWaitIdle" [device]

/-- The method `VkResult DeviceDriver::allocateMemory`. -/
def allocateMemory (m_vk : DeviceFunctions Arg Res World) (device pAllocateInfo pAllocator pMemory : Arg) : World → Res × World :=
  m_vk "allocateMemory" [device, pAllocateInfo, pAllocator, pMemory]

/-- The method `VkResult DeviceDriver::mapMemory`. -/
def mapMemory (m_vk : DeviceFunctions Arg Res World) (device memory offset size flags ppData : Arg) : World → Res × World :=
  m_vk "mapMemory" [device, memory, offset, size, flags, ppData]

/-- The method `void DeviceDriver::unmapMemory`. -/
def unmapMemory (m_vk : DeviceFunctions Arg Res World) (device memory : Arg) : World → World :=
  fun world => (m_vk "unmapMemory" [device, memory] world).2

/-- The method `VkResult DeviceDriver::flushMappedMemoryRanges`. -/
def flushMappedMemoryRanges (m_vk : DeviceFunctions Arg Res World) (device memoryRangeCount pMemoryRanges : Arg) : World → Res × World :=
  m_vk "flushMappedMemoryRanges" [device, memoryRangeCount, pMemoryRanges]

/-- The method `VkResult DeviceDriver::invalidateMappedMemoryRanges`. -/
def invalidateMappedMemoryRanges (m_vk : DeviceFunctions Arg Res World) (device memoryRangeCount pMemoryRanges : Arg) : World → Res × World :=
  m_vk "invalidateMappedMemoryRanges" [device, memoryRangeCount, pMemoryRanges]

/-- The method `void DeviceDriver::getDeviceMemoryCommitment`. -/
def getDeviceMemoryCommitment (m_vk : DeviceFunctions Arg Res World) (device memory pCommittedMemoryInBytes : Arg) : World → World :=
  fun world => (m_vk "getDeviceMemoryCommitment" [device, memory, pCommittedMemoryInBytes] world).2

/-- The method `VkResult DeviceDriver::bindBufferMemory`. -/
def bindBufferMemory (m_vk : DeviceFunctions Arg Res World) (device buffer memory memoryOffset : Arg) : World → Res × World :=
  m_vk "bindBufferMemory" [device, buffer, memory, memoryOffset]

/-- The method `VkResult DeviceDriver::bindImageMemory`. -/
def bindImageMemory (m_vk : DeviceFunctions Arg Res World) (device image memory memoryOffset : Arg) : World → Res × World :=
  m_vk "bindImageMemory" [device, image, memory, memoryOffset]

/-- The method `void DeviceDriver::getBufferMemoryRequirements`. -/
def getBufferMemoryRequirements (m_vk : DeviceFunctions Arg Res World) (device buffer pMemoryRequirements : Arg) : World → World :=
  fun world => (m_vk "getBufferMemoryRequirements" [device, buffer, pMemoryRequirements] world).2

/-- The method `void DeviceDriver::getImageMemoryRequirements`. -/
def getImageMemoryRequirements (m_vk : DeviceFunctions Arg Res World) (device image pMemoryRequirements : Arg) : World → World :=
  fun world => (m_vk "getImageMemoryRequirements" [device, image, pMemoryRequirements] world).2

/-- The method `VkResult DeviceDriver::createFence`. -/
def createFence (m_vk : DeviceFunctions Arg Res World) (device pCreateInfo pAllocator pFence : Arg) : World → Res × World :=
  m_vk "createFence" [device, pCreateInfo, pAllocator, pFence]

/-- The method `void DeviceDriver::destroyFence`. -/
def destroyFence (m_vk : DeviceFunctions Arg Res World) (device fence pAllocator : Arg) : World → World :=
  fun world => (m_vk "destroyFence" [device, fence, pAllocator] world).2

/-- The method `VkResult DeviceDriver::resetFences`. -/
def resetFences (m_vk : DeviceFunctions Arg Res World) (device fenceCount pFences : Arg) : World → Res × World :=
  m_vk "resetFences" [device, fenceCount, pFences]

/-- The method `VkResult DeviceDriver::getFenceStatus`. -/
def getFenceStatus (m_vk : DeviceFunctions Arg Res World) (device fence : Arg) : World → Res × World :=
  m_vk "getFenceStatus" [device, fence]

/-- The method `VkResult DeviceDriver::waitForFences`. -/
def waitForFences (m_vk : DeviceFunctions Arg Res World) (device fenceCount pFences waitAll timeout : Arg) : World → Res × World :=
  m_vk "waitForFences" [device, fenceCount, pFences, waitAll, timeout]

/-- The method `VkResult DeviceDriver::createSemaphore`. -/
def createSemaphore (m_vk : DeviceFunctions Arg Res World) (device pCreateInfo pAllocator pSemaphore : Arg) : World → Res × World :=
  m_vk "createSemaphore" [device, pCreateInfo, pAllocator, pSemaphore]

/-- The method `void DeviceDriver::destroySemaphore`. -/
def destroySemaphore (m_vk : DeviceFunctions Arg Res World) (device semaphore pAllocator : Arg) : World → World :=
  fun world => (m_vk "destroySemaphore" [device, semaphore, pAllocator] world).2

/-- The method `VkResult DeviceDriver::createEvent`. -/
def createEvent (m_vk : DeviceFunctions Arg Res World) (device pCreateInfo pAllocator pEvent : Arg) : World → Res × World :=
  m_vk "createEvent" [device, pCreateInfo, pAllocator, pEvent]

/-- The method `void DeviceDriver::destroyEvent`. -/
def destroyEvent (m_vk : DeviceFunctions Arg Res World) (device event pAllocator : Arg) : World → World :=
  fun world => (m_vk "destroyEvent" [device, event, pAllocator] world).2

/-- The method `VkResult DeviceDriver::getEventStatus`. -/
def getEventStatus (m_vk : DeviceFunctions Arg Res World) (device event : Arg) : World → Res × World :=
  m_vk "getEventStatus" [device, event]

/-- The method `VkResult DeviceDriver::setEvent`. -/
def setEvent (m_vk : DeviceFunctions Arg Res World) (device event : Arg) : World → Res × World :=
  m_vk "setEvent" [device, event]

/-- The method `VkResult DeviceDriver::resetEvent`. -/
def resetEvent (m_vk : DeviceFunctions Arg Res World) (device event : Arg) : World → Res × World :=
  m_vk "resetEvent" [device, event]

/-- The method `VkResult DeviceDriver::createQueryPool`. -/
def createQueryPool (m_vk : DeviceFunctions Arg Res World) (device pCreateInfo pAllocator pQueryPool : Arg) : World → Res × World :=
  m_vk "createQueryPool" [device, pCreateInfo, pAllocator, pQueryPool]

/-- The method `VkResult DeviceDriver::getQueryPoolResults`. -/
def getQueryPoolResults (m_vk : DeviceFunctions Arg Res World) (device queryPool firstQuery queryCount dataSize pData stride flags : Arg) : World → Res × World :=
  m_vk "getQueryPoolResults" [device, queryPool, firstQuery, queryCount, dataSize, pData, stride, flags]

/-- The method `VkResult DeviceDriver::createBuffer`. -/
def createBuffer (m_vk : DeviceFunctions Arg Res World) (device pCreateInfo pAllocator pBuffer : Arg) : World → Res × World :=
  m_vk "createBuffer" [device, pCreateInfo, pAllocator, pBuffer]

/-- The method `void DeviceDriver::destroyBuffer`. -/
def destroyBuffer (m_vk : DeviceFunctions Arg Res World) (device buffer pAllocator : Arg) : World → World :=
  fun world => (m_vk "destroyBuffer" [device, buffer, pAllocator] world).2

/-- The method `VkResult DeviceDriver::createBufferView`. -/
def createBufferView (m_vk : DeviceFunctions Arg Res World) (device pCreateInfo pAllocator pView : Arg) : World → Res × World :=
  m_vk "createBufferView" [device, pCreateInfo, pAllocator, pView]

/-- The method `void DeviceDriver::destroyBufferView`. -/
def destroyBufferView (m_vk : DeviceFunctions Arg Res World) (device bufferView pAllocator : Arg) : World → World :=
  fun world => (m_vk "destroyBufferView" [device, bufferView, pAllocator] world).2

/-- The method `VkResult DeviceDriver::createImage`. -/
def createImage (m_vk : DeviceFunctions Arg Res World) (device pCreateInfo pAllocator pImage : Arg) : World → Res × World :=
  m_vk "createImage" [device, pCreateInfo, pAllocator, pImage]

/-- The method `void DeviceDriver::destroyImage`. -/
def destroyImage (m_vk : DeviceFunctions Arg Res World) (device image pAllocator : Arg) : World → World :=
  fun world => (m_vk "destroyImage" [device, image, pAllocator] world).2

/-- The method `void DeviceDriver::getImageSubresourceLayout`. -/
def getImageSubresourceLayout (m_vk : DeviceFunctions Arg Res World) (device image pSubresource pLayout : Arg) : World → World :=
  fun world => (m_vk "getImageSubresourceLayout" [device, image, pSubresource, pLayout] world).2

/-- The method `VkResult DeviceDriver::createImageView`. -/
def createImageView (m_vk : DeviceFunctions Arg Res World) (device pCreateInfo pAllocator pView : Arg) : World → Res × World :=
  m_vk "createImageView" [device, pCreateInfo, pAllocator, pView]

/-- The method `void DeviceDriver::destroyImageView`. -/
def destroyImageView (m_vk : DeviceFunctions Arg Res World) (device imageView pAllocator : Arg) : World → World :=
  fun world => (m_vk "destroyImageView" [device, imageView, pAllocator] world).2

/-- The method `VkResult DeviceDriver::createPipelineCache`. -/
def createPipelineCache (m_vk : DeviceFunctions Arg Res World) (device pCreateInfo pAllocator pPipelineCache : Arg) : World → Res × World :=
  m_vk "createPipelineCache" [device, pCreateInfo, pAllocator, pPipelineCache]

/-- The method `void DeviceDriver::destroyPipelineCache`. -/
def destroyPipelineCache (m_vk : DeviceFunctions Arg Res World) (device pipelineCache pAllocator : Arg) : World → World :=
  fun world => (m_vk "destroyPipelineCache" [device, pipelineCache, pAllocator] world).2

/-- The method `VkResult DeviceDriver::createGraphicsPipelines`. -/
def createGraphicsPipelines (m_vk : DeviceFunctions Arg Res World) (device pipelineCache createInfoCount pCreateInfos pAllocator pPipelines : Arg) : World → Res × World :=
  m_vk "createGraphicsPipelines" [device, pipelineCache, createInfoCount, pCreateInfos, pAllocator, pPipelines]

/-- The method `VkResult DeviceDriver::createComputePipelines`. -/
def createComputePipelines (m_vk : DeviceFunctions Arg Res World) (device pipelineCache createInfoCount pCreateInfos pAllocator pPipelines : Arg) : World → Res × World :=
  m_vk "createComputePipelines" [device, pipelineCache, createInfoCount, pCreateInfos, pAllocator, pPipelines]

/-- The method `void DeviceDriver::destroyPipeline`. -/
def destroyPipeline (m_vk : DeviceFunctions Arg Res World) (device pipeline pAllocator : Arg) : World → World :=
  fun world => (m_vk "destroyPipeline" [device, pipeline, pAllocator] world).2

/-- The method `VkResult DeviceDriver::createPipelineLayout`. -/
def createPipelineLayout (m_vk : DeviceFunctions Arg Res World) (device pCreateInfo pAllocator pPipelineLayout : Arg) : World → Res × World :=
  m_vk "createPipelineLayout" [device, pCreateInfo, pAllocator, pPipelineLayout]

/-- The method `void DeviceDriver::destroyPipelineLayout`. -/
def destroyPipelineLayout (m_vk : DeviceFunctions Arg Res World) (device pipelineLayout pAllocator : Arg) : World → World :=
  fun world => (m_vk "destroyPipelineLayout" [device, pipelineLayout, pAllocator] world).2

/-- The method `VkResult DeviceDriver::createSampler`. -/
def createSampler (m_vk : DeviceFunctions Arg Res World) (device pCreateInfo pAllocator pSampler : Arg) : World → Res × World :=
  m_vk "createSampler" [device, pCreateInfo, pAllocator, pSampler]

/-- The method `void DeviceDriver::destroySampler`. -/
def destroySampler (m_vk : DeviceFunctions Arg Res World) (device sampler pAllocator : Arg) : World → World :=
  fun world => (m_vk "destroySampler" [device, sampler, pAllocator] world).2

/-- The method `VkResult DeviceDriver::createDescriptorSetLayout`. -/
def createDescriptorSetLayout (m_vk : DeviceFunctions Arg Res World) (device pCreateInfo pAllocator pSetLayout : Arg) : World → Res × World :=
  m_vk "createDescriptorSetLayout" [device, pCreateInfo, pAllocator, pSetLayout]

/-- The method `void DeviceDriver::destroyDescriptorSetLayout`. -/
def destroyDescriptorSetLayout (m_vk : DeviceFunctions Arg Res World) (device descriptorSetLayout pAllocator : Arg) : World → World :=
  fun world => (m_vk "destroyDescriptorSetLayout" [device, descriptorSetLayout, pAllocator] world).2

/-- The method `VkResult DeviceDriver::createDescriptorPool`. -/
def createDescriptorPool (m_vk : DeviceFunctions Arg Res World) (device pCreateInfo pAllocator pDescriptorPool : Arg) : World → Res × World :=
  m_vk "createDescriptorPool" [device, pCreateInfo, pAllocator, pDescriptorPool]

/-- The method `VkResult DeviceDriver::resetDescriptorPool`. -/
def resetDescriptorPool (m_vk : DeviceFunctions Arg Res World) (device descriptorPool flags : Arg) : World → Res × World :=
  m_vk "resetDescriptorPool" [device, descriptorPool, flags]

/-- The method `VkResult DeviceDriver::allocateDescriptorSets`. -/
def allocateDescriptorSets (m_vk : DeviceFunctions Arg Res World) (device pAllocateInfo pDescriptorSets : Arg) : World → Res × World :=
  m_vk "allocateDescriptorSets" [device, pAllocateInfo, pDescriptorSets]

/-- The method `VkResult DeviceDriver::freeDescriptorSets`. -/
def freeDescriptorSets (m_vk : DeviceFunctions Arg Res World) (device descriptorPool descriptorSetCount pDescriptorSets : Arg) : World → Res × World :=
  m_vk "freeDescriptorSets" [device, descriptorPool, descriptorSetCount, pDescriptorSets]

/-- The method `void DeviceDriver::updateDescriptorSets`. -/
def updateDescriptorSets (m_vk : DeviceFunctions Arg Res World) (device descriptorWriteCount pDescriptorWrites descriptorCopyCount pDescriptorCopies : Arg) : World → World :=
  fun world => (m_vk "updateDescriptorSets" [device, descriptorWriteCount, pDescriptorWrites, descriptorCopyCount, pDescriptorCopies] world).2

/-- The method `VkResult DeviceDriver::createFramebuffer`. -/
def createFramebuffer (m_vk : DeviceFunctions Arg Res World) (device pCreateInfo pAllocator pFramebuffer : Arg) : World → Res × World :=
  m_vk "createFramebuffer" [device, pCreateInfo, pAllocator, pFramebuffer]

/-- The method `void DeviceDriver::destroyFramebuffer`. -/
def destroyFramebuffer (m_vk : DeviceFunctions Arg Res World) (device framebuffer pAllocator : Arg) : World → World :=
  fun world => (m_vk "destroyFramebuffer" [device, framebuffer, pAllocator] world).2

/-- The method `VkResult DeviceDriver::createRenderPass`. -/
def createRenderPass (m_vk : DeviceFunctions Arg Res World) (device pCreateInfo pAllocator pRenderPass : Arg) : World → Res × World :=
  m_vk "createRenderPass" [device, pCreateInfo, pAllocator, pRenderPass]

/-- The method `void DeviceDriver::destroyRenderPass`. -/
def destroyRenderPass (m_vk : DeviceFunctions Arg Res World) (device renderPass pAllocator : Arg) : World → World :=
  fun world => (m_vk "destroyRenderPass" [device, renderPass, pAllocator] world).2

/-- The method `void DeviceDriver::getRenderAreaGranularity`. -/
def getRenderAreaGranularity (m_vk : DeviceFunctions Arg Res World) (device renderPass pGranularity : Arg) : World → World :=
  fun world => (m_vk "getRenderAreaGranularity" [device, renderPass, pGranularity] world).2

/-- The method `VkResult DeviceDriver::createCommandPool`. -/
def createCommandPool (m_vk : DeviceFunctions Arg Res World) (device pCreateInfo pAllocator pCommandPool : Arg) : World → Res × World :=
  m_vk "createCommandPool" [device, pCreateInfo, pAllocator, pCommandPool]

/-- The method `VkResult DeviceDriver::resetCommandPool`. -/
def resetCommandPool (m_vk : DeviceFunctions Arg Res World) (device commandPool flags : Arg) : World → Res × World :=
  m_vk "resetCommandPool" [device, commandPool, flags]

/-- The method `VkResult DeviceDriver::allocateCommandBuffers`. -/
def allocateCommandBuffers (m_vk : DeviceFunctions Arg Res World) (device pAllocateInfo pCommandBuffers : Arg) : World → Res × World :=
  m_vk "allocateCommandBuffers" [device, pAllocateInfo, pCommandBuffers]

/-- The method `void DeviceDriver::freeCommandBuffers`. -/
def freeCommandBuffers (m_vk : DeviceFunctions Arg Res World) (device commandPool commandBufferCount pCommandBuffers : Arg) : World → World :=
  fun world => (m_vk "freeCommandBuffers" [device, commandPool, commandBufferCount, pCommandBuffers] world).2

/-- The method `VkResult DeviceDriver::beginCommandBuffer`. -/
def beginCommandBuffer (m_vk : DeviceFunctions Arg Res World) (commandBuffer pBeginInfo : Arg) : World → Res × World :=
  m_vk "beginCommandBuffer" [commandBuffer, pBeginInfo]

/-- The method `VkResult DeviceDriver::endCommandBuffer`. -/
def endCommandBuffer (m_vk : DeviceFunctions Arg Res World) (commandBuffer : Arg) : World → Res × World :=
  m_vk "endCommandBuffer" [commandBuffer]

/-- The method `VkResult DeviceDriver::resetCommandBuffer`. -/
def resetCommandBuffer (m_vk : DeviceFunctions Arg Res World) (commandBuffer flags : Arg) : World → Res × World :=
  m_vk "resetCommandBuffer" [commandBuffer, flags]

/-- The method `void DeviceDriver::cmdBindPipeline`. -/
def cmdBindPipeline (m_vk : DeviceFunctions Arg Res World) (commandBuffer pipelineBindPoint pipeline : Arg) : World → World :=
  fun world => (m_vk "cmdBindPipeline" [commandBuffer, pipelineBindPoint, pipeline] world).2

/-- The method `void DeviceDriver::cmdSetViewport`. -/
def cmdSetViewport (m_vk : DeviceFunctions Arg Res World) (commandBuffer firstViewport viewportCount pViewports : Arg) : World → World :=
  fun world => (m_vk "cmdSetViewport" [commandBuffer, firstViewport, viewportCount, pViewports] world).2

/-- The method `void DeviceDriver::cmdSetScissor`. -/
def cmdSetScissor (m_vk : DeviceFunctions Arg Res World) (commandBuffer firstScissor scissorCount pScissors : Arg) : World → World :=
  fun world => (m_vk "cmdSetScissor" [commandBuffer, firstScissor, scissorCount, pScissors] world).2

/-- The method `void DeviceDriver::cmdSetLineWidth`. -/
def cmdSetLineWidth (m_vk : DeviceFunctions Arg Res World) (commandBuffer lineWidth : Arg) : World → World :=
  fun world => (m_vk "cmdSetLineWidth" [commandBuffer, lineWidth] world).2

/-- The method `void DeviceDriver::cmdSetDepthBias`. -/
def cmdSetDepthBias (m_vk : DeviceFunctions Arg Res World) (commandBuffer depthBiasConstantFactor depthBiasClamp depthBiasSlopeFactor : Arg) : World → World :=
  fun world => (m_vk "cmdSetDepthBias" [commandBuffer, depthBiasConstantFactor, depthBiasClamp, depthBiasSlopeFactor] world).2

/-- The method `void DeviceDriver::cmdSetBlendConstants`. -/
def cmdSetBlendConstants (m_vk : DeviceFunctions Arg Res World) (commandBuffer blendConstants : Arg) : World → World :=
  fun world => (m_vk "cmdSetBlendConstants" [commandBuffer, blendConstants] world).2

/-- The method `void DeviceDriver::cmdSetDepthBounds`. -/
def cmdSetDepthBounds (m_vk : DeviceFunctions Arg Res World) (commandBuffer minDepthBounds maxDepthBounds : Arg) : World → World :=
  fun world => (m_vk "cmdSetDepthBounds" [commandBuffer, minDepthBounds, maxDepthBounds] world).2

/-- The method `void DeviceDriver::cmdSetStencilCompareMask`. -/
def cmdSetStencilCompareMask (m_vk : DeviceFunctions Arg Res World) (commandBuffer faceMask compareMask : Arg) : World → World :=
  fun world => (m_vk "cmdSetStencilCompareMask" [commandBuffer, faceMask, compareMask] world).2

/-- The method `void DeviceDriver::cmdSetStencilWriteMask`. -/
def cmdSetStencilWriteMask (m_vk : DeviceFunctions Arg Res World) (commandBuffer faceMask writeMask : Arg) : World → World :=
  fun world => (m_vk "cmdSetStencilWriteMask" [commandBuffer, faceMask, writeMask] world).2

/-- The method `void DeviceDriver::cmdSetStencilReference`. -/
def cmdSetStencilReference (m_vk : DeviceFunctions Arg Res World) (commandBuffer faceMask reference : Arg) : World → World :=
  fun world => (m_vk "cmdSetStencilReference" [commandBuffer, faceMask, reference] world).2

/-- The method `void DeviceDriver::cmdBindDescriptorSets`. -/
def cmdBindDescriptorSets (m_vk : DeviceFunctions Arg Res World) (commandBuffer pipelineBindPoint layout firstSet descriptorSetCount pDescriptorSets dynamicOffsetCount pDynamicOffsets : Arg) : World → World :=
  fun world => (m_vk "cmdBindDescriptorSets" [commandBuffer, pipelineBindPoint, layout, firstSet, descriptorSetCount, pDescriptorSets, dynamicOffsetCount, pDynamicOffsets] world).2

/-- The method `void DeviceDriver::cmdBindIndexBuffer`. -/
def cmdBindIndexBuffer (m_vk : DeviceFunctions Arg Res World) (commandBuffer buffer offset indexType : Arg) : World → World :=
  fun world => (m_vk "cmdBindIndexBuffer" [commandBuffer, buffer, offset, indexType] world).2

/-- The method `void DeviceDriver::cmdBindVertexBuffers`. -/
def cmdBindVertexBuffers (m_vk : DeviceFunctions Arg Res World) (commandBuffer firstBinding bindingCount pBuffers pOffsets : Arg) : World → World :=
  fun world => (m_vk "cmdBindVertexBuffers" [commandBuffer, firstBinding, bindingCount, pBuffers, pOffsets] world).2

/-- The method `void DeviceDriver::cmdDraw`. -/
def cmdDraw (m_vk : DeviceFunctions Arg Res World) (commandBuffer vertexCount instanceCount firstVertex firstInstance : Arg) : World → World :=
  fun world => (m_vk "cmdDraw" [commandBuffer, vertexCount, instanceCount, firstVertex, firstInstance] world).2

/-- The method `void DeviceDriver::cmdDrawIndexed`. -/
def cmdDrawIndexed (m_vk : DeviceFunctions Arg Res World) (commandBuffer indexCount instanceCount firstIndex vertexOffset firstInstance : Arg) : World → World :=
  fun world => (m_vk "cmdDrawIndexed" [commandBuffer, indexCount, instanceCount, firstIndex, vertexOffset, firstInstance] world).2

/-- The method `void DeviceDriver::cmdDrawIndirect`. -/
def cmdDrawIndirect (m_vk : DeviceFunctions Arg Res World) (commandBuffer buffer offset drawCount stride : Arg) : World → World :=
  fun world => (m_vk "cmdDrawIndirect" [commandBuffer, buffer, offset, drawCount, stride] world).2

/-- The method `void DeviceDriver::cmdDrawIndexedIndirect`. -/
def cmdDrawIndexedIndirect (m_vk : DeviceFunctions Arg Res World) (commandBuffer buffer offset drawCount stride : Arg) : World → World :=
  fun world => (m_vk "cmdDrawIndexedIndirect" [commandBuffer, buffer, offset, drawCount, stride] world).2

/-- The method `void DeviceDriver::cmdDispatch`. -/
def cmdDispatch (m_vk : DeviceFunctions Arg Res World) (commandBuffer groupCountX groupCountY groupCountZ : Arg) : World → World :=
  fun world => (m_vk "cmdDispatch" [commandBuffer, groupCountX, groupCountY, groupCountZ] world).2

/-- The method `void DeviceDriver::cmdDispatchIndirect`. -/
def cmdDispatchIndirect (m_vk : DeviceFunctions Arg Res World) (commandBuffer buffer offset : Arg) : World → World :=
  fun world => (m_vk "cmdDispatchIndirect" [commandBuffer, buffer, offset] world).2

/-- The method `void DeviceDriver::cmdCopyBuffer`. -/
def cmdCopyBuffer (m_vk : DeviceFunctions Arg Res World) (commandBuffer srcBuffer dstBuffer regionCount pRegions : Arg) : World → World :=
  fun world => (m_vk "cmdCopyBuffer" [commandBuffer, srcBuffer, dstBuffer, regionCount, pRegions] world).2

/-- The method `void DeviceDriver::cmdCopyImage`. -/
def cmdCopyImage (m_vk : DeviceFunctions Arg Res World) (commandBuffer srcImage srcImageLayout dstImage dstImageLayout regionCount pRegions : Arg) : World → World :=
  fun world => (m_vk "cmdCopyImage" [commandBuffer, srcImage, srcImageLayout, dstImage, dstImageLayout, regionCount, pRegions] world).2

/-- The method `void DeviceDriver::cmdBlitImage`. -/
def cmdBlitImage (m_vk : DeviceFunctions Arg Res World) (commandBuffer srcImage srcImageLayout dstImage dstImageLayout regionCount pRegions filter : Arg) : World → World :=
  fun world => (m_vk "cmdBlitImage" [commandBuffer, srcImage, srcImageLayout, dstImage, dstImageLayout, regionCount, pRegions, filter] world).2

/-- The method `void DeviceDriver::cmdCopyBufferToImage`. -/
def cmdCopyBufferToImage (m_vk : DeviceFunctions Arg Res World) (commandBuffer srcBuffer dstImage dstImageLayout regionCount pRegions : Arg) : World → World :=
  fun world => (m_vk "cmdCopyBufferToImage" [commandBuffer, srcBuffer, dstImage, dstImageLayout, regionCount, pRegions] world).2

/-- The method `void DeviceDriver::cmdCopyImageToBuffer`. -/
def cmdCopyImageToBuffer (m_vk : DeviceFunctions Arg Res World) (commandBuffer srcImage srcImageLayout dstBuffer regionCount pRegions : Arg) : World → World :=
  fun world => (m_vk "cmdCopyImageToBuffer" [commandBuffer, srcImage, srcImageLayout, dstBuffer, regionCount, pRegions] world).2

/-- The method `void DeviceDriver::cmdUpdateBuffer`. -/
def cmdUpdateBuffer (m_vk : DeviceFunctions Arg Res World) (commandBuffer dstBuffer dstOffset dataSize pData : Arg) : World → World :=
  fun world => (m_vk "cmdUpdateBuffer" [commandBuffer, dstBuffer, dstOffset, dataSize, pData] world).2

/-- The method `void DeviceDriver::cmdFillBuffer`. -/
def cmdFillBuffer (m_vk : DeviceFunctions Arg Res World) (commandBuffer dstBuffer dstOffset size data : Arg) : World → World :=
  fun world => (m_vk "cmdFillBuffer" [commandBuffer, dstBuffer, dstOffset, size, data] world).2

/-- The method `void DeviceDriver::cmdClearColorImage`. -/
def cmdClearColorImage (m_vk : DeviceFunctions Arg Res World) (commandBuffer image imageLayout pColor rangeCount pRanges : Arg) : World → World :=
  fun world => (m_vk "cmdClearColorImage" [commandBuffer, image, imageLayout, pColor, rangeCount, pRanges] world).2

/-- The method `void DeviceDriver::cmdClearDepthStencilImage`. -/
def cmdClearDepthStencilImage (m_vk : DeviceFunctions Arg Res World) (commandBuffer image imageLayout pDepthStencil rangeCount pRanges : Arg) : World → World :=
  fun world => (m_vk "cmdClearDepthStencilImage" [commandBuffer, image, imageLayout, pDepthStencil, rangeCount, pRanges] world).2

/-- The method `void DeviceDriver::cmdClearAttachments`. -/
def cmdClearAttachments (m_vk : DeviceFunctions Arg Res World) (commandBuffer attachmentCount pAttachments rectCount pRects : Arg) : World → World :=
  fun world => (m_vk "cmdClearAttachments" [commandBuffer, attachmentCount, pAttachments, rectCount, pRects] world).2

/-- The method `void DeviceDriver::cmdResolveImage`. -/
def cmdResolveImage (m_vk : DeviceFunctions Arg Res World) (commandBuffer srcImage srcImageLayout dstImage dstImageLayout regionCount pRegions : Arg) : World → World :=
  fun world => (m_vk "cmdResolveImage" [commandBuffer, srcImage, srcImageLayout, dstImage, dstImageLayout, regionCount, pRegions] world).2

/-- The method `void DeviceDriver::cmdSetEvent`. -/
def cmdSetEvent (m_vk : DeviceFunctions Arg Res World) (commandBuffer event stageMask : Arg) : World → World :=
  fun world => (m_vk "cmdSetEvent" [commandBuffer, event, stageMask] world).2

/-- The method `void DeviceDriver::cmdResetEvent`. -/
def cmdResetEvent (m_vk : DeviceFunctions Arg Res World) (commandBuffer event stageMask : Arg) : World → World :=
  fun world => (m_vk "cmdResetEvent" [commandBuffer, event, stageMask] world).2

/-- The method `void DeviceDriver::cmdWaitEvents`. -/
def cmdWaitEvents (m_vk : DeviceFunctions Arg Res World) (commandBuffer eventCount pEvents srcStageMask dstStageMask memoryBarrierCount pMemoryBarriers bufferMemoryBarrierCount pBufferMemoryBarriers imageMemoryBarrierCount pImageMemoryBarriers : Arg) : World → World :=
  fun world => (m_vk "cmdWaitEvents" [commandBuffer, eventCount, pEvents, srcStageMask, dstStageMask, memoryBarrierCount, pMemoryBarriers, bufferMemoryBarrierCount, pBufferMemoryBarriers, imageMemoryBarrierCount, pImageMemoryBarriers] world).2

/-- The method `void DeviceDriver::cmdPipelineBarrier`. -/
def cmdPipelineBarrier (m_vk : DeviceFunctions Arg Res World) (commandBuffer srcStageMask dstStageMask dependencyFlags memoryBarrierCount pMemoryBarriers bufferMemoryBarrierCount pBufferMemoryBarriers imageMemoryBarrierCount pImageMemoryBarriers : Arg) : World → World :=
  fun world => (m_vk "cmdPipelineBarrier" [commandBuffer, srcStageMask, dstStageMask, dependencyFlags, memoryBarrierCount, pMemoryBarriers, bufferMemoryBarrierCount, pBufferMemoryBarriers, imageMemoryBarrierCount, pImageMemoryBarriers] world).2

/-- The method `void DeviceDriver::cmdBeginQuery`. -/
def cmdBeginQuery (m_vk : DeviceFunctions Arg Res World) (commandBuffer queryPool query flags : Arg) : World → World :=
  fun world => (m_vk "cmdBeginQuery" [commandBuffer, queryPool, query, flags] world).2

/-- The method `void DeviceDriver::cmdEndQuery`. -/
def cmdEndQuery (m_vk : DeviceFunctions Arg Res World) (commandBuffer queryPool query : Arg) : World → World :=
  fun world => (m_vk "cmdEndQuery" [commandBuffer, queryPool, query] world).2

/-- The method `void DeviceDriver::cmdResetQueryPool`. -/
def cmdResetQueryPool (m_vk : DeviceFunctions Arg Res World) (commandBuffer queryPool firstQuery queryCount : Arg) : World → World :=
  fun world => (m_vk "cmdResetQueryPool" [commandBuffer, queryPool, firstQuery, queryCount] world).2

/-- The method `void DeviceDriver::cmdWriteTimestamp`. -/
def cmdWriteTimestamp (m_vk : DeviceFunctions Arg Res World) (commandBuffer pipelineStage queryPool query : Arg) : World → World :=
  fun world => (m_vk "cmdWriteTimestamp" [commandBuffer, pipelineStage, queryPool, query] world).2

/-- The method `void DeviceDriver::cmdCopyQueryPoolResults`. -/
def cmdCopyQueryPoolResults (m_vk : DeviceFunctions Arg Res World) (commandBuffer queryPool firstQuery queryCount dstBuffer dstOffset stride flags : Arg) : World → World :=
  fun world => (m_vk "cmdCopyQueryPoolResults" [commandBuffer, queryPool, firstQuery, queryCount, dstBuffer, dstOffset, stride, flags] world).2

/-- The method `void DeviceDriver::cmdPushConstants`. -/
def cmdPushConstants (m_vk : DeviceFunctions Arg Res World) (commandBuffer layout stageFlags offset size pValues : Arg) : World → World :=
  fun world => (m_vk "cmdPushConstants" [commandBuffer, layout, stageFlags, offset, size, pValues] world).2

/-- The method `void DeviceDriver::cmdBeginRenderPass`. -/
def cmdBeginRenderPass (m_vk : DeviceFunctions Arg Res World) (commandBuffer pRenderPassBegin contents : Arg) : World → World :=
  fun world => (m_vk "cmdBeginRenderPass" [commandBuffer, pRenderPassBegin, contents] world).2

/-- The method `void DeviceDriver::cmdNextSubpass`. -/
def cmdNextSubpass (m_vk : DeviceFunctions Arg Res World) (commandBuffer contents : Arg) : World → World :=
  fun world => (m_vk "cmdNextSubpass" [commandBuffer, contents] world).2

/-- The method `void DeviceDriver::cmdEndRenderPass`. -/
def cmdEndRenderPass (m_vk : DeviceFunctions Arg Res World) (commandBuffer : Arg) : World → World :=
  fun world => (m_vk "cmdEndRenderPass" [commandBuffer] world).2

/-- The method `void DeviceDriver::cmdExecuteCommands`. -/
def cmdExecuteCommands (m_vk : DeviceFunctions Arg Res World) (commandBuffer commandBufferCount pCommandBuffers : Arg) : World → World :=
  fun world => (m_vk "cmdExecuteCommands" [commandBuffer, commandBufferCount, pCommandBuffers] world).2

/-- The method `VkResult DeviceDriver::bindBufferMemory2`. -/
def bindBufferMemory2 (m_vk : DeviceFunctions Arg Res World) (device bindInfoCount pBindInfos : Arg) : World → Res × World :=
  m_vk "bindBufferMemory2" [device, bindInfoCount, pBindInfos]

/-- The method `VkResult DeviceDriver::bindImageMemory2`. -/
def bindImageMemory2 (m_vk : DeviceFunctions Arg Res World) (device bindInfoCount pBindInfos : Arg) : World → Res × World :=
  m_vk "bindImageMemory2" [device, bindInfoCount, pBindInfos]

/-- The method `void DeviceDriver::getDeviceGroupPeerMemoryFeatures`. -/
def getDeviceGroupPeerMemoryFeatures (m_vk : DeviceFunctions Arg Res World) (device heapIndex localDeviceIndex remoteDeviceIndex pPeerMemoryFeatures : Arg) : World → World :=
  fun world => (m_vk "getDeviceGroupPeerMemoryFeatures" [device, heapIndex, localDeviceIndex, remoteDeviceIndex, pPeerMemoryFeatures] world).2

/-- The method `void DeviceDriver::cmdSetDeviceMask`. -/
def cmdSetDeviceMask (m_vk : DeviceFunctions Arg Res World) (commandBuffer deviceMask : Arg) : World → World :=
  fun world => (m_vk "cmdSetDeviceMask" [commandBuffer, deviceMask] world).2

/-- The method `void DeviceDriver::cmdDispatchBase`. -/
def cmdDispatchBase (m_vk : DeviceFunctions Arg Res World) (commandBuffer baseGroupX baseGroupY baseGroupZ groupCountX groupCountY groupCountZ : Arg) : World → World :=
  fun world => (m_vk "cmdDispatchBase" [commandBuffer, baseGroupX, baseGroupY, baseGroupZ, groupCountX, groupCountY, groupCountZ] world).2

/-- The method `void DeviceDriver::getImageMemoryRequirements2`. -/
def getImageMemoryRequirements2 (m_vk : DeviceFunctions Arg Res World) (device pInfo pMemoryRequirements : Arg) : World → World :=
  fun world => (m_vk "getImageMemoryRequirements2" [device, pInfo, pMemoryRequirements] world).2

/-- The method `void DeviceDriver::getBufferMemoryRequirements2`. -/
def getBufferMemoryRequirements2 (m_vk : DeviceFunctions Arg Res World) (device pInfo pMemoryRequirements : Arg) : World → World :=
  fun world => (m_vk "getBufferMemoryRequirements2" [device, pInfo, pMemoryRequirements] world).2

/-- The method `void DeviceDriver::getDeviceQueue2`. -/
def getDeviceQueue2 (m_vk : DeviceFunctions Arg Res World) (device pQueueInfo pQueue : Arg) : World → World :=
  fun world => (m_vk "getDeviceQueue2" [device, pQueueInfo, pQueue] world).2

/-- The method `VkResult DeviceDriver::createSamplerYcbcrConversion`. -/
def createSamplerYcbcrConversion (m_vk : DeviceFunctions Arg Res World) (device pCreateInfo pAllocator pYcbcrConversion : Arg) : World → Res × World :=
  m_vk "createSamplerYcbcrConversion" [device, pCreateInfo, pAllocator, pYcbcrConversion]

/-- The method `void DeviceDriver::destroySamplerYcbcrConversion`. -/
def destroySamplerYcbcrConversion (m_vk : DeviceFunctions Arg Res World) (device ycbcrConversion pAllocator : Arg) : World → World :=
  fun world => (m_vk "destroySamplerYcbcrConversion" [device, ycbcrConversion, pAllocator] world).2

/-- The method `void DeviceDriver::getDescriptorSetLayoutSupport`. -/
def getDescriptorSetLayoutSupport (m_vk : DeviceFunctions Arg Res World) (device pCreateInfo pSupport : Arg) : World → World :=
  fun world => (m_vk "getDescriptorSetLayoutSupport" [device, pCreateInfo, pSupport] world).2

/-- The method `void DeviceDriver::cmdDrawIndirectCount`. -/
def cmdDrawIndirectCount (m_vk : DeviceFunctions Arg Res World) (commandBuffer buffer offset countBuffer countBufferOffset maxDrawCount stride : Arg) : World → World :=
  fun world => (m_vk "cmdDrawIndirectCount" [commandBuffer, buffer, offset, countBuffer, countBufferOffset, maxDrawCount, stride] world).2

/-- The method `void DeviceDriver::cmdDrawIndexedIndirectCount`. -/
def cmdDrawIndexedIndirectCount (m_vk : DeviceFunctions Arg Res World) (commandBuffer buffer offset countBuffer countBufferOffset maxDrawCount stride : Arg) : World → World :=
  fun world => (m_vk "cmdDrawIndexedIndirectCount" [commandBuffer, buffer, offset, countBuffer, countBufferOffset, maxDrawCount, stride] world).2

/-- The method `VkResult DeviceDriver::createRenderPass2`. -/
def createRenderPass2 (m_vk : DeviceFunctions Arg Res World) (device pCreateInfo pAllocator pRenderPass : Arg) : World → Res × World :=
  m_vk "createRenderPass2" [device, pCreateInfo, pAllocator, pRenderPass]

/-- The method `void DeviceDriver::cmdBeginRenderPass2`. -/
def cmdBeginRenderPass2 (m_vk : DeviceFunctions Arg Res World) (commandBuffer pRenderPassBegin pSubpassBeginInfo : Arg) : World → World :=
  fun world => (m_vk "cmdBeginRenderPass2" [commandBuffer, pRenderPassBegin, pSubpassBeginInfo] world).2

/-- The method `void DeviceDriver::cmdNextSubpass2`. -/
def cmdNextSubpass2 (m_vk : DeviceFunctions Arg Res World) (commandBuffer pSubpassBeginInfo pSubpassEndInfo : Arg) : World → World :=
  fun world => (m_vk "cmdNextSubpass2" [commandBuffer, pSubpassBeginInfo, pSubpassEndInfo] world).2

/-- The method `void DeviceDriver::cmdEndRenderPass2`. -/
def cmdEndRenderPass2 (m_vk : DeviceFunctions Arg Res World) (commandBuffer pSubpassEndInfo : Arg) : World → World :=
  fun world => (m_vk "cmdEndRenderPass2" [commandBuffer, pSubpassEndInfo] world).2

/-- The method `void DeviceDriver::resetQueryPool`. -/
def resetQueryPool (m_vk : DeviceFunctions Arg Res World) (device queryPool firstQuery queryCount : Arg) : World → World :=
  fun world => (m_vk "resetQueryPool" [device, queryPool, firstQuery, queryCount] world).2

/-- The method `VkResult DeviceDriver::getSemaphoreCounterValue`. -/
def getSemaphoreCounterValue (m_vk : DeviceFunctions Arg Res World) (device semaphore pValue : Arg) : World → Res × World :=
  m_vk "getSemaphoreCounterValue" [device, semaphore, pValue]

/-- The method `VkResult DeviceDriver::waitSemaphores`. -/
def waitSemaphores (m_vk : DeviceFunctions Arg Res World) (device pWaitInfo timeout : Arg) : World → Res × World :=
  m_vk "waitSemaphores" [device, pWaitInfo, timeout]

/-- The method `VkResult DeviceDriver::signalSemaphore`. -/
def signalSemaphore (m_vk : DeviceFunctions Arg Res World) (device pSignalInfo : Arg) : World → Res × World :=
  m_vk "signalSemaphore" [device, pSignalInfo]

/-- The method `VkDeviceAddress DeviceDriver::getBufferDeviceAddress`. -/
def getBufferDeviceAddress (m_vk : DeviceFunctions Arg Res World) (device pInfo : Arg) : World → Res × World :=
  m_vk "getBufferDeviceAddress" [device, pInfo]

/-- The method `uint64_t DeviceDriver::getBufferOpaqueCaptureAddress`. -/
def getBufferOpaqueCaptureAddress (m_vk : DeviceFunctions Arg Res World) (device pInfo : Arg) : World → Res × World :=
  m_vk "getBufferOpaqueCaptureAddress" [device, pInfo]

/-- The method `uint64_t DeviceDriver::getDeviceMemoryOpaqueCaptureAddress`. -/
def getDeviceMemoryOpaqueCaptureAddress (m_vk : DeviceFunctions Arg Res World) (device pInfo : Arg) : World → Res × World :=
  m_vk "getDeviceMemoryOpaqueCaptureAddress" [device, pInfo]

/-- The method `void DeviceDriver::getCommandPoolMemoryConsumption`. -/
def getCommandPoolMemoryConsumption (m_vk : DeviceFunctions Arg Res World) (device commandPool commandBuffer pConsumption : Arg) : World → World :=
  fun world => (m_vk "getCommandPoolMemoryConsumption" [device, commandPool, commandBuffer, pConsumption] world).2

/-- The method `VkResult DeviceDriver::getFaultData`. -/
def getFaultData (m_vk : DeviceFunctions Arg Res World) (device faultQueryBehavior pUnrecordedFaults pFaultCount pFaults : Arg) : World → Res × World :=
  m_vk "getFaultData" [device, faultQueryBehavior, pUnrecordedFaults, pFaultCount, pFaults]

/-- The method `VkResult DeviceDriver::createSwapchainKHR`. -/
def createSwapchainKHR (m_vk : DeviceFunctions Arg Res World) (device pCreateInfo pAllocator pSwapchain : Arg) : World → Res × World :=
  m_vk "createSwapchainKHR" [device, pCreateInfo, pAllocator, pSwapchain]

/-- The method `VkResult DeviceDriver::getSwapchainImagesKHR`. -/
def getSwapchainImagesKHR (m_vk : DeviceFunctions Arg Res World) (device swapchain pSwapchainImageCount pSwapchainImages : Arg) : World → Res × World :=
  m_vk "getSwapchainImagesKHR" [device, swapchain, pSwapchainImageCount, pSwapchainImages]

/-- The method `VkResult DeviceDriver::acquireNextImageKHR`. -/
def acquireNextImageKHR (m_vk : DeviceFunctions Arg Res World) (device swapchain timeout semaphore fence pImageIndex : Arg) : World → Res × World :=
  m_vk "acquireNextImageKHR" [device, swapchain, timeout, semaphore, fence, pImageIndex]

/-- The method `VkResult DeviceDriver::queuePresentKHR`. -/
def queuePresentKHR (m_vk : DeviceFunctions Arg Res World) (queue pPresentInfo : Arg) : World → Res × World :=
  m_vk "queuePresentKHR" [queue, pPresentInfo]

/-- The method `VkResult DeviceDriver::getDeviceGroupPresentCapabilitiesKHR`. -/
def getDeviceGroupPresentCapabilitiesKHR (m_vk : DeviceFunctions Arg Res World) (device pDeviceGroupPresentCapabilities : Arg) : World → Res × World :=
  m_vk "getDeviceGroupPresentCapabilitiesKHR" [device, pDeviceGroupPresentCapabilities]

/-- The method `VkResult DeviceDriver::getDeviceGroupSurfacePresentModesKHR`. -/
def getDeviceGroupSurfacePresentModesKHR (m_vk : DeviceFunctions Arg Res World) (device surface pModes : Arg) : World → Res × World :=
  m_vk "getDeviceGroupSurfacePresentModesKHR" [device, surface, pModes]

/-- The method `VkResult DeviceDriver::acquireNextImage2KHR`. -/
def acquireNextImage2KHR (m_vk : DeviceFunctions Arg Res World) (device pAcquireInfo pImageIndex : Arg) : World → Res × World :=
  m_vk "acquireNextImage2KHR" [device, pAcquireInfo, pImageIndex]

/-- The method `VkResult DeviceDriver::createSharedSwapchainsKHR`. -/
def createSharedSwapchainsKHR (m_vk : DeviceFunctions Arg Res World) (device swapchainCount pCreateInfos pAllocator pSwapchains : Arg) : World → Res × World :=
  m_vk "createSharedSwapchainsKHR" [device, swapchainCount, pCreateInfos, pAllocator, pSwapchains]

/-- The method `VkResult DeviceDriver::getMemoryFdKHR`. -/
def getMemoryFdKHR (m_vk : DeviceFunctions Arg Res World) (device pGetFdInfo pFd : Arg) : World → Res × World :=
  m_vk "getMemoryFdKHR" [device, pGetFdInfo, pFd]

/-- The method `VkResult DeviceDriver::getMemoryFdPropertiesKHR`. -/
def getMemoryFdPropertiesKHR (m_vk : DeviceFunctions Arg Res World) (device handleType fd pMemoryFdProperties : Arg) : World → Res × World :=
  m_vk "getMemoryFdPropertiesKHR" [device, handleType, fd, pMemoryFdProperties]

/-- The method `VkResult DeviceDriver::importSemaphoreFdKHR`. -/
def importSemaphoreFdKHR (m_vk : DeviceFunctions Arg Res World) (device pImportSemaphoreFdInfo : Arg) : World → Res × World :=
  m_vk "importSemaphoreFdKHR" [device, pImportSemaphoreFdInfo]

/-- The method `VkResult DeviceDriver::getSemaphoreFdKHR`. -/
def getSemaphoreFdKHR (m_vk : DeviceFunctions Arg Res World) (device pGetFdInfo pFd : Arg) : World → Res × World :=
  m_vk "getSemaphoreFdKHR" [device, pGetFdInfo, pFd]

/-- The method `VkResult DeviceDriver::getSwapchainStatusKHR`. -/
def getSwapchainStatusKHR (m_vk : DeviceFunctions Arg Res World) (device swapchain : Arg) : World → Res × World :=
  m_vk "getSwapchainStatusKHR" [device, swapchain]

/-- The method `VkResult DeviceDriver::importFenceFdKHR`. -/
def importFenceFdKHR (m_vk : DeviceFunctions Arg Res World) (device pImportFenceFdInfo : Arg) : World → Res × World :=
  m_vk "importFenceFdKHR" [device, pImportFenceFdInfo]

/-- The method `VkResult DeviceDriver::getFenceFdKHR`. -/
def getFenceFdKHR (m_vk : DeviceFunctions Arg Res World) (device pGetFdInfo pFd : Arg) : World → Res × World :=
  m_vk "getFenceFdKHR" [device, pGetFdInfo, pFd]

/-- The method `VkResult DeviceDriver::acquireProfilingLockKHR`. -/
def acquireProfilingLockKHR (m_vk : DeviceFunctions Arg Res World) (device pInfo : Arg) : World → Res × World :=
  m_vk "acquireProfilingLockKHR" [device, pInfo]

/-- The method `void DeviceDriver::releaseProfilingLockKHR`. -/
def releaseProfilingLockKHR (m_vk : DeviceFunctions Arg Res World) (device : Arg) : World → World :=
  fun world => (m_vk "releaseProfilingLockKHR" [device] world).2

/-- The method `void DeviceDriver::cmdSetFragmentShadingRateKHR`. -/
def cmdSetFragmentShadingRateKHR (m_vk : DeviceFunctions Arg Res World) (commandBuffer pFragmentSize combinerOps : Arg) : World → World :=
  fun world => (m_vk "cmdSetFragmentShadingRateKHR" [commandBuffer, pFragmentSize, combinerOps] world).2

/-- The method `void DeviceDriver::cmdRefreshObjectsKHR`. -/
def cmdRefreshObjectsKHR (m_vk : DeviceFunctions Arg Res World) (commandBuffer pRefreshObjects : Arg) : World → World :=
  fun world => (m_vk "cmdRefreshObjectsKHR" [commandBuffer, pRefreshObjects] world).2

/-- The method `void DeviceDriver::cmdSetEvent2KHR`. -/
def cmdSetEvent2KHR (m_vk : DeviceFunctions Arg Res World) (commandBuffer event pDependencyInfo : Arg) : World → World :=
  fun world => (m_vk "cmdSetEvent2KHR" [commandBuffer, event, pDependencyInfo] world).2

/-- The method `void DeviceDriver::cmdResetEvent2KHR`. -/
def cmdResetEvent2KHR (m_vk : DeviceFunctions Arg Res World) (commandBuffer event stageMask : Arg) : World → World :=
  fun world => (m_vk "cmdResetEvent2KHR" [commandBuffer, event, stageMask] world).2

/-- The method `void DeviceDriver::cmdWaitEvents2KHR`. -/
def cmdWaitEvents2KHR (m_vk : DeviceFunctions Arg Res World) (commandBuffer eventCount pEvents pDependencyInfos : Arg) : World → World :=
  fun world => (m_vk "cmdWaitEvents2KHR" [commandBuffer, eventCount, pEvents, pDependencyInfos] world).2

/-- The method `void DeviceDriver::cmdPipelineBarrier2KHR`. -/
def cmdPipelineBarrier2KHR (m_vk : DeviceFunctions Arg Res World) (commandBuffer pDependencyInfo : Arg) : World → World :=
  fun world => (m_vk "cmdPipelineBarrier2KHR" [commandBuffer, pDependencyInfo] world).2

/-- The method `void DeviceDriver::cmdWriteTimestamp2KHR`. -/
def cmdWriteTimestamp2KHR (m_vk : DeviceFunctions Arg Res World) (commandBuffer stage queryPool query : Arg) : World → World :=
  fun world => (m_vk "cmdWriteTimestamp2KHR" [commandBuffer, stage, queryPool, query] world).2

/-- The method `VkResult DeviceDriver::queueSubmit2KHR`. -/
def queueSubmit2KHR (m_vk : DeviceFunctions Arg Res World) (queue submitCount pSubmits fence : Arg) : World → Res × World :=
  m_vk "queueSubmit2KHR" [queue, submitCount, pSubmits, fence]

/-- The method `void DeviceDriver::cmdWriteBufferMarker2AMD`. -/
def cmdWriteBufferMarker2AMD (m_vk : DeviceFunctions Arg Res World) (commandBuffer stage dstBuffer dstOffset marker : Arg) : World → World :=
  fun world => (m_vk "cmdWriteBufferMarker2AMD" [commandBuffer, stage, dstBuffer, dstOffset, marker] world).2

/-- The method `void DeviceDriver::getQueueCheckpointData2NV`. -/
def getQueueCheckpointData2NV (m_vk : DeviceFunctions Arg Res World) (queue pCheckpointDataCount pCheckpointData : Arg) : World → World :=
  fun world => (m_vk "getQueueCheckpointData2NV" [queue, pCheckpointDataCount, pCheckpointData] world).2

/-- The method `void DeviceDriver::cmdCopyBuffer2KHR`. -/
def cmdCopyBuffer2KHR (m_vk : DeviceFunctions Arg Res World) (commandBuffer pCopyBufferInfo : Arg) : World → World :=
  fun world => (m_vk "cmdCopyBuffer2KHR" [commandBuffer, pCopyBufferInfo] world).2

/-- The method `void DeviceDriver::cmdCopyImage2KHR`. -/
def cmdCopyImage2KHR (m_vk : DeviceFunctions Arg Res World) (commandBuffer pCopyImageInfo : Arg) : World → World :=
  fun world => (m_vk "cmdCopyImage2KHR" [commandBuffer, pCopyImageInfo] world).2

/-- The method `void DeviceDriver::cmdCopyBufferToImage2KHR`. -/
def cmdCopyBufferToImage2KHR (m_vk : DeviceFunctions Arg Res World) (commandBuffer pCopyBufferToImageInfo : Arg) : World → World :=
  fun world => (m_vk "cmdCopyBufferToImage2KHR" [commandBuffer, pCopyBufferToImageInfo] world).2

/-- The method `void DeviceDriver::cmdCopyImageToBuffer2KHR`. -/
def cmdCopyImageToBuffer2KHR (m_vk : DeviceFunctions Arg Res World) (commandBuffer pCopyImageToBufferInfo : Arg) : World → World :=
  fun world => (m_vk "cmdCopyImageToBuffer2KHR" [commandBuffer, pCopyImageToBufferInfo] world).2

/-- The method `void DeviceDriver::cmdBlitImage2KHR`. -/
def cmdBlitImage2KHR (m_vk : DeviceFunctions Arg Res World) (commandBuffer pBlitImageInfo : Arg) : World → World :=
  fun world => (m_vk "cmdBlitImage2KHR" [commandBuffer, pBlitImageInfo] world).2

/-- The method `void DeviceDriver::cmdResolveImage2KHR`. -/
def cmdResolveImage2KHR (m_vk : DeviceFunctions Arg Res World) (commandBuffer pResolveImageInfo : Arg) : World → World :=
  fun world => (m_vk "cmdResolveImage2KHR" [commandBuffer, pResolveImageInfo] world).2

/-- The method `VkResult DeviceDriver::displayPowerControlEXT`. -/
def displayPowerControlEXT (m_vk : DeviceFunctions Arg Res World) (device display pDisplayPowerInfo : Arg) : World → Res × World :=
  m_vk "displayPowerControlEXT" [device, display, pDisplayPowerInfo]

/-- The method `VkResult DeviceDriver::registerDeviceEventEXT`. -/
def registerDeviceEventEXT (m_vk : DeviceFunctions Arg Res World) (device pDeviceEventInfo pAllocator pFence : Arg) : World → Res × World :=
  m_vk "registerDeviceEventEXT" [device, pDeviceEventInfo, pAllocator, pFence]

/-- The method `VkResult DeviceDriver::registerDisplayEventEXT`. -/
def registerDisplayEventEXT (m_vk : DeviceFunctions Arg Res World) (device display pDisplayEventInfo pAllocator pFence : Arg) : World → Res × World :=
  m_vk "registerDisplayEventEXT" [device, display, pDisplayEventInfo, pAllocator, pFence]

/-- The method `VkResult DeviceDriver::getSwapchainCounterEXT`. -/
def getSwapchainCounterEXT (m_vk : DeviceFunctions Arg Res World) (device swapchain counter pCounterValue : Arg) : World → Res × World :=
  m_vk "getSwapchainCounterEXT" [device, swapchain, counter, pCounterValue]

/-- The method `void DeviceDriver::cmdSetDiscardRectangleEXT`. -/
def cmdSetDiscardRectangleEXT (m_vk : DeviceFunctions Arg Res World) (commandBuffer firstDiscardRectangle discardRectangleCount pDiscardRectangles : Arg) : World → World :=
  fun world => (m_vk "cmdSetDiscardRectangleEXT" [commandBuffer, firstDiscardRectangle, discardRectangleCount, pDiscardRectangles] world).2

/-- The method `void DeviceDriver::setHdrMetadataEXT`. -/
def setHdrMetadataEXT (m_vk : DeviceFunctions Arg Res World) (device swapchainCount pSwapchains pMetadata : Arg) : World → World :=
  fun world => (m_vk "setHdrMetadataEXT" [device, swapchainCount, pSwapchains, pMetadata] world).2

/-- The method `VkResult DeviceDriver::setDebugUtilsObjectNameEXT`. -/
def setDebugUtilsObjectNameEXT (m_vk : DeviceFunctions Arg Res World) (device pNameInfo : Arg) : World → Res × World :=
  m_vk "setDebugUtilsObjectNameEXT" [device, pNameInfo]

/-- The method `VkResult DeviceDriver::setDebugUtilsObjectTagEXT`. -/
def setDebugUtilsObjectTagEXT (m_vk : DeviceFunctions Arg Res World) (device pTagInfo : Arg) : World → Res × World :=
  m_vk "setDebugUtilsObjectTagEXT" [device, pTagInfo]

/-- The method `void DeviceDriver::queueBeginDebugUtilsLabelEXT`. -/
def queueBeginDebugUtilsLabelEXT (m_vk : DeviceFunctions Arg Res World) (queue pLabelInfo : Arg) : World → World :=
  fun world => (m_vk "queueBeginDebugUtilsLabelEXT" [queue, pLabelInfo] world).2

/-- The method `void DeviceDriver::queueEndDebugUtilsLabelEXT`. -/
def queueEndDebugUtilsLabelEXT (m_vk : DeviceFunctions Arg Res World) (queue : Arg) : World → World :=
  fun world => (m_vk "queueEndDebugUtilsLabelEXT" [queue] world).2

/-- The method `void DeviceDriver::queueInsertDebugUtilsLabelEXT`. -/
def queueInsertDebugUtilsLabelEXT (m_vk : DeviceFunctions Arg Res World) (queue pLabelInfo : Arg) : World → World :=
  fun world => (m_vk "queueInsertDebugUtilsLabelEXT" [queue, pLabelInfo] world).2

/-- The method `void DeviceDriver::cmdBeginDebugUtilsLabelEXT`. -/
def cmdBeginDebugUtilsLabelEXT (m_vk : DeviceFunctions Arg Res World) (commandBuffer pLabelInfo : Arg) : World → World :=
  fun world => (m_vk "cmdBeginDebugUtilsLabelEXT" [commandBuffer, pLabelInfo] world).2

/-- The method `void DeviceDriver::cmdEndDebugUtilsLabelEXT`. -/
def cmdEndDebugUtilsLabelEXT (m_vk : DeviceFunctions Arg Res World) (commandBuffer : Arg) : World → World :=
  fun world => (m_vk "cmdEndDebugUtilsLabelEXT" [commandBuffer] world).2

/-- The method `void DeviceDriver::cmdInsertDebugUtilsLabelEXT`. -/
def cmdInsertDebugUtilsLabelEXT (m_vk : DeviceFunctions Arg Res World) (commandBuffer pLabelInfo : Arg) : World → World :=
  fun world => (m_vk "cmdInsertDebugUtilsLabelEXT" [commandBuffer, pLabelInfo] world).2

/-- The method `void DeviceDriver::cmdSetSampleLocationsEXT`. -/
def cmdSetSampleLocationsEXT (m_vk : DeviceFunctions Arg Res World) (commandBuffer pSampleLocationsInfo : Arg) : World → World :=
  fun world => (m_vk "cmdSetSampleLocationsEXT" [commandBuffer, pSampleLocationsInfo] world).2

/-- The method `VkResult DeviceDriver::getImageDrmFormatModifierPropertiesEXT`. -/
def getImageDrmFormatModifierPropertiesEXT (m_vk : DeviceFunctions Arg Res World) (device image pProperties : Arg) : World → Res × World :=
  m_vk "getImageDrmFormatModifierPropertiesEXT" [device, image, pProperties]

/-- The method `VkResult DeviceDriver::getMemoryHostPointerPropertiesEXT`. -/
def getMemoryHostPointerPropertiesEXT (m_vk : DeviceFunctions Arg Res World) (device handleType pHostPointer pMemoryHostPointerProperties : Arg) : World → Res × World :=
  m_vk "getMemoryHostPointerPropertiesEXT" [device, handleType, pHostPointer, pMemoryHostPointerProperties]

/-- The method `VkResult DeviceDriver::getCalibratedTimestampsEXT`. -/
def getCalibratedTimestampsEXT (m_vk : DeviceFunctions Arg Res World) (device timestampCount pTimestampInfos pTimestamps pMaxDeviation : Arg) : World → Res × World :=
  m_vk "getCalibratedTimestampsEXT" [device, timestampCount, pTimestampInfos, pTimestamps, pMaxDeviation]

/-- The method `void DeviceDriver::cmdSetLineStippleEXT`. -/
def cmdSetLineStippleEXT (m_vk : DeviceFunctions Arg Res World) (commandBuffer lineStippleFactor lineStipplePattern : Arg) : World → World :=
  fun world => (m_vk "cmdSetLineStippleEXT" [commandBuffer, lineStippleFactor, lineStipplePattern] world).2

/-- The method `void DeviceDriver::cmdSetCullModeEXT`. -/
def cmdSetCullModeEXT (m_vk : DeviceFunctions Arg Res World) (commandBuffer cullMode : Arg) : World → World :=
  fun world => (m_vk "cmdSetCullModeEXT" [commandBuffer, cullMode] world).2

/-- The method `void DeviceDriver::cmdSetFrontFaceEXT`. -/
def cmdSetFrontFaceEXT (m_vk : DeviceFunctions Arg Res World) (commandBuffer frontFace : Arg) : World → World :=
  fun world => (m_vk "cmdSetFrontFaceEXT" [commandBuffer, frontFace] world).2

/-- The method `void DeviceDriver::cmdSetPrimitiveTopologyEXT`. -/
def cmdSetPrimitiveTopologyEXT (m_vk : DeviceFunctions Arg Res World) (commandBuffer primitiveTopology : Arg) : World → World :=
  fun world => (m_vk "cmdSetPrimitiveTopologyEXT" [commandBuffer, primitiveTopology] world).2

/-- The method `void DeviceDriver::cmdSetViewportWithCountEXT`. -/
def cmdSetViewportWithCountEXT (m_vk : DeviceFunctions Arg Res World) (commandBuffer viewportCount pViewports : Arg) : World → World :=
  fun world => (m_vk "cmdSetViewportWithCountEXT" [commandBuffer, viewportCount, pViewports] world).2

/-- The method `void DeviceDriver::cmdSetScissorWithCountEXT`. -/
def cmdSetScissorWithCountEXT (m_vk : DeviceFunctions Arg Res World) (commandBuffer scissorCount pScissors : Arg) : World → World :=
  fun world => (m_vk "cmdSetScissorWithCountEXT" [commandBuffer, scissorCount, pScissors] world).2

/-- The method `void DeviceDriver::cmdBindVertexBuffers2EXT`. -/
def cmdBindVertexBuffers2EXT (m_vk : DeviceFunctions Arg Res World) (commandBuffer firstBinding bindingCount pBuffers pOffsets pSizes pStrides : Arg) : World → World :=
  fun world => (m_vk "cmdBindVertexBuffers2EXT" [commandBuffer, firstBinding, bindingCount, pBuffers, pOffsets, pSizes, pStrides] world).2

/-- The method `void DeviceDriver::cmdSetDepthTestEnableEXT`. -/
def cmdSetDepthTestEnableEXT (m_vk : DeviceFunctions Arg Res World) (commandBuffer depthTestEnable : Arg) : World → World :=
  fun world => (m_vk "cmdSetDepthTestEnableEXT" [commandBuffer, depthTestEnable] world).2

/-- The method `void DeviceDriver::cmdSetDepthWriteEnableEXT`. -/
def cmdSetDepthWriteEnableEXT (m_vk : DeviceFunctions Arg Res World) (commandBuffer depthWriteEnable : Arg) : World → World :=
  fun world => (m_vk "cmdSetDepthWriteEnableEXT" [commandBuffer, depthWriteEnable] world).2

/-- The method `void DeviceDriver::cmdSetDepthCompareOpEXT`. -/
def cmdSetDepthCompareOpEXT (m_vk : DeviceFunctions Arg Res World) (commandBuffer depthCompareOp : Arg) : World → World :=
  fun world => (m_vk "cmdSetDepthCompareOpEXT" [commandBuffer, depthCompareOp] world).2

/-- The method `void DeviceDriver::cmdSetDepthBoundsTestEnableEXT`. -/
def cmdSetDepthBoundsTestEnableEXT (m_vk : DeviceFunctions Arg Res World) (commandBuffer depthBoundsTestEnable : Arg) : World → World :=
  fun world => (m_vk "cmdSetDepthBoundsTestEnableEXT" [commandBuffer, depthBoundsTestEnable] world).2

/-- The method `void DeviceDriver::cmdSetStencilTestEnableEXT`. -/
def cmdSetStencilTestEnableEXT (m_vk : DeviceFunctions Arg Res World) (commandBuffer stencilTestEnable : Arg) : World → World :=
  fun world => (m_vk "cmdSetStencilTestEnableEXT" [commandBuffer, stencilTestEnable] world).2

/-- The method `void DeviceDriver::cmdSetStencilOpEXT`. -/
def cmdSetStencilOpEXT (m_vk : DeviceFunctions Arg Res World) (commandBuffer faceMask failOp passOp depthFailOp compareOp : Arg) : World → World :=
  fun world => (m_vk "cmdSetStencilOpEXT" [commandBuffer, faceMask, failOp, passOp, depthFailOp, compareOp] world).2

/-- The method `void DeviceDriver::cmdSetVertexInputEXT`. -/
def cmdSetVertexInputEXT (m_vk : DeviceFunctions Arg Res World) (commandBuffer vertexBindingDescriptionCount pVertexBindingDescriptions vertexAttributeDescriptionCount pVertexAttributeDescriptions : Arg) : World → World :=
  fun world => (m_vk "cmdSetVertexInputEXT" [commandBuffer, vertexBindingDescriptionCount, pVertexBindingDescriptions, vertexAttributeDescriptionCount, pVertexAttributeDescriptions] world).2

/-- The method `void DeviceDriver::cmdSetPatchControlPointsEXT`. -/
def cmdSetPatchControlPointsEXT (m_vk : DeviceFunctions Arg Res World) (commandBuffer patchControlPoints : Arg) : World → World :=
  fun world => (m_vk "cmdSetPatchControlPointsEXT" [commandBuffer, patchControlPoints] world).2

/-- The method `void DeviceDriver::cmdSetRasterizerDiscardEnableEXT`. -/
def cmdSetRasterizerDiscardEnableEXT (m_vk : DeviceFunctions Arg Res World) (commandBuffer rasterizerDiscardEnable : Arg) : World → World :=
  fun world => (m_vk "cmdSetRasterizerDiscardEnableEXT" [commandBuffer, rasterizerDiscardEnable] world).2

/-- The method `void DeviceDriver::cmdSetDepthBiasEnableEXT`. -/
def cmdSetDepthBiasEnableEXT (m_vk : DeviceFunctions Arg Res World) (commandBuffer depthBiasEnable : Arg) : World → World :=
  fun world => (m_vk "cmdSetDepthBiasEnableEXT" [commandBuffer, depthBiasEnable] world).2

/-- The method `void DeviceDriver::cmdSetLogicOpEXT`. -/
def cmdSetLogicOpEXT (m_vk : DeviceFunctions Arg Res World) (commandBuffer logicOp : Arg) : World → World :=
  fun world => (m_vk "cmdSetLogicOpEXT" [commandBuffer, logicOp] world).2

/-- The method `void DeviceDriver::cmdSetPrimitiveRestartEnableEXT`. -/
def cmdSetPrimitiveRestartEnableEXT (m_vk : DeviceFunctions Arg Res World) (commandBuffer primitiveRestartEnable : Arg) : World → World :=
  fun world => (m_vk "cmdSetPrimitiveRestartEnableEXT" [commandBuffer, primitiveRestartEnable] world).2

/-- The method `void DeviceDriver::cmdSetColorWriteEnableEXT`. -/
def cmdSetColorWriteEnableEXT (m_vk : DeviceFunctions Arg Res World) (commandBuffer attachmentCount pColorWriteEnables : Arg) : World → World :=
  fun world => (m_vk "cmdSetColorWriteEnableEXT" [commandBuffer, attachmentCount, pColorWriteEnables] world).2

end DeviceDriver

end vk

/-! ## `SerialStorage`: the serialized acceleration-structure header -/

namespace vk
namespace SerialStorage

/-- Modelled from the spec: the macro `DE_SERIALIZED_FIELD (name, size)`, which is
defined outside the given sources. The header is "a fixed byte layout" of
consecutive fields: inside the enumeration the macro gives `name` the running
value, which is the offset of the field, and leaves the running value at
`name + size` for the enumerator that follows. The pair is (value of `name`,
value of the next enumerator). -/
def DE_SERIALIZED_FIELD (running size : Nat) : Nat × Nat :=
  (running, running + size)

/-- The enumerators of the anonymous enumeration in `SerialStorage`. -/
structure SerializedFields where
  DRIVER_UUID : Nat
  COMPAT_UUID : Nat
  SERIALIZED_SIZE : Nat
  DESERIALIZED_SIZE : Nat
  HANDLES_COUNT : Nat
  SERIAL_STORAGE_SIZE_MIN : Nat
  deriving DecidableEq, Repr

/-- The value `sizeof (uint64_t)`. -/
def sizeofUint64 : Nat := 8

/-- The anonymous enumeration in `SerialStorage`, enumerator by enumerator; the
first enumerator of an enumeration has the value 0. -/
def serializedFields (VK_UUID_SIZE : Nat) : SerializedFields :=
  let driverUuid := DE_SERIALIZED_FIELD 0 VK_UUID_SIZE
  let compatUuid := DE_SERIALIZED_FIELD driverUuid.2 VK_UUID_SIZE
  let serializedSize := DE_SERIALIZED_FIELD compatUuid.2 sizeofUint64
  let deserializedSize := DE_SERIALIZED_FIELD serializedSize.2 sizeofUint64
  let handlesCount := DE_SERIALIZED_FIELD deserializedSize.2 sizeofUint64
  { DRIVER_UUID := driverUuid.1
    COMPAT_UUID := compatUuid.1
    SERIALIZED_SIZE := serializedSize.1
    DESERIALIZED_SIZE := deserializedSize.1
    HANDLES_COUNT := handlesCount.1
    SERIAL_STORAGE_SIZE_MIN := handlesCount.2 }

/-- A non-static data member: its name, `sizeof` and `alignof`. -/
structure Member where
  name : String
  size : Nat
  align : Nat
  deriving DecidableEq, Repr

/-- The least multiple of `align` that is not below `offset`. -/
def alignUp (offset align : Nat) : Nat :=
  (offset + align - 1) / align * align

/-- Modelled from the spec: the placement of the members of a standard-layout
`struct`, which the compiler performs and the sources do not contain. The header
is "a fixed byte layout": members are placed in declaration order, each at the
first offset at or after the end of the previous one that satisfies its
alignment. -/
def structOffsets : Nat → List Member → List (String × Nat)
  | _, [] => []
  | offset, m :: ms =>
    (m.name, alignUp offset m.align) :: structOffsets (alignUp offset m.align + m.size) ms

/-- Offset recorded for a member name. -/
def offsetOf (offsets : List (String × Nat)) (name : String) : Option Nat :=
  (offsets.find? (fun entry => entry.1 == name)).map Prod.snd

/-- The anonymous `struct { uint8_t driverUUID[VK_UUID_SIZE]; uint8_t compactUUID[VK_UUID_SIZE]; }`
inside the union of `AccelerationStructureHeader`. -/
def uuidPairMembers (VK_UUID_SIZE : Nat) : List Member :=
  [⟨"driverUUID", VK_UUID_SIZE, 1⟩, ⟨"compactUUID", VK_UUID_SIZE, 1⟩]

/-- The members of `struct alignas (16) AccelerationStructureHeader`; the anonymous
union holds the UUID pair and `uint8_t uuids[VK_UUID_SIZE * 2]`, both at its
start, and `VkDeviceAddress` is a 64-bit integer. -/
def headerMembers (VK_UUID_SIZE : Nat) : List Member :=
  [⟨"uuids", VK_UUID_SIZE * 2, 1⟩,
   ⟨"serializedSize", sizeofUint64, sizeofUint64⟩,
   ⟨"deserializedSize", sizeofUint64, sizeofUint64⟩,
   ⟨"handleCount", sizeofUint64, sizeofUint64⟩,
   ⟨"handleArray", sizeofUint64, sizeofUint64⟩]

/-- Offset of a member of `AccelerationStructureHeader` from the start of the
header; the members of the anonymous UUID pair are found inside the union. -/
def headerOffsetOf (VK_UUID_SIZE : Nat) (name : String) : Option Nat :=
  match offsetOf (structOffsets 0 (uuidPairMembers VK_UUID_SIZE)) name with
  | some inner =>
    (offsetOf (structOffsets 0 (headerMembers VK_UUID_SIZE)) "uuids").map (fun u => u + inner)
  | none => offsetOf (structOffsets 0 (headerMembers VK_UUID_SIZE)) name

end SerialStorage
end vk

/-! ## Conditional rendering test utilities -/

namespace vkt
namespace conditional

open vk (Byte Failure deMemcpy deMemset usize)

/-- What a test utility throws: `TCU_FAIL (msg)` or
`TCU_THROW (NotSupportedError, msg)`. -/
inductive Thrown where
  | fail (msg : String)
  | notSupported (msg : String)
  deriving DecidableEq, Repr

/-- The value `VK_FALSE` of a `VkBool32`. -/
def VK_FALSE : Nat := 0

/-- The structure `VkPhysicalDeviceConditionalRenderingFeaturesEXT`, its two
`VkBool32` features. -/
structure VkPhysicalDeviceConditionalRenderingFeaturesEXT where
  conditionalRendering : Nat
  inheritedConditionalRendering : Nat
  deriving DecidableEq, Repr

/-- What the utilities use of `vkt::Context`: `requireDeviceFunctionality`, which
returns normally when the functionality is present and throws otherwise, and
the queried conditional-rendering features. -/
structure Context where
  requireDeviceFunctionality : String → Except Thrown Unit
  getConditionalRenderingFeaturesEXT : VkPhysicalDeviceConditionalRenderingFeaturesEXT

/-- The object representation of `data.conditionValue`: `sizeofConditionValue`
bytes. -/
structure ConditionValue (sizeofConditionValue : Nat) where
  bytes : List Byte
  size_eq : bytes.length = sizeofConditionValue

/-- The members of `ConditionalData` the utilities read. -/
structure ConditionalData (sizeofConditionValue : Nat) where
  conditionInPrimaryCommandBuffer : Bool
  conditionInSecondaryCommandBuffer : Bool
  conditionInverted : Bool
  conditionInherited : Bool
  conditionValue : ConditionValue sizeofConditionValue
  padConditionValue : Bool
  expectCommandExecution : Bool

/-- The function `checkConditionalRenderingCapabilities`. -/
def checkConditionalRenderingCapabilities {sizeofConditionValue : Nat} (context : Context)
    (data : ConditionalData sizeofConditionValue) : Except Thrown Unit := do
  context.requireDeviceFunctionality "VK_EXT_conditional_rendering"
  let conditionalRenderingFeatures := context.getConditionalRenderingFeaturesEXT
  if conditionalRenderingFeatures.conditionalRendering = VK_FALSE then
    throw (Thrown.fail
      "conditionalRendering feature not supported but VK_EXT_conditional_rendering present")
  if data.conditionInherited && conditionalRenderingFeatures.inheritedConditionalRendering == 0 then
    throw (Thrown.notSupported "Device does not support inherited conditional rendering")
  pure ()

/-- A `Draw::Buffer` as far as the utilities are concerned: its size in bytes
and the host-visible memory bound to it, from the mapped pointer on. -/
structure Buffer where
  size : Nat
  memory : List Byte

/-- The function `createConditionalRenderingBuffer`; `hostMemory` is the mapped
memory `Draw::Buffer::createAndAlloc` binds to the new buffer, with whatever
bytes it holds. -/
def createConditionalRenderingBuffer {sizeofConditionValue : Nat} (hostMemory : List Byte)
    (data : ConditionalData sizeofConditionValue) : Except Failure Buffer := do
  -- When padding the condition value, it will be surounded by two additional values with nonzero bytes in them.
  let bufferSize := usize (usize sizeofConditionValue * (if data.padConditionValue then 3 else 1))
  let dataOffset := usize (if data.padConditionValue then sizeofConditionValue else 0)
  let filled ← deMemset hostMemory 1 (usize bufferSize)
  let written ← deMemcpy filled dataOffset data.conditionValue.bytes
  pure { size := bufferSize, memory := written }

end conditional
end vkt

/-! ## `vkObjUtil.cpp`: `makeBufferCreateInfo` -/

namespace vk

/-- The enumeration `VkStructureType`, as far as `makeBufferCreateInfo` uses it. -/
inductive VkStructureType where
  | BUFFER_CREATE_INFO
  | OTHER (value : Nat)
  deriving DecidableEq, Repr

/-- The enumeration `VkSharingMode`. -/
inductive VkSharingMode where
  | EXCLUSIVE
  | CONCURRENT
  deriving DecidableEq, Repr

/-- The structure `VkBufferCreateInfo`; a pointer is `none` when it is `DE_NULL`. -/
structure VkBufferCreateInfo (Pointer : Type) where
  sType : VkStructureType
  pNext : Option Pointer
  flags : Nat
  size : Nat
  usage : Nat
  sharingMode : VkSharingMode
  queueFamilyIndexCount : Nat
  pQueueFamilyIndices : Option Pointer

/-- The function `makeBufferCreateInfo (size, usage)`. -/
def makeBufferCreateInfo {Pointer : Type} (size usage : Nat) : VkBufferCreateInfo Pointer :=
  { sType := VkStructureType.BUFFER_CREATE_INFO
    pNext := none
    flags := 0
    size := size
    usage := usage
    sharingMode := VkSharingMode.EXCLUSIVE
    queueFamilyIndexCount := 0
    pQueueFamilyIndices := none }

/-- The overload `makeBufferCreateInfo (size, usage, queueFamilyIndices)`;
`dataOrNull` is the helper `de::dataOrNull`, which is defined outside the given
sources and maps the vector to the pointer it yields. -/
def makeBufferCreateInfoIndices {Pointer : Type} (dataOrNull : List Nat → Option Pointer)
    (size usage : Nat) (queueFamilyIndices : List Nat) : VkBufferCreateInfo Pointer :=
  let queueFamilyIndexCount := u32 queueFamilyIndices.length
  let pQueueFamilyIndices := dataOrNull queueFamilyIndices
  { sType := VkStructureType.BUFFER_CREATE_INFO
    pNext := none
    flags := 0
    size := size
    usage := usage
    sharingMode := VkSharingMode.EXCLUSIVE
    queueFamilyIndexCount := queueFamilyIndexCount
    pQueueFamilyIndices := pQueueFamilyIndices }

end vk

/-! ## Auxiliary facts: machine arithmetic and buffers -/

namespace vk

theorem usize_of_lt {n : Nat} (h : n < SIZE_RANGE) : usize n = n :=
  Nat.mod_eq_of_lt h

theorem u32_of_lt {n : Nat} (h : n < UINT32_RANGE) : u32 n = n :=
  Nat.mod_eq_of_lt h

theorem usizeSub_of_le {a b : Nat} (hb : b ≤ a) (ha : a < SIZE_RANGE) : usizeSub a b = a - b := by
  unfold usizeSub usize SIZE_RANGE at *
  omega

theorem resize_grow (l : List Byte) (n : Nat) (value : Byte) :
    resize l (l.length + n) value = l ++ List.replicate n value := by
  unfold resize
  by_cases h : n = 0
  · subst h
    simp
  · have : ¬ (l.length + n ≤ l.length) := by omega
    simp [this]

theorem deMemcpy_mid (a old rest src : List Byte) (h : src.length = old.length) :
    deMemcpy (a ++ old ++ rest) a.length src = .ok (a ++ src ++ rest) := by
  unfold deMemcpy
  have hle : a.length + src.length ≤ (a ++ old ++ rest).length := by
    simp only [List.length_append]
    omega
  rw [if_pos hle]
  congr 2
  · simp [List.append_assoc]
  · rw [h, ← List.length_append, List.drop_left]

theorem deMemcpy_zeros (a src : List Byte) (n : Nat) (h : src.length ≤ n) :
    deMemcpy (a ++ List.replicate n 0) a.length src =
      .ok (a ++ src ++ List.replicate (n - src.length) 0) := by
  have hsplit : List.replicate n (0 : Byte) =
      List.replicate src.length 0 ++ List.replicate (n - src.length) 0 := by
    rw [← List.replicate_add]
    congr 1
    omega
  rw [hsplit, ← List.append_assoc]
  exact deMemcpy_mid a _ _ src (by simp)

end vk

namespace vk
namespace RaytracedGeometry

variable {kVertexSize : Nat}

theorem addNativeVertex_newBlock (g : RaytracedGeometry kVertexSize) (v : NativeVertex kVertexSize)
    (hnew : g.isTrianglesType = true ∨ g.m_vertexCount % 2 = 0)
    (hB : kVertexSize ≤ g.m_blockSize)
    (hfit : g.m_vertices.length + g.m_blockSize < SIZE_RANGE) :
    g.addNativeVertex v = .ok
      { g with
        m_vertices := g.m_vertices ++ v.bytes ++ List.replicate (g.m_blockSize - kVertexSize) 0
        m_vertexCount := usize (g.m_vertexCount + 1) } := by
  have hcopy : deMemcpy (g.m_vertices ++ List.replicate g.m_blockSize 0) g.m_vertices.length v.bytes
      = .ok (g.m_vertices ++ v.bytes ++ List.replicate (g.m_blockSize - kVertexSize) 0) := by
    have := deMemcpy_zeros g.m_vertices v.bytes g.m_blockSize (by rw [v.size_eq]; exact hB)
    rw [v.size_eq] at this
    exact this
  unfold addNativeVertex getBlockSize
  simp only [ite_self]
  rw [usize_of_lt hfit, resize_grow, hcopy]
  rcases hnew with h | h
  · simp only [h, if_true]
    rfl
  · by_cases ht : g.isTrianglesType = true
    · simp only [ht, if_true]
      rfl
    · simp only [ht, h, if_true]
      rfl

theorem addNativeVertex_secondSlot (g : RaytracedGeometry kVertexSize) (v : NativeVertex kVertexSize)
    (a old pad : List Byte)
    (htype : g.isTrianglesType = false) (hodd : g.m_vertexCount % 2 = 1)
    (hbuf : g.m_vertices = a ++ old ++ pad) (hold : old.length = kVertexSize)
    (hB : g.m_blockSize = kVertexSize + kVertexSize + pad.length)
    (hA : kVertexSize ≤ a.length)
    (hfit : g.m_vertices.length < SIZE_RANGE) :
    g.addNativeVertex v = .ok
      { g with
        m_vertices := a ++ v.bytes ++ pad
        m_vertexCount := usize (g.m_vertexCount + 1) } := by
  have hlen : g.m_vertices.length = a.length + kVertexSize + pad.length := by
    rw [hbuf]
    simp only [List.length_append, hold]
  have hoff : usize (usizeSub g.m_vertices.length g.m_blockSize + kVertexSize) = a.length := by
    rw [usizeSub_of_le (by omega) hfit, usize_of_lt (by omega)]
    omega
  have hcopy : deMemcpy g.m_vertices a.length v.bytes = .ok (a ++ v.bytes ++ pad) := by
    rw [hbuf]
    exact deMemcpy_mid a old pad v.bytes (by rw [v.size_eq, hold])
  unfold addNativeVertex getBlockSize
  simp only [ite_self]
  rw [hoff, hcopy]
  have hne : ¬ (g.m_vertexCount % 2 = 0) := by omega
  simp only [htype, hne, if_false]
  rfl

end RaytracedGeometry
end vk

/-! ## The documented layouts, vertex by vertex -/

namespace vk

variable {kVertexSize : Nat}

theorem trianglesLayout_snoc (p : Nat) (vs : List (NativeVertex kVertexSize))
    (v : NativeVertex kVertexSize) :
    trianglesLayout p (vs ++ [v]) = trianglesLayout p vs ++ trianglesBlock p v := by
  simp [trianglesLayout, List.flatMap_append]

theorem trianglesBlock_length (p : Nat) (v : NativeVertex kVertexSize) :
    (trianglesBlock p v).length = kVertexSize * (1 + p) := by
  simp only [trianglesBlock, List.length_append, List.length_replicate, v.size_eq]
  ring

theorem trianglesLayout_length (p : Nat) (vs : List (NativeVertex kVertexSize)) :
    (trianglesLayout p vs).length = vs.length * (kVertexSize * (1 + p)) := by
  induction vs using List.reverseRecOn with
  | nil => simp [trianglesLayout]
  | append_singleton vs v ih =>
    rw [trianglesLayout_snoc, List.length_append, ih, trianglesBlock_length]
    simp only [List.length_append, List.length_singleton]
    ring

theorem aabbsSlot_length (vs : List (NativeVertex kVertexSize)) (i : Nat) :
    (aabbsSlot vs i).length = kVertexSize := by
  unfold aabbsSlot
  cases vs[i]? with
  | none => simp
  | some v => exact v.size_eq

theorem aabbsSlot_append_left (us ws : List (NativeVertex kVertexSize)) (i : Nat)
    (h : i < us.length) : aabbsSlot (us ++ ws) i = aabbsSlot us i := by
  unfold aabbsSlot
  rw [List.getElem?_append_left h]

theorem aabbsSlot_append_right (us ws : List (NativeVertex kVertexSize)) (i : Nat) :
    aabbsSlot (us ++ ws) (us.length + i) = aabbsSlot ws i := by
  unfold aabbsSlot
  rw [List.getElem?_append_right (by omega)]
  simp

/-- Whole blocks are independent of what follows them. -/
theorem aabbsLayout_append (p : Nat) (us ws : List (NativeVertex kVertexSize))
    (heven : us.length % 2 = 0) :
    aabbsLayout p (us ++ ws) = aabbsLayout p us ++ aabbsLayout p ws := by
  unfold aabbsLayout
  have hcount : (List.length (us ++ ws) + 1) / 2 = (us.length + 1) / 2 + (ws.length + 1) / 2 := by
    simp only [List.length_append]
    omega
  rw [hcount, List.range_add, List.flatMap_append]
  congr 1
  · apply List.flatMap_congr
    intro j hj
    have hj2 : j < (us.length + 1) / 2 := List.mem_range.mp hj
    unfold aabbsBlock
    rw [aabbsSlot_append_left us ws (2 * j) (by omega),
      aabbsSlot_append_left us ws (2 * j + 1) (by omega)]
  · rw [List.flatMap_map]
    apply List.flatMap_congr
    intro j _
    unfold aabbsBlock
    have h0 : 2 * ((us.length + 1) / 2 + j) = us.length + 2 * j := by omega
    have h1 : us.length + 2 * j + 1 = us.length + (2 * j + 1) := by omega
    show aabbsSlot (us ++ ws) (2 * ((us.length + 1) / 2 + j)) ++
        aabbsSlot (us ++ ws) (2 * ((us.length + 1) / 2 + j) + 1) ++ _ = _
    rw [h0, h1, aabbsSlot_append_right, aabbsSlot_append_right]

theorem aabbsLayout_single (p : Nat) (u : NativeVertex kVertexSize) :
    aabbsLayout p [u] =
      u.bytes ++ List.replicate kVertexSize 0 ++ List.replicate (p * kAABBPadBaseSize) 0 := by
  have hr : List.range 1 = [0] := rfl
  simp [aabbsLayout, aabbsBlock, aabbsSlot, hr]

theorem aabbsLayout_pair (p : Nat) (u v : NativeVertex kVertexSize) :
    aabbsLayout p [u, v] = u.bytes ++ v.bytes ++ List.replicate (p * kAABBPadBaseSize) 0 := by
  have hr : List.range 1 = [0] := rfl
  simp [aabbsLayout, aabbsBlock, aabbsSlot, hr]

theorem aabbsLayout_length (p : Nat) (vs : List (NativeVertex kVertexSize)) :
    (aabbsLayout p vs).length =
      ((vs.length + 1) / 2) * (2 * kVertexSize + p * kAABBPadBaseSize) := by
  unfold aabbsLayout
  generalize (vs.length + 1) / 2 = m
  induction m with
  | zero => simp
  | succ m ih =>
    rw [List.range_succ, List.flatMap_append, List.length_append, ih]
    simp only [List.flatMap_singleton, aabbsBlock, List.length_append, aabbsSlot_length,
      List.length_replicate]
    ring

theorem flatMap_range_length (f : Nat → List Byte) (b : Nat) (hf : ∀ j, (f j).length = b)
    (m : Nat) : ((List.range m).flatMap f).length = m * b := by
  induction m with
  | zero => simp
  | succ m ih =>
    rw [List.range_succ, List.flatMap_append, List.length_append, ih]
    simp only [List.flatMap_singleton, hf]
    ring

/-- Block `j` of a buffer made of `m` blocks of `b` bytes each. -/
theorem flatMap_range_block (f : Nat → List Byte) (b : Nat) (hf : ∀ j, (f j).length = b)
    (m j : Nat) (hj : j < m) :
    (((List.range m).flatMap f).drop (j * b)).take b = f j := by
  induction m with
  | zero => omega
  | succ m ih =>
    rw [List.range_succ, List.flatMap_append, List.flatMap_singleton]
    have hlen := flatMap_range_length f b hf m
    by_cases hjm : j = m
    · subst hjm
      rw [← hlen, List.drop_left, ← hf j, List.take_length]
    · have hlt : j < m := by omega
      have hle : j * b + b ≤ m * b := by
        have : (j + 1) * b ≤ m * b := Nat.mul_le_mul_right b (by omega)
        rw [Nat.add_mul, Nat.one_mul] at this
        exact this
      rw [List.drop_append_of_le_length (by omega),
        List.take_append_of_le_length (by rw [List.length_drop]; omega)]
      exact ih hlt

theorem aabbsBlock_length (p : Nat) (vs : List (NativeVertex kVertexSize)) (j : Nat) :
    (aabbsBlock p vs j).length = 2 * kVertexSize + p * kAABBPadBaseSize := by
  simp only [aabbsBlock, List.length_append, aabbsSlot_length, List.length_replicate]
  ring

end vk

/-! ## Block sizes and construction -/

namespace vk
namespace RaytracedGeometry

variable {kVertexSize : Nat}

theorem calcBlockSize_triangles (g : RaytracedGeometry kVertexSize)
    (htype : g.isTrianglesType = true) (hk : kVertexSize < UINT32_RANGE)
    (hp : 1 + g.m_paddingBlocks < UINT32_RANGE) :
    g.calcBlockSize =
      { g with m_blockSize := kVertexSize * (1 + g.m_paddingBlocks) } := by
  have hprod : kVertexSize * (1 + g.m_paddingBlocks) < SIZE_RANGE := by
    have h1 : kVertexSize * (1 + g.m_paddingBlocks) ≤ UINT32_RANGE * UINT32_RANGE :=
      Nat.mul_le_mul (Nat.le_of_lt hk) (Nat.le_of_lt hp)
    have h2 : kVertexSize * (1 + g.m_paddingBlocks) ≠ UINT32_RANGE * UINT32_RANGE := by
      intro h
      have hlt : kVertexSize * (1 + g.m_paddingBlocks) < UINT32_RANGE * UINT32_RANGE :=
        Nat.mul_lt_mul_of_lt_of_lt hk hp
      omega
    have h3 : UINT32_RANGE * UINT32_RANGE = SIZE_RANGE := by decide
    omega
  have hsum : 1 + g.m_paddingBlocks < SIZE_RANGE := by
    unfold UINT32_RANGE at hp
    unfold SIZE_RANGE
    omega
  unfold calcBlockSize
  rw [if_pos htype, u32_of_lt hp, usize_of_lt hsum, usize_of_lt hprod]

theorem calcBlockSize_aabbs (g : RaytracedGeometry kVertexSize)
    (htype : g.isTrianglesType = false) (hk : kVertexSize < UINT32_RANGE)
    (hp : g.m_paddingBlocks < UINT32_RANGE) :
    g.calcBlockSize =
      { g with m_blockSize := 2 * kVertexSize + g.m_paddingBlocks * kAABBPadBaseSize } := by
  unfold calcBlockSize
  have hne : ¬ (g.isTrianglesType = true) := by simp [htype]
  rw [if_neg hne]
  have h1 : usize (2 * kVertexSize) = 2 * kVertexSize := by
    apply usize_of_lt
    unfold UINT32_RANGE at hk
    unfold SIZE_RANGE
    omega
  have h2 : usize (g.m_paddingBlocks * kAABBPadBaseSize) = g.m_paddingBlocks * kAABBPadBaseSize := by
    apply usize_of_lt
    unfold UINT32_RANGE at hp
    unfold SIZE_RANGE kAABBPadBaseSize
    omega
  have h3 : usize (2 * kVertexSize + g.m_paddingBlocks * kAABBPadBaseSize)
      = 2 * kVertexSize + g.m_paddingBlocks * kAABBPadBaseSize := by
    apply usize_of_lt
    unfold UINT32_RANGE at hk hp
    unfold SIZE_RANGE kAABBPadBaseSize
    omega
  rw [h1, h2, h3]

theorem init_ok (deDebug : Bool) (g : RaytracedGeometry kVertexSize)
    (htype : g.m_geometryType = VkGeometryTypeKHR.TRIANGLES ∨
      g.m_geometryType = VkGeometryTypeKHR.AABBS) :
    g.init deDebug = .ok g.calcBlockSize := by
  unfold init checkGeometryType DE_ASSERT
  cases deDebug
  · rfl
  · simp only [if_true, if_pos htype]
    rfl

theorem usize_succ_usize (n : Nat) : usize (usize n + 1) = usize (n + 1) := by
  unfold usize SIZE_RANGE
  omega

/-! ## Filling a geometry from the empty buffer -/

theorem foldlM_addNativeVertex_triangles (g : RaytracedGeometry kVertexSize) (p : Nat)
    (htype : g.isTrianglesType = true) (hbuf : g.m_vertices = []) (hcount : g.m_vertexCount = 0)
    (hB : g.m_blockSize = kVertexSize * (1 + p))
    (vs : List (NativeVertex kVertexSize))
    (hfit : vs.length * (kVertexSize * (1 + p)) < SIZE_RANGE) :
    vs.foldlM addNativeVertex g = .ok
      { g with m_vertices := trianglesLayout p vs, m_vertexCount := usize vs.length } := by
  induction vs using List.reverseRecOn with
  | nil =>
    have h0 : usize 0 = 0 := rfl
    simp only [List.foldlM_nil, List.length_nil, h0, trianglesLayout, List.flatMap_nil]
    rw [← hbuf, ← hcount]
    rfl
  | append_singleton vs v ih =>
    have hlen : (vs ++ [v]).length = vs.length + 1 := by simp
    rw [hlen] at hfit
    have hfit0 : vs.length * (kVertexSize * (1 + p)) + kVertexSize * (1 + p) < SIZE_RANGE := by
      have : (vs.length + 1) * (kVertexSize * (1 + p))
          = vs.length * (kVertexSize * (1 + p)) + kVertexSize * (1 + p) := by ring
      omega
    have hpad : kVertexSize * (1 + p) - kVertexSize = p * kVertexSize := by
      have : kVertexSize * (1 + p) = kVertexSize + p * kVertexSize := by ring
      omega
    have hstep := addNativeVertex_newBlock
      { g with m_vertices := trianglesLayout p vs, m_vertexCount := usize vs.length } v
      (Or.inl htype)
      (by show kVertexSize ≤ g.m_blockSize; rw [hB]; nlinarith [Nat.zero_le (kVertexSize * p)])
      (by
        show (trianglesLayout p vs).length + g.m_blockSize < SIZE_RANGE
        rw [hB, trianglesLayout_length]
        exact hfit0)
    rw [List.foldlM_append, ih (by omega)]
    simp only [bind, Except.bind, List.foldlM_cons, List.foldlM_nil]
    rw [hstep]
    simp only [pure, Except.pure, hB, hlen, usize_succ_usize, trianglesLayout_snoc, trianglesBlock,
      List.append_assoc, hpad]

theorem usize_mod_two (n : Nat) : usize n % 2 = n % 2 := by
  unfold usize SIZE_RANGE
  omega

theorem foldlM_addNativeVertex_aabbs (g : RaytracedGeometry kVertexSize) (p : Nat)
    (htype : g.isTrianglesType = false) (hbuf : g.m_vertices = []) (hcount : g.m_vertexCount = 0)
    (hB : g.m_blockSize = 2 * kVertexSize + p * kAABBPadBaseSize)
    (vs : List (NativeVertex kVertexSize))
    (hfit : ((vs.length + 1) / 2) * (2 * kVertexSize + p * kAABBPadBaseSize) < SIZE_RANGE) :
    vs.foldlM addNativeVertex g = .ok
      { g with m_vertices := aabbsLayout p vs, m_vertexCount := usize vs.length } := by
  induction vs using List.reverseRecOn with
  | nil =>
    have h0 : usize 0 = 0 := rfl
    have hl : aabbsLayout p ([] : List (NativeVertex kVertexSize)) = [] := by
      simp [aabbsLayout]
    simp only [List.foldlM_nil, List.length_nil, h0, hl]
    rw [← hbuf, ← hcount]
    rfl
  | append_singleton vs v ih =>
    have hlen : (vs ++ [v]).length = vs.length + 1 := by simp
    rw [hlen] at hfit
    have hmono : (vs.length + 1) / 2 * (2 * kVertexSize + p * kAABBPadBaseSize)
        ≤ (vs.length + 1 + 1) / 2 * (2 * kVertexSize + p * kAABBPadBaseSize) :=
      Nat.mul_le_mul_right _ (by omega)
    have ih1 := ih (by omega)
    rw [List.foldlM_append, ih1]
    simp only [bind, Except.bind, List.foldlM_cons, List.foldlM_nil]
    by_cases hpar : vs.length % 2 = 0
    · -- the vertex opens a new block
      have hblocks : (vs.length + 1 + 1) / 2 = (vs.length + 1) / 2 + 1 := by omega
      have hstep := addNativeVertex_newBlock
        { g with m_vertices := aabbsLayout p vs, m_vertexCount := usize vs.length } v
        (Or.inr (by show usize vs.length % 2 = 0; rw [usize_mod_two]; exact hpar))
        (by show kVertexSize ≤ g.m_blockSize; rw [hB]; omega)
        (by
          show (aabbsLayout p vs).length + g.m_blockSize < SIZE_RANGE
          rw [hB, aabbsLayout_length]
          rw [hblocks, Nat.add_mul, Nat.one_mul] at hfit
          exact hfit)
      rw [hstep]
      have hpad : 2 * kVertexSize + p * kAABBPadBaseSize - kVertexSize
          = kVertexSize + p * kAABBPadBaseSize := by omega
      simp only [pure, Except.pure, hB, hlen, usize_succ_usize, hpad,
        aabbsLayout_append p vs [v] hpar, aabbsLayout_single, List.replicate_add, List.append_assoc]
    · -- the vertex fills the second slot of the last block
      rcases List.eq_nil_or_concat vs with hnil | ⟨us, u, hus⟩
      · subst hnil
        simp at hpar
      · rw [List.concat_eq_append] at hus
        subst hus
        have hul : (us ++ [u]).length = us.length + 1 := by simp
        rw [hul] at hpar hfit hmono
        have heven : us.length % 2 = 0 := by omega
        have hlay : aabbsLayout p (us ++ [u]) =
            (aabbsLayout p us ++ u.bytes) ++ List.replicate kVertexSize 0 ++
              List.replicate (p * kAABBPadBaseSize) 0 := by
          rw [aabbsLayout_append p us [u] heven, aabbsLayout_single]
          simp only [List.append_assoc]
        have hstep := addNativeVertex_secondSlot
          { g with m_vertices := aabbsLayout p (us ++ [u]), m_vertexCount := usize (us ++ [u]).length }
          v (aabbsLayout p us ++ u.bytes) (List.replicate kVertexSize 0)
          (List.replicate (p * kAABBPadBaseSize) 0) htype
          (by show usize (us ++ [u]).length % 2 = 1; rw [usize_mod_two, hul]; omega)
          hlay (by simp)
          (by show g.m_blockSize = _; rw [hB, List.length_replicate]; omega)
          (by rw [List.length_append, u.size_eq]; omega)
          (by
            show (aabbsLayout p (us ++ [u])).length < SIZE_RANGE
            rw [aabbsLayout_length, hul]
            omega)
        rw [hstep]
        have hfinal : aabbsLayout p (us ++ [u] ++ [v]) =
            aabbsLayout p us ++ u.bytes ++ v.bytes ++ List.replicate (p * kAABBPadBaseSize) 0 := by
          rw [List.append_assoc, aabbsLayout_append p us ([u] ++ [v]) heven]
          show aabbsLayout p us ++ aabbsLayout p [u, v] = _
          rw [aabbsLayout_pair]
          simp only [List.append_assoc]
        simp only [pure, Except.pure, hlen, usize_succ_usize, hfinal]

end RaytracedGeometry
end vk

/-! ## Packing layout of the vertex buffer -/

namespace vk

variable {kVertexSize : Nat}

theorem AddCall.run_eq {Vec3 : Type} (convertFloatTo : Vec3 → NativeVertex kVertexSize)
    (g : RaytracedGeometry kVertexSize) (c : AddCall kVertexSize Vec3) :
    AddCall.run convertFloatTo g c = g.addNativeVertex (AddCall.stored convertFloatTo c) := by
  cases c <;> rfl

theorem foldlM_run {Vec3 : Type} (convertFloatTo : Vec3 → NativeVertex kVertexSize)
    (calls : List (AddCall kVertexSize Vec3)) (g : RaytracedGeometry kVertexSize) :
    calls.foldlM (AddCall.run convertFloatTo) g =
      (calls.map (AddCall.stored convertFloatTo)).foldlM RaytracedGeometry.addNativeVertex g := by
  induction calls generalizing g with
  | nil => rfl
  | cons c cs ih =>
    simp only [List.foldlM_cons, List.map_cons, AddCall.run_eq]
    congr 1
    funext g1
    exact ih g1

/-- Both ways of filling a geometry pass the stored vertices, in order, to
`addNativeVertex`, starting from the state `init` leaves. -/
theorem constructFrom_then_calls {Vec3 : Type} (deDebug : Bool) (convertFloatTo : Vec3 → NativeVertex kVertexSize)
    (indexType : VkIndexType) (flags : Nat) (geometryType : VkGeometryTypeKHR)
    (vertices : List (NativeVertex kVertexSize)) (indices : List Nat) (p : Nat)
    (calls : List (AddCall kVertexSize Vec3)) :
    (do
      let g0 ← RaytracedGeometry.constructFrom deDebug kVertexSize indexType flags geometryType vertices
        indices p
      calls.foldlM (AddCall.run convertFloatTo) g0) =
    (do
      let g0 ← RaytracedGeometry.init deDebug
        { m_geometryType := geometryType
          m_indexType := indexType
          m_geometryFlags := flags
          m_paddingBlocks := p
          m_vertexCount := 0
          m_vertices := []
          m_indices := indices
          m_blockSize := 0 }
      (vertices ++ calls.map (AddCall.stored convertFloatTo)).foldlM
        RaytracedGeometry.addNativeVertex g0) := by
  unfold RaytracedGeometry.constructFrom
  simp only [bind_assoc, List.foldlM_append, foldlM_run]

theorem construct_eq_constructFrom (deDebug : Bool) (indexType : VkIndexType) (flags : Nat)
    (geometryType : VkGeometryTypeKHR) (p : Nat) :
    RaytracedGeometry.construct deDebug kVertexSize indexType flags geometryType p =
      RaytracedGeometry.constructFrom deDebug kVertexSize indexType flags geometryType [] [] p := by
  unfold RaytracedGeometry.construct RaytracedGeometry.constructFrom
  simp only [List.foldlM_nil, bind_pure]

/-- The state after filling a triangles geometry. -/
theorem filled_triangles {Vec3 : Type} (deDebug : Bool) (convertFloatTo : Vec3 → NativeVertex kVertexSize)
    (indexType : VkIndexType) (flags : Nat)
    (vertices : List (NativeVertex kVertexSize)) (indices : List Nat) (p : Nat)
    (calls : List (AddCall kVertexSize Vec3))
    (hk : kVertexSize < UINT32_RANGE) (hp : 1 + p < UINT32_RANGE)
    (hfit : (vertices.length + calls.length) * (kVertexSize * (1 + p)) < SIZE_RANGE) :
    (do
      let g0 ← RaytracedGeometry.constructFrom deDebug kVertexSize indexType flags
        VkGeometryTypeKHR.TRIANGLES vertices indices p
      calls.foldlM (AddCall.run convertFloatTo) g0) = .ok
        { m_geometryType := VkGeometryTypeKHR.TRIANGLES
          m_indexType := indexType
          m_geometryFlags := flags
          m_paddingBlocks := p
          m_vertexCount := usize (vertices.length + calls.length)
          m_vertices := trianglesLayout p (vertices ++ calls.map (AddCall.stored convertFloatTo))
          m_indices := indices
          m_blockSize := kVertexSize * (1 + p) } := by
  have hcalc := RaytracedGeometry.calcBlockSize_triangles
    (⟨VkGeometryTypeKHR.TRIANGLES, indexType, flags, p, 0, [], indices, 0⟩ :
      RaytracedGeometry kVertexSize) rfl hk hp
  have hfold := RaytracedGeometry.foldlM_addNativeVertex_triangles
    (⟨VkGeometryTypeKHR.TRIANGLES, indexType, flags, p, 0, [], indices, kVertexSize * (1 + p)⟩ :
      RaytracedGeometry kVertexSize) p rfl rfl rfl rfl
    (vertices ++ calls.map (AddCall.stored convertFloatTo)) (by simpa using hfit)
  rw [constructFrom_then_calls, RaytracedGeometry.init_ok deDebug _ (Or.inl rfl), hcalc]
  simp only [bind, Except.bind]
  rw [hfold]
  simp

/-- The state after filling an AABB geometry. -/
theorem filled_aabbs {Vec3 : Type} (deDebug : Bool) (convertFloatTo : Vec3 → NativeVertex kVertexSize)
    (indexType : VkIndexType) (flags : Nat)
    (vertices : List (NativeVertex kVertexSize)) (indices : List Nat) (p : Nat)
    (calls : List (AddCall kVertexSize Vec3))
    (hk : kVertexSize < UINT32_RANGE) (hp : p < UINT32_RANGE)
    (hfit : ((vertices.length + calls.length + 1) / 2) *
      (2 * kVertexSize + p * kAABBPadBaseSize) < SIZE_RANGE) :
    (do
      let g0 ← RaytracedGeometry.constructFrom deDebug kVertexSize indexType flags
        VkGeometryTypeKHR.AABBS vertices indices p
      calls.foldlM (AddCall.run convertFloatTo) g0) = .ok
        { m_geometryType := VkGeometryTypeKHR.AABBS
          m_indexType := indexType
          m_geometryFlags := flags
          m_paddingBlocks := p
          m_vertexCount := usize (vertices.length + calls.length)
          m_vertices := aabbsLayout p (vertices ++ calls.map (AddCall.stored convertFloatTo))
          m_indices := indices
          m_blockSize := 2 * kVertexSize + p * kAABBPadBaseSize } := by
  have hcalc := RaytracedGeometry.calcBlockSize_aabbs
    (⟨VkGeometryTypeKHR.AABBS, indexType, flags, p, 0, [], indices, 0⟩ :
      RaytracedGeometry kVertexSize) rfl hk hp
  have hfold := RaytracedGeometry.foldlM_addNativeVertex_aabbs
    (⟨VkGeometryTypeKHR.AABBS, indexType, flags, p, 0, [], indices, 2 * kVertexSize + p * kAABBPadBaseSize⟩ :
      RaytracedGeometry kVertexSize) p rfl rfl rfl rfl
    (vertices ++ calls.map (AddCall.stored convertFloatTo)) (by simpa using hfit)
  rw [constructFrom_then_calls, RaytracedGeometry.init_ok deDebug _ (Or.inr rfl), hcalc]
  simp only [bind, Except.bind]
  rw [hfold]
  simp

end vk

/-! ## Claims about the vertex packer -/

namespace vk

/-- C1: triangles packing layout. For a vertex type of `kVertexSize` bytes and a
`paddingBlocks` value `p` with `1 + p` below `2^32`, a `TRIANGLES` geometry built
by the vertex-list constructor (or by the plain constructor) and then filled by
any sequence of `addNativeVertex` / `addVertex` calls holds, for the stored
vertices in order, the bytes of each vertex followed by `p * kVertexSize` zero
bytes; the buffer is assumed addressable (shorter than `2^64` bytes). -/
theorem triangles_packing_layout {Vec3 : Type} (deDebug : Bool) (kVertexSize p : Nat)
    (convertFloatTo : Vec3 → NativeVertex kVertexSize)
    (indexType : VkIndexType) (flags : Nat)
    (vertices : List (NativeVertex kVertexSize)) (indices : List Nat)
    (calls : List (AddCall kVertexSize Vec3))
    (hk : kVertexSize < 2 ^ 32) (hp : 1 + p < 2 ^ 32)
    (hfit : (vertices.length + calls.length) * (kVertexSize * (1 + p)) < 2 ^ 64) :
    (∃ g, (do
        let g0 ← RaytracedGeometry.constructFrom deDebug kVertexSize indexType flags
          VkGeometryTypeKHR.TRIANGLES vertices indices p
        calls.foldlM (AddCall.run convertFloatTo) g0) = .ok g ∧
      g.m_vertices =
        trianglesLayout p (vertices ++ calls.map (AddCall.stored convertFloatTo))) ∧
    (∃ g, (do
        let g0 ← RaytracedGeometry.construct deDebug kVertexSize indexType flags
          VkGeometryTypeKHR.TRIANGLES p
        calls.foldlM (AddCall.run convertFloatTo) g0) = .ok g ∧
      g.m_vertices = trianglesLayout p (calls.map (AddCall.stored convertFloatTo))) := by
  have hk1 : kVertexSize < UINT32_RANGE := hk
  have hp1 : 1 + p < UINT32_RANGE := hp
  have hfit1 : (vertices.length + calls.length) * (kVertexSize * (1 + p)) < SIZE_RANGE := hfit
  have hfit2 : (([] : List (NativeVertex kVertexSize)).length + calls.length) *
      (kVertexSize * (1 + p)) < SIZE_RANGE :=
    Nat.lt_of_le_of_lt (Nat.mul_le_mul_right _ (by simp)) hfit1
  refine ⟨⟨_, filled_triangles deDebug convertFloatTo indexType flags vertices indices p calls hk1 hp1 hfit1,
    rfl⟩, ?_⟩
  rw [construct_eq_constructFrom]
  exact ⟨_, filled_triangles deDebug convertFloatTo indexType flags [] [] p calls hk1 hp1 hfit2, rfl⟩

/-- Instance of C1: two-byte vertices and one padding block; one vertex comes
from the constructor, one from `addNativeVertex`, one from `addVertex`. -/
theorem triangles_packing_layout_witness :
    ((2 : Nat) < 2 ^ 32 ∧ 1 + 1 < 2 ^ 32 ∧ (1 + 2) * (2 * (1 + 1)) < 2 ^ 64) ∧
    ∃ g, (do
        let g0 ← RaytracedGeometry.constructFrom true 2 VkIndexType.NONE_KHR 0
          VkGeometryTypeKHR.TRIANGLES [⟨[1, 2], rfl⟩] [] 1
        [AddCall.native ⟨[3, 4], rfl⟩, AddCall.converted ()].foldlM
          (AddCall.run (fun _ : Unit => ⟨[5, 6], rfl⟩)) g0) = .ok g ∧
      g.m_vertices = [1, 2, 0, 0, 3, 4, 0, 0, 5, 6, 0, 0] :=
  ⟨by norm_num,
    (triangles_packing_layout true 2 1 (fun _ : Unit => ⟨[5, 6], rfl⟩) VkIndexType.NONE_KHR 0
      [⟨[1, 2], rfl⟩] [] [AddCall.native ⟨[3, 4], rfl⟩, AddCall.converted ()]
      (by norm_num) (by norm_num) (by norm_num)).1⟩

/-- C2: AABB packing layout. For a vertex type of `kVertexSize` bytes and a 32-bit
`paddingBlocks` value `p`, an `AABBS` geometry filled with `n` vertices holds
`ceil (n / 2)` blocks of `2 * kVertexSize + 8 * p` bytes; block `j` is the bytes of
vertex `2 j`, then the bytes of vertex `2 j + 1` (zero bytes while that vertex has
not been added, see `aabbsSlot`), then `8 * p` zero bytes; the buffer is assumed
addressable. -/
theorem aabbs_packing_layout {Vec3 : Type} (deDebug : Bool) (kVertexSize p : Nat)
    (convertFloatTo : Vec3 → NativeVertex kVertexSize)
    (indexType : VkIndexType) (flags : Nat)
    (vertices : List (NativeVertex kVertexSize)) (indices : List Nat)
    (calls : List (AddCall kVertexSize Vec3))
    (hk : kVertexSize < 2 ^ 32) (hp : p < 2 ^ 32)
    (hfit : ((vertices.length + calls.length + 1) / 2) * (2 * kVertexSize + 8 * p) < 2 ^ 64) :
    ∃ g, (do
        let g0 ← RaytracedGeometry.constructFrom deDebug kVertexSize indexType flags
          VkGeometryTypeKHR.AABBS vertices indices p
        calls.foldlM (AddCall.run convertFloatTo) g0) = .ok g ∧
      g.m_vertices = aabbsLayout p (vertices ++ calls.map (AddCall.stored convertFloatTo)) ∧
      g.m_vertices.length =
        ((vertices.length + calls.length + 1) / 2) * (2 * kVertexSize + 8 * p) ∧
      ∀ j, j < (vertices.length + calls.length + 1) / 2 →
        (g.m_vertices.drop (j * (2 * kVertexSize + 8 * p))).take (2 * kVertexSize + 8 * p) =
          aabbsSlot (vertices ++ calls.map (AddCall.stored convertFloatTo)) (2 * j) ++
          aabbsSlot (vertices ++ calls.map (AddCall.stored convertFloatTo)) (2 * j + 1) ++
          List.replicate (8 * p) 0 := by
  have hk1 : kVertexSize < UINT32_RANGE := hk
  have hp1 : p < UINT32_RANGE := hp
  have h8 : 2 * kVertexSize + p * kAABBPadBaseSize = 2 * kVertexSize + 8 * p := by
    unfold kAABBPadBaseSize
    omega
  have hfit1 : ((vertices.length + calls.length + 1) / 2) *
      (2 * kVertexSize + p * kAABBPadBaseSize) < SIZE_RANGE := by
    rw [h8]
    exact hfit
  refine ⟨_, filled_aabbs deDebug convertFloatTo indexType flags vertices indices p calls hk1 hp1 hfit1,
    rfl, ?_, ?_⟩
  · show (aabbsLayout p (vertices ++ calls.map (AddCall.stored convertFloatTo))).length = _
    rw [aabbsLayout_length, h8]
    simp
  · intro j hj
    show ((aabbsLayout p (vertices ++ calls.map (AddCall.stored convertFloatTo))).drop _).take _
      = _
    have hblock := flatMap_range_block
      (aabbsBlock p (vertices ++ calls.map (AddCall.stored convertFloatTo)))
      (2 * kVertexSize + p * kAABBPadBaseSize) (aabbsBlock_length p _)
      ((vertices.length + calls.length + 1) / 2) j hj
    unfold aabbsLayout
    rw [List.length_append, List.length_map, ← h8, hblock]
    unfold aabbsBlock kAABBPadBaseSize
    rw [Nat.mul_comm p 8]

/-- Instance of C2: three two-byte vertices and one padding block; the second
slot of the last block is still zero. -/
theorem aabbs_packing_layout_witness :
    ((2 : Nat) < 2 ^ 32 ∧ (1 : Nat) < 2 ^ 32 ∧ ((1 + 2 + 1) / 2) * (2 * 2 + 8 * 1) < 2 ^ 64) ∧
    ∃ g, (do
        let g0 ← RaytracedGeometry.constructFrom true 2 VkIndexType.NONE_KHR 0
          VkGeometryTypeKHR.AABBS [⟨[1, 2], rfl⟩] [] 1
        [AddCall.native ⟨[3, 4], rfl⟩, AddCall.converted ()].foldlM
          (AddCall.run (fun _ : Unit => ⟨[5, 6], rfl⟩)) g0) = .ok g ∧
      g.m_vertices =
        [1, 2, 3, 4, 0, 0, 0, 0, 0, 0, 0, 0, 5, 6, 0, 0, 0, 0, 0, 0, 0, 0, 0, 0] := by
  obtain ⟨g, hrun, hbuf, _, _⟩ :=
    aabbs_packing_layout true 2 1 (fun _ : Unit => ⟨[5, 6], rfl⟩) VkIndexType.NONE_KHR 0
      [⟨[1, 2], rfl⟩] [] [AddCall.native ⟨[3, 4], rfl⟩, AddCall.converted ()]
      (by norm_num) (by norm_num) (by norm_num)
  exact ⟨by norm_num, g, hrun, hbuf⟩

end vk

namespace vk

/-- C3, evaluated where it fails: with `paddingBlocks = 2^32 - 1` the sum
`1u + m_paddingBlocks` wraps to zero before it is converted to `size_t`, so a
`TRIANGLES` geometry of 12-byte vertices gets block size and vertex stride `0`
instead of `12 * 2^32`, and the first `addNativeVertex` writes outside the
(empty) buffer; this is so in debug and in release builds. -/
theorem triangles_block_size_wraps (deDebug : Bool) :
    ∃ g, RaytracedGeometry.construct deDebug 12 VkIndexType.NONE_KHR 0
        VkGeometryTypeKHR.TRIANGLES 4294967295 = .ok g ∧
      g.getBlockSize = 0 ∧ g.getVertexStride = 0 ∧
      g.getVertexStride ≠ 12 * (1 + 4294967295) ∧
      g.addNativeVertex ⟨[0, 0, 0, 0, 0, 0, 0, 0, 0, 0, 0, 0], rfl⟩ = .error .outOfBounds :=
  match deDebug with
  | true => ⟨_, rfl, by decide, by decide, by decide, rfl⟩
  | false => ⟨_, rfl, by decide, by decide, by decide, rfl⟩

/-- C4: AABB block size. For a vertex type of `kVertexSize` bytes and every 32-bit
`paddingBlocks` value `p`, `calcBlockSize` stores `2 * kVertexSize + p * 8` for an
`AABBS` geometry, `getAABBStride` returns it, no `size_t` operation wraps (the
value is below `2^64`), and the padding after the vertex pair is a multiple of 8. -/
theorem aabbs_block_size (deDebug : Bool) (kVertexSize p : Nat) (indexType : VkIndexType)
    (flags : Nat)
    (hk : kVertexSize < 2 ^ 32) (hp : p < 2 ^ 32) :
    ∃ g, RaytracedGeometry.construct deDebug kVertexSize indexType flags VkGeometryTypeKHR.AABBS p
        = .ok g ∧
      g.getBlockSize = 2 * kVertexSize + p * kAABBPadBaseSize ∧
      g.getAABBStride = 2 * kVertexSize + p * kAABBPadBaseSize ∧
      kAABBPadBaseSize = 8 ∧
      2 * kVertexSize + p * kAABBPadBaseSize < 2 ^ 64 ∧
      8 ∣ g.getAABBStride - 2 * kVertexSize := by
  have hk1 : kVertexSize < UINT32_RANGE := hk
  have hp1 : p < UINT32_RANGE := hp
  have hcalc := RaytracedGeometry.calcBlockSize_aabbs
    (⟨VkGeometryTypeKHR.AABBS, indexType, flags, p, 0, [], [], 0⟩ :
      RaytracedGeometry kVertexSize) rfl hk1 hp1
  have hlt : 2 * kVertexSize + p * kAABBPadBaseSize < 2 ^ 64 := by
    unfold kAABBPadBaseSize
    omega
  have hstride : usize (2 * kVertexSize + p * kAABBPadBaseSize)
      = 2 * kVertexSize + p * kAABBPadBaseSize := usize_of_lt hlt
  refine ⟨⟨VkGeometryTypeKHR.AABBS, indexType, flags, p, 0, [], [],
    2 * kVertexSize + p * kAABBPadBaseSize⟩, ?_, ?_, ?_, rfl, hlt, ?_⟩
  · unfold RaytracedGeometry.construct
    rw [RaytracedGeometry.init_ok deDebug _ (Or.inr rfl), hcalc]
  · simp [RaytracedGeometry.getBlockSize]
  · simp [RaytracedGeometry.getAABBStride, RaytracedGeometry.getBlockSize,
      RaytracedGeometry.isTrianglesType, hstride]
  · show 8 ∣ RaytracedGeometry.getAABBStride
      (⟨VkGeometryTypeKHR.AABBS, indexType, flags, p, 0, [], [],
        2 * kVertexSize + p * kAABBPadBaseSize⟩ : RaytracedGeometry kVertexSize) - 2 * kVertexSize
    have hs : RaytracedGeometry.getAABBStride
        (⟨VkGeometryTypeKHR.AABBS, indexType, flags, p, 0, [], [],
          2 * kVertexSize + p * kAABBPadBaseSize⟩ : RaytracedGeometry kVertexSize)
        = 2 * kVertexSize + p * kAABBPadBaseSize := by
      simp [RaytracedGeometry.getAABBStride, RaytracedGeometry.getBlockSize,
        RaytracedGeometry.isTrianglesType, hstride]
    rw [hs, Nat.add_sub_cancel_left]
    exact Dvd.intro_left p rfl

/-- Instance of C4: 12-byte vertices with the largest 32-bit `paddingBlocks`. -/
theorem aabbs_block_size_witness :
    ((12 : Nat) < 2 ^ 32 ∧ (4294967295 : Nat) < 2 ^ 32) ∧
    ∃ g, RaytracedGeometry.construct true 12 VkIndexType.UINT32 0 VkGeometryTypeKHR.AABBS 4294967295
        = .ok g ∧
      g.getAABBStride = 34359738384 := by
  obtain ⟨g, hg, _, hstride, _, _, _⟩ :=
    aabbs_block_size true 12 4294967295 VkIndexType.UINT32 0 (by norm_num) (by norm_num)
  exact ⟨by norm_num, g, hg, hstride⟩

end vk

namespace vk

/-- C5 as amended: buffer-size invariant. After construction and after every
`addVertex` / `addNativeVertex` call the vertex buffer is a whole number of
blocks. For `TRIANGLES` (with `1 + p` below `2^32`) and fewer than `2^32` stored
vertices, `getVertexByteSize () = getVertexCount () * getVertexStride ()`. For
`AABBS` with `n` stored vertices, `getVertexByteSize () = ceil (n / 2) * getAABBStride ()`,
and this equals `getPrimitiveCount () * getAABBStride ()` when `n` is even and
`n / 2` is below `2^32`. The buffer is assumed addressable. -/
theorem buffer_size_invariant {Vec3 : Type} (deDebug : Bool) (kVertexSize p : Nat)
    (convertFloatTo : Vec3 → NativeVertex kVertexSize)
    (indexType : VkIndexType) (flags : Nat) (geometryType : VkGeometryTypeKHR)
    (vertices : List (NativeVertex kVertexSize)) (indices : List Nat)
    (calls : List (AddCall kVertexSize Vec3))
    (hk : kVertexSize < 2 ^ 32) (hp : p < 2 ^ 32)
    (htype : geometryType = VkGeometryTypeKHR.TRIANGLES ∨
      geometryType = VkGeometryTypeKHR.AABBS)
    (htri : geometryType = VkGeometryTypeKHR.TRIANGLES →
      1 + p < 2 ^ 32 ∧ vertices.length + calls.length < 2 ^ 32 ∧
      (vertices.length + calls.length) * (kVertexSize * (1 + p)) < 2 ^ 64)
    (haabb : geometryType = VkGeometryTypeKHR.AABBS →
      ((vertices.length + calls.length + 1) / 2) * (2 * kVertexSize + 8 * p) < 2 ^ 64) :
    ∃ g, (do
        let g0 ← RaytracedGeometry.constructFrom deDebug kVertexSize indexType flags geometryType
          vertices indices p
        calls.foldlM (AddCall.run convertFloatTo) g0) = .ok g ∧
      (geometryType = VkGeometryTypeKHR.TRIANGLES →
        g.getVertexByteSize = g.getVertexCount * g.getVertexStride) ∧
      (geometryType = VkGeometryTypeKHR.AABBS →
        g.getVertexByteSize = ((vertices.length + calls.length + 1) / 2) * g.getAABBStride ∧
        ((vertices.length + calls.length) % 2 = 0 →
          (vertices.length + calls.length) / 2 < 2 ^ 32 →
          g.getVertexByteSize = g.getPrimitiveCount * g.getAABBStride)) := by
  have hk1 : kVertexSize < UINT32_RANGE := hk
  have hp1 : p < UINT32_RANGE := hp
  rcases htype with rfl | rfl
  · obtain ⟨hp2, hn, hfit⟩ := htri rfl
    have hfit1 : (vertices.length + calls.length) * (kVertexSize * (1 + p)) < SIZE_RANGE := hfit
    have hB : kVertexSize * (1 + p) < 2 ^ 64 := by
      have h1 : kVertexSize * (1 + p) < 2 ^ 32 * 2 ^ 32 := Nat.mul_lt_mul_of_lt_of_lt hk hp2
      omega
    refine ⟨_, filled_triangles deDebug convertFloatTo indexType flags vertices indices p calls hk1 hp2
      hfit1, ?_, ?_⟩
    · intro _
      have hcount : u32 (usize (vertices.length + calls.length))
          = vertices.length + calls.length := by
        unfold u32 usize UINT32_RANGE SIZE_RANGE
        omega
      have hstride : usize (kVertexSize * (1 + p)) = kVertexSize * (1 + p) := usize_of_lt hB
      simp [RaytracedGeometry.getVertexByteSize, RaytracedGeometry.getVertexCount,
        RaytracedGeometry.getVertexStride, RaytracedGeometry.getBlockSize,
        RaytracedGeometry.isTrianglesType, trianglesLayout_length, hcount, hstride]
    · intro h
      cases h
  · have hfit := haabb rfl
    have h8 : 2 * kVertexSize + p * kAABBPadBaseSize = 2 * kVertexSize + 8 * p := by
      unfold kAABBPadBaseSize
      omega
    have hfit1 : ((vertices.length + calls.length + 1) / 2) *
        (2 * kVertexSize + p * kAABBPadBaseSize) < SIZE_RANGE := by
      rw [h8]
      exact hfit
    have hstride : usize (2 * kVertexSize + p * kAABBPadBaseSize)
        = 2 * kVertexSize + p * kAABBPadBaseSize := by
      apply usize_of_lt
      unfold SIZE_RANGE kAABBPadBaseSize
      omega
    refine ⟨_, filled_aabbs deDebug convertFloatTo indexType flags vertices indices p calls hk1 hp1 hfit1,
      ?_, ?_⟩
    · intro h
      cases h
    · intro _
      constructor
      · simp [RaytracedGeometry.getVertexByteSize, RaytracedGeometry.getAABBStride,
          RaytracedGeometry.getBlockSize, RaytracedGeometry.isTrianglesType, aabbsLayout_length,
          hstride]
      · intro heven hhalf
        have hprims : u32 (usize (vertices.length + calls.length) / 2)
            = (vertices.length + calls.length + 1) / 2 := by
          unfold u32 usize UINT32_RANGE SIZE_RANGE
          omega
        simp [RaytracedGeometry.getVertexByteSize, RaytracedGeometry.getAABBStride,
          RaytracedGeometry.getPrimitiveCount, RaytracedGeometry.getBlockSize,
          RaytracedGeometry.isTrianglesType, aabbsLayout_length, hstride, hprims]

/-- Instance of C5 as amended: two AABB vertices of two bytes, one padding block. -/
theorem buffer_size_invariant_witness :
    ∃ g, (do
        let g0 ← RaytracedGeometry.constructFrom true 2 VkIndexType.NONE_KHR 0
          VkGeometryTypeKHR.AABBS [⟨[1, 2], rfl⟩] [] 1
        [AddCall.native ⟨[3, 4], rfl⟩].foldlM
          (AddCall.run (fun _ : Unit => ⟨[5, 6], rfl⟩)) g0) = .ok g ∧
      g.getVertexByteSize = 12 ∧ g.getAABBStride = 12 ∧ g.getPrimitiveCount = 1 := by
  obtain ⟨g, hrun, _, h⟩ :=
    buffer_size_invariant true 2 1 (fun _ : Unit => ⟨[5, 6], rfl⟩) VkIndexType.NONE_KHR 0
      VkGeometryTypeKHR.AABBS [⟨[1, 2], rfl⟩] [] [AddCall.native ⟨[3, 4], rfl⟩]
      (by norm_num) (by norm_num) (Or.inr rfl) (fun h => by cases h) (fun _ => by norm_num)
  have hg : g = ⟨VkGeometryTypeKHR.AABBS, VkIndexType.NONE_KHR, 0, 1, 2,
      [1, 2, 3, 4, 0, 0, 0, 0, 0, 0, 0, 0], [], 12⟩ :=
    Except.ok.inj (hrun.symm.trans rfl)
  subst hg
  exact ⟨_, hrun, by decide, by decide, by decide⟩

/-- C5 as stated fails: a `TRIANGLES` geometry of two-byte vertices filled with `2^32`
vertices has a buffer of `2^33` bytes, while `getVertexCount ()`, a `uint32_t`, is `0`. -/
theorem buffer_size_invariant_counterexample :
    ∃ g, RaytracedGeometry.constructFrom true 2 VkIndexType.NONE_KHR 0 VkGeometryTypeKHR.TRIANGLES
        (List.replicate 4294967296 ⟨[0, 0], rfl⟩) [] 0 = .ok g ∧
      g.getVertexByteSize = 8589934592 ∧ g.getVertexCount = 0 ∧ g.getVertexStride = 2 ∧
      g.getVertexByteSize ≠ g.getVertexCount * g.getVertexStride := by
  have key : ∀ vs : List (NativeVertex 2), vs.length = 4294967296 →
      ∃ g, RaytracedGeometry.constructFrom true 2 VkIndexType.NONE_KHR 0 VkGeometryTypeKHR.TRIANGLES
          vs [] 0 = .ok g ∧
        g.getVertexByteSize = 8589934592 ∧ g.getVertexCount = 0 ∧ g.getVertexStride = 2 ∧
        g.getVertexByteSize ≠ g.getVertexCount * g.getVertexStride := by
    intro vs hlen
    have hfill := filled_triangles true (fun _ : Unit => (⟨[0, 0], rfl⟩ : NativeVertex 2))
      VkIndexType.NONE_KHR 0 vs [] 0 [] (by decide) (by decide)
      (by rw [hlen]; decide)
    simp only [List.foldlM_nil, bind_pure, List.map_nil, List.append_nil, List.length_nil,
      hlen] at hfill
    have hsize : (trianglesLayout 0 vs).length = 8589934592 := by
      rw [trianglesLayout_length, hlen]
    have hcount : u32 (usize (4294967296 + 0)) = 0 := by decide
    have hstride : usize (2 * (1 + 0)) = 2 := by decide
    refine ⟨_, hfill, hsize, ?_, ?_, ?_⟩
    · simp only [RaytracedGeometry.getVertexCount, RaytracedGeometry.isTrianglesType, hcount]
      rfl
    · simp only [RaytracedGeometry.getVertexStride, RaytracedGeometry.getBlockSize,
        RaytracedGeometry.isTrianglesType, hstride]
      rfl
    · simp only [RaytracedGeometry.getVertexByteSize, RaytracedGeometry.getVertexCount,
        RaytracedGeometry.getVertexStride, RaytracedGeometry.getBlockSize,
        RaytracedGeometry.isTrianglesType, hcount, hstride, hsize]
      decide
  exact key _ (List.length_replicate _ _)

end vk

/-! ## The `DeviceDriver` methods forward to the entry points -/

namespace vk

set_option maxRecDepth 100000 in
/-- C6: trampoline forwarding. For every table `m_vk` of native entry points, every
`DeviceDriver` method of `vkDeviceDriverImpl.inl` applied to its arguments is the
entry point of the same name applied to the same arguments in the same order: it
has the same effect on the driver state and, when the method is not `void`, the
same result. Through a table that records calls, `queueSubmit` leaves exactly one
record, `queueSubmit (queue, submitCount, pSubmits, fence)`. -/
theorem deviceDriver_forwards {Arg Res World : Type} (m_vk : DeviceFunctions Arg Res World) :
    (∀ queue submitCount pSubmits fence world,
      (DeviceDriver.queueSubmit m_vk.recording queue submitCount pSubmits fence (world, [])) =
        ((m_vk "queueSubmit" [queue, submitCount, pSubmits, fence] world).1,
          ((m_vk "queueSubmit" [queue, submitCount, pSubmits, fence] world).2,
            [("queueSubmit", [queue, submitCount, pSubmits, fence])]))) ∧
    (∀ device pName,
      DeviceDriver.getDeviceProcAddr m_vk device pName = m_vk "getDeviceProcAddr" [device, pName]) ∧
    (∀ device pAllocator world,
      DeviceDriver.destroyDevice m_vk device pAllocator world = (m_vk "destroyDevice" [device, pAllocator] world).2) ∧
    (∀ device queueFamilyIndex queueIndex pQueue world,
      DeviceDriver.getDeviceQueue m_vk device queueFamilyIndex queueIndex pQueue world = (m_vk "getDeviceQueue" [device, queueFamilyIndex, queueIndex, pQueue] world).2) ∧
    (∀ queue submitCount pSubmits fence,
      DeviceDriver.queueSubmit m_vk queue submitCount pSubmits fence = m_vk "queueSubmit" [queue, submitCount, pSubmits, fence]) ∧
    (∀ queue,
      DeviceDriver.queueWaitIdle m_vk queue = m_vk "queueWaitIdle" [queue]) ∧
    (∀ device,
      DeviceDriver.deviceWaitIdle m_vk device = m_vk "deviceWaitIdle" [device]) ∧
    (∀ device pAllocateInfo pAllocator pMemory,
      DeviceDriver.allocateMemory m_vk device pAllocateInfo pAllocator pMemory = m_vk "allocateMemory" [device, pAllocateInfo, pAllocator, pMemory]) ∧
    (∀ device memory offset size flags ppData,
      DeviceDriver.mapMemory m_vk device memory offset size flags ppData = m_vk "mapMemory" [device, memory, offset, size, flags, ppData]) ∧
    (∀ device memory world,
      DeviceDriver.unmapMemory m_vk device memory world = (m_vk "unmapMemory" [device, memory] world).2) ∧
    (∀ device memoryRangeCount pMemoryRanges,
      DeviceDriver.flushMappedMemoryRanges m_vk device memoryRangeCount pMemoryRanges = m_vk "flushMappedMemoryRanges" [device, memoryRangeCount, pMemoryRanges]) ∧
    (∀ device memoryRangeCount pMemoryRanges,
      DeviceDriver.invalidateMappedMemoryRanges m_vk device memoryRangeCount pMemoryRanges = m_vk "invalidateMappedMemoryRanges" [device, memoryRangeCount, pMemoryRanges]) ∧
    (∀ device memory pCommittedMemoryInBytes world,
      DeviceDriver.getDeviceMemoryCommitment m_vk device memory pCommittedMemoryInBytes world = (m_vk "getDeviceMemoryCommitment" [device, memory, pCommittedMemoryInBytes] world).2) ∧
    (∀ device buffer memory memoryOffset,
      DeviceDriver.bindBufferMemory m_vk device buffer memory memoryOffset = m_vk "bindBufferMemory" [device, buffer, memory, memoryOffset]) ∧
    (∀ device image memory memoryOffset,
      DeviceDriver.bindImageMemory m_vk device image memory memoryOffset = m_vk "bindImageMemory" [device, image, memory, memoryOffset]) ∧
    (∀ device buffer pMemoryRequirements world,
      DeviceDriver.getBufferMemoryRequirements m_vk device buffer pMemoryRequirements world = (m_vk "getBufferMemoryRequirements" [device, buffer, pMemoryRequirements] world).2) ∧
    (∀ device image pMemoryRequirements world,
      DeviceDriver.getImageMemoryRequirements m_vk device image pMemoryRequirements world = (m_vk "getImageMemoryRequirements" [device, image, pMemoryRequirements] world).2) ∧
    (∀ device pCreateInfo pAllocator pFence,
      DeviceDriver.createFence m_vk device pCreateInfo pAllocator pFence = m_vk "createFence" [device, pCreateInfo, pAllocator, pFence]) ∧
    (∀ device fence pAllocator world,
      DeviceDriver.destroyFence m_vk device fence pAllocator world = (m_vk "destroyFence" [device, fence, pAllocator] world).2) ∧
    (∀ device fenceCount pFences,
      DeviceDriver.resetFences m_vk device fenceCount pFences = m_vk "resetFences" [device, fenceCount, pFences]) ∧
    (∀ device fence,
      DeviceDriver.getFenceStatus m_vk device fence = m_vk "getFenceStatus" [device, fence]) ∧
    (∀ device fenceCount pFences waitAll timeout,
      DeviceDriver.waitForFences m_vk device fenceCount pFences waitAll timeout = m_vk "waitForFences" [device, fenceCount, pFences, waitAll, timeout]) ∧
    (∀ device pCreateInfo pAllocator pSemaphore,
      DeviceDriver.createSemaphore m_vk device pCreateInfo pAllocator pSemaphore = m_vk "createSemaphore" [device, pCreateInfo, pAllocator, pSemaphore]) ∧
    (∀ device semaphore pAllocator world,
      DeviceDriver.destroySemaphore m_vk device semaphore pAllocator world = (m_vk "destroySemaphore" [device, semaphore, pAllocator] world).2) ∧
    (∀ device pCreateInfo pAllocator pEvent,
      DeviceDriver.createEvent m_vk device pCreateInfo pAllocator pEvent = m_vk "createEvent" [device, pCreateInfo, pAllocator, pEvent]) ∧
    (∀ device event pAllocator world,
      DeviceDriver.destroyEvent m_vk device event pAllocator world = (m_vk "destroyEvent" [device, event, pAllocator] world).2) ∧
    (∀ device event,
      DeviceDriver.getEventStatus m_vk device event = m_vk "getEventStatus" [device, event]) ∧
    (∀ device event,
      DeviceDriver.setEvent m_vk device event = m_vk "setEvent" [device, event]) ∧
    (∀ device event,
      DeviceDriver.resetEvent m_vk device event = m_vk "resetEvent" [device, event]) ∧
    (∀ device pCreateInfo pAllocator pQueryPool,
      DeviceDriver.createQueryPool m_vk device pCreateInfo pAllocator pQueryPool = m_vk "createQueryPool" [device, pCreateInfo, pAllocator, pQueryPool]) ∧
    (∀ device queryPool firstQuery queryCount dataSize pData stride flags,
      DeviceDriver.getQueryPoolResults m_vk device queryPool firstQuery queryCount dataSize pData stride flags = m_vk "getQueryPoolResults" [device, queryPool, firstQuery, queryCount, dataSize, pData, stride, flags]) ∧
    (∀ device pCreateInfo pAllocator pBuffer,
      DeviceDriver.createBuffer m_vk device pCreateInfo pAllocator pBuffer = m_vk "createBuffer" [device, pCreateInfo, pAllocator, pBuffer]) ∧
    (∀ device buffer pAllocator world,
      DeviceDriver.destroyBuffer m_vk device buffer pAllocator world = (m_vk "destroyBuffer" [device, buffer, pAllocator] world).2) ∧
    (∀ device pCreateInfo pAllocator pView,
      DeviceDriver.createBufferView m_vk device pCreateInfo pAllocator pView = m_vk "createBufferView" [device, pCreateInfo, pAllocator, pView]) ∧
    (∀ device bufferView pAllocator world,
      DeviceDriver.destroyBufferView m_vk device bufferView pAllocator world = (m_vk "destroyBufferView" [device, bufferView, pAllocator] world).2) ∧
    (∀ device pCreateInfo pAllocator pImage,
      DeviceDriver.createImage m_vk device pCreateInfo pAllocator pImage = m_vk "createImage" [device, pCreateInfo, pAllocator, pImage]) ∧
    (∀ device image pAllocator world,
      DeviceDriver.destroyImage m_vk device image pAllocator world = (m_vk "destroyImage" [device, image, pAllocator] world).2) ∧
    (∀ device image pSubresource pLayout world,
      DeviceDriver.getImageSubresourceLayout m_vk device image pSubresource pLayout world = (m_vk "getImageSubresourceLayout" [device, image, pSubresource, pLayout] world).2) ∧
    (∀ device pCreateInfo pAllocator pView,
      DeviceDriver.createImageView m_vk device pCreateInfo pAllocator pView = m_vk "createImageView" [device, pCreateInfo, pAllocator, pView]) ∧
    (∀ device imageView pAllocator world,
      DeviceDriver.destroyImageView m_vk device imageView pAllocator world = (m_vk "destroyImageView" [device, imageView, pAllocator] world).2) ∧
    (∀ device pCreateInfo pAllocator pPipelineCache,
      DeviceDriver.createPipelineCache m_vk device pCreateInfo pAllocator pPipelineCache = m_vk "createPipelineCache" [device, pCreateInfo, pAllocator, pPipelineCache]) ∧
    (∀ device pipelineCache pAllocator world,
      DeviceDriver.destroyPipelineCache m_vk device pipelineCache pAllocator world = (m_vk "destroyPipelineCache" [device, pipelineCache, pAllocator] world).2) ∧
    (∀ device pipelineCache createInfoCount pCreateInfos pAllocator pPipelines,
      DeviceDriver.createGraphicsPipelines m_vk device pipelineCache createInfoCount pCreateInfos pAllocator pPipelines = m_vk "createGraphicsPipelines" [device, pipelineCache, createInfoCount, pCreateInfos, pAllocator, pPipelines]) ∧
    (∀ device pipelineCache createInfoCount pCreateInfos pAllocator pPipelines,
      DeviceDriver.createComputePipelines m_vk device pipelineCache createInfoCount pCreateInfos pAllocator pPipelines = m_vk "createComputePipelines" [device, pipelineCache, createInfoCount, pCreateInfos, pAllocator, pPipelines]) ∧
    (∀ device pipeline pAllocator world,
      DeviceDriver.destroyPipeline m_vk device pipeline pAllocator world = (m_vk "destroyPipeline" [device, pipeline, pAllocator] world).2) ∧
    (∀ device pCreateInfo pAllocator pPipelineLayout,
      DeviceDriver.createPipelineLayout m_vk device pCreateInfo pAllocator pPipelineLayout = m_vk "createPipelineLayout" [device, pCreateInfo, pAllocator, pPipelineLayout]) ∧
    (∀ device pipelineLayout pAllocator world,
      DeviceDriver.destroyPipelineLayout m_vk device pipelineLayout pAllocator world = (m_vk "destroyPipelineLayout" [device, pipelineLayout, pAllocator] world).2) ∧
    (∀ device pCreateInfo pAllocator pSampler,
      DeviceDriver.createSampler m_vk device pCreateInfo pAllocator pSampler = m_vk "createSampler" [device, pCreateInfo, pAllocator, pSampler]) ∧
    (∀ device sampler pAllocator world,
      DeviceDriver.destroySampler m_vk device sampler pAllocator world = (m_vk "destroySampler" [device, sampler, pAllocator] world).2) ∧
    (∀ device pCreateInfo pAllocator pSetLayout,
      DeviceDriver.createDescriptorSetLayout m_vk device pCreateInfo pAllocator pSetLayout = m_vk "createDescriptorSetLayout" [device, pCreateInfo, pAllocator, pSetLayout]) ∧
    (∀ device descriptorSetLayout pAllocator world,
      DeviceDriver.destroyDescriptorSetLayout m_vk device descriptorSetLayout pAllocator world = (m_vk "destroyDescriptorSetLayout" [device, descriptorSetLayout, pAllocator] world).2) ∧
    (∀ device pCreateInfo pAllocator pDescriptorPool,
      DeviceDriver.createDescriptorPool m_vk device pCreateInfo pAllocator pDescriptorPool = m_vk "createDescriptorPool" [device, pCreateInfo, pAllocator, pDescriptorPool]) ∧
    (∀ device descriptorPool flags,
      DeviceDriver.resetDescriptorPool m_vk device descriptorPool flags = m_vk "resetDescriptorPool" [device, descriptorPool, flags]) ∧
    (∀ device pAllocateInfo pDescriptorSets,
      DeviceDriver.allocateDescriptorSets m_vk device pAllocateInfo pDescriptorSets = m_vk "allocateDescriptorSets" [device, pAllocateInfo, pDescriptorSets]) ∧
    (∀ device descriptorPool descriptorSetCount pDescriptorSets,
      DeviceDriver.freeDescriptorSets m_vk device descriptorPool descriptorSetCount pDescriptorSets = m_vk "freeDescriptorSets" [device, descriptorPool, descriptorSetCount, pDescriptorSets]) ∧
    (∀ device descriptorWriteCount pDescriptorWrites descriptorCopyCount pDescriptorCopies world,
      DeviceDriver.updateDescriptorSets m_vk device descriptorWriteCount pDescriptorWrites descriptorCopyCount pDescriptorCopies world = (m_vk "updateDescriptorSets" [device, descriptorWriteCount, pDescriptorWrites, descriptorCopyCount, pDescriptorCopies] world).2) ∧
    (∀ device pCreateInfo pAllocator pFramebuffer,
      DeviceDriver.createFramebuffer m_vk device pCreateInfo pAllocator pFramebuffer = m_vk "createFramebuffer" [device, pCreateInfo, pAllocator, pFramebuffer]) ∧
    (∀ device framebuffer pAllocator world,
      DeviceDriver.destroyFramebuffer m_vk device framebuffer pAllocator world = (m_vk "destroyFramebuffer" [device, framebuffer, pAllocator] world).2) ∧
    (∀ device pCreateInfo pAllocator pRenderPass,
      DeviceDriver.createRenderPass m_vk device pCreateInfo pAllocator pRenderPass = m_vk "createRenderPass" [device, pCreateInfo, pAllocator, pRenderPass]) ∧
    (∀ device renderPass pAllocator world,
      DeviceDriver.destroyRenderPass m_vk device renderPass pAllocator world = (m_vk "destroyRenderPass" [device, renderPass, pAllocator] world).2) ∧
    (∀ device renderPass pGranularity world,
      DeviceDriver.getRenderAreaGranularity m_vk device renderPass pGranularity world = (m_vk "getRenderAreaGranularity" [device, renderPass, pGranularity] world).2) ∧
    (∀ device pCreateInfo pAllocator pCommandPool,
      DeviceDriver.createCommandPool m_vk device pCreateInfo pAllocator pCommandPool = m_vk "createCommandPool" [device, pCreateInfo, pAllocator, pCommandPool]) ∧
    (∀ device commandPool flags,
      DeviceDriver.resetCommandPool m_vk device commandPool flags = m_vk "resetCommandPool" [device, commandPool, flags]) ∧
    (∀ device pAllocateInfo pCommandBuffers,
      DeviceDriver.allocateCommandBuffers m_vk device pAllocateInfo pCommandBuffers = m_vk "allocateCommandBuffers" [device, pAllocateInfo, pCommandBuffers]) ∧
    (∀ device commandPool commandBufferCount pCommandBuffers world,
      DeviceDriver.freeCommandBuffers m_vk device commandPool commandBufferCount pCommandBuffers world = (m_vk "freeCommandBuffers" [device, commandPool, commandBufferCount, pCommandBuffers] world).2) ∧
    (∀ commandBuffer pBeginInfo,
      DeviceDriver.beginCommandBuffer m_vk commandBuffer pBeginInfo = m_vk "beginCommandBuffer" [commandBuffer, pBeginInfo]) ∧
    (∀ commandBuffer,
      DeviceDriver.endCommandBuffer m_vk commandBuffer = m_vk "endCommandBuffer" [commandBuffer]) ∧
    (∀ commandBuffer flags,
      DeviceDriver.resetCommandBuffer m_vk commandBuffer flags = m_vk "resetCommandBuffer" [commandBuffer, flags]) ∧
    (∀ commandBuffer pipelineBindPoint pipeline world,
      DeviceDriver.cmdBindPipeline m_vk commandBuffer pipelineBindPoint pipeline world = (m_vk "cmdBindPipeline" [commandBuffer, pipelineBindPoint, pipeline] world).2) ∧
    (∀ commandBuffer firstViewport viewportCount pViewports world,
      DeviceDriver.cmdSetViewport m_vk commandBuffer firstViewport viewportCount pViewports world = (m_vk "cmdSetViewport" [commandBuffer, firstViewport, viewportCount, pViewports] world).2) ∧
    (∀ commandBuffer firstScissor scissorCount pScissors world,
      DeviceDriver.cmdSetScissor m_vk commandBuffer firstScissor scissorCount pScissors world = (m_vk "cmdSetScissor" [commandBuffer, firstScissor, scissorCount, pScissors] world).2) ∧
    (∀ commandBuffer lineWidth world,
      DeviceDriver.cmdSetLineWidth m_vk commandBuffer lineWidth world = (m_vk "cmdSetLineWidth" [commandBuffer, lineWidth] world).2) ∧
    (∀ commandBuffer depthBiasConstantFactor depthBiasClamp depthBiasSlopeFactor world,
      DeviceDriver.cmdSetDepthBias m_vk commandBuffer depthBiasConstantFactor depthBiasClamp depthBiasSlopeFactor world = (m_vk "cmdSetDepthBias" [commandBuffer, depthBiasConstantFactor, depthBiasClamp, depthBiasSlopeFactor] world).2) ∧
    (∀ commandBuffer blendConstants world,
      DeviceDriver.cmdSetBlendConstants m_vk commandBuffer blendConstants world = (m_vk "cmdSetBlendConstants" [commandBuffer, blendConstants] world).2) ∧
    (∀ commandBuffer minDepthBounds maxDepthBounds world,
      DeviceDriver.cmdSetDepthBounds m_vk commandBuffer minDepthBounds maxDepthBounds world = (m_vk "cmdSetDepthBounds" [commandBuffer, minDepthBounds, maxDepthBounds] world).2) ∧
    (∀ commandBuffer faceMask compareMask world,
      DeviceDriver.cmdSetStencilCompareMask m_vk commandBuffer faceMask compareMask world = (m_vk "cmdSetStencilCompareMask" [commandBuffer, faceMask, compareMask] world).2) ∧
    (∀ commandBuffer faceMask writeMask world,
      DeviceDriver.cmdSetStencilWriteMask m_vk commandBuffer faceMask writeMask world = (m_vk "cmdSetStencilWriteMask" [commandBuffer, faceMask, writeMask] world).2) ∧
    (∀ commandBuffer faceMask reference world,
      DeviceDriver.cmdSetStencilReference m_vk commandBuffer faceMask reference world = (m_vk "cmdSetStencilReference" [commandBuffer, faceMask, reference] world).2) ∧
    (∀ commandBuffer pipelineBindPoint layout firstSet descriptorSetCount pDescriptorSets dynamicOffsetCount pDynamicOffsets world,
      DeviceDriver.cmdBindDescriptorSets m_vk commandBuffer pipelineBindPoint layout firstSet descriptorSetCount pDescriptorSets dynamicOffsetCount pDynamicOffsets world = (m_vk "cmdBindDescriptorSets" [commandBuffer, pipelineBindPoint, layout, firstSet, descriptorSetCount, pDescriptorSets, dynamicOffsetCount, pDynamicOffsets] world).2) ∧
    (∀ commandBuffer buffer offset indexType world,
      DeviceDriver.cmdBindIndexBuffer m_vk commandBuffer buffer offset indexType world = (m_vk "cmdBindIndexBuffer" [commandBuffer, buffer, offset, indexType] world).2) ∧
    (∀ commandBuffer firstBinding bindingCount pBuffers pOffsets world,
      DeviceDriver.cmdBindVertexBuffers m_vk commandBuffer firstBinding bindingCount pBuffers pOffsets world = (m_vk "cmdBindVertexBuffers" [commandBuffer, firstBinding, bindingCount, pBuffers, pOffsets] world).2) ∧
    (∀ commandBuffer vertexCount instanceCount firstVertex firstInstance world,
      DeviceDriver.cmdDraw m_vk commandBuffer vertexCount instanceCount firstVertex firstInstance world = (m_vk "cmdDraw" [commandBuffer, vertexCount, instanceCount, firstVertex, firstInstance] world).2) ∧
    (∀ commandBuffer indexCount instanceCount firstIndex vertexOffset firstInstance world,
      DeviceDriver.cmdDrawIndexed m_vk commandBuffer indexCount instanceCount firstIndex vertexOffset firstInstance world = (m_vk "cmdDrawIndexed" [commandBuffer, indexCount, instanceCount, firstIndex, vertexOffset, firstInstance] world).2) ∧
    (∀ commandBuffer buffer offset drawCount stride world,
      DeviceDriver.cmdDrawIndirect m_vk commandBuffer buffer offset drawCount stride world = (m_vk "cmdDrawIndirect" [commandBuffer, buffer, offset, drawCount, stride] world).2) ∧
    (∀ commandBuffer buffer offset drawCount stride world,
      DeviceDriver.cmdDrawIndexedIndirect m_vk commandBuffer buffer offset drawCount stride world = (m_vk "cmdDrawIndexedIndirect" [commandBuffer, buffer, offset, drawCount, stride] world).2) ∧
    (∀ commandBuffer groupCountX groupCountY groupCountZ world,
      DeviceDriver.cmdDispatch m_vk commandBuffer groupCountX groupCountY groupCountZ world = (m_vk "cmdDispatch" [commandBuffer, groupCountX, groupCountY, groupCountZ] world).2) ∧
    (∀ commandBuffer buffer offset world,
      DeviceDriver.cmdDispatchIndirect m_vk commandBuffer buffer offset world = (m_vk "cmdDispatchIndirect" [commandBuffer, buffer, offset] world).2) ∧
    (∀ commandBuffer srcBuffer dstBuffer regionCount pRegions world,
      DeviceDriver.cmdCopyBuffer m_vk commandBuffer srcBuffer dstBuffer regionCount pRegions world = (m_vk "cmdCopyBuffer" [commandBuffer, srcBuffer, dstBuffer, regionCount, pRegions] world).2) ∧
    (∀ commandBuffer srcImage srcImageLayout dstImage dstImageLayout regionCount pRegions world,
      DeviceDriver.cmdCopyImage m_vk commandBuffer srcImage srcImageLayout dstImage dstImageLayout regionCount pRegions world = (m_vk "cmdCopyImage" [commandBuffer, srcImage, srcImageLayout, dstImage, dstImageLayout, regionCount, pRegions] world).2) ∧
    (∀ commandBuffer srcImage srcImageLayout dstImage dstImageLayout regionCount pRegions filter world,
      DeviceDriver.cmdBlitImage m_vk commandBuffer srcImage srcImageLayout dstImage dstImageLayout regionCount pRegions filter world = (m_vk "cmdBlitImage" [commandBuffer, srcImage, srcImageLayout, dstImage, dstImageLayout, regionCount, pRegions, filter] world).2) ∧
    (∀ commandBuffer srcBuffer dstImage dstImageLayout regionCount pRegions world,
      DeviceDriver.cmdCopyBufferToImage m_vk commandBuffer srcBuffer dstImage dstImageLayout regionCount pRegions world = (m_vk "cmdCopyBufferToImage" [commandBuffer, srcBuffer, dstImage, dstImageLayout, regionCount, pRegions] world).2) ∧
    (∀ commandBuffer srcImage srcImageLayout dstBuffer regionCount pRegions world,
      DeviceDriver.cmdCopyImageToBuffer m_vk commandBuffer srcImage srcImageLayout dstBuffer regionCount pRegions world = (m_vk "cmdCopyImageToBuffer" [commandBuffer, srcImage, srcImageLayout, dstBuffer, regionCount, pRegions] world).2) ∧
    (∀ commandBuffer dstBuffer dstOffset dataSize pData world,
      DeviceDriver.cmdUpdateBuffer m_vk commandBuffer dstBuffer dstOffset dataSize pData world = (m_vk "cmdUpdateBuffer" [commandBuffer, dstBuffer, dstOffset, dataSize, pData] world).2) ∧
    (∀ commandBuffer dstBuffer dstOffset size data world,
      DeviceDriver.cmdFillBuffer m_vk commandBuffer dstBuffer dstOffset size data world = (m_vk "cmdFillBuffer" [commandBuffer, dstBuffer, dstOffset, size, data] world).2) ∧
    (∀ commandBuffer image imageLayout pColor rangeCount pRanges world,
      DeviceDriver.cmdClearColorImage m_vk commandBuffer image imageLayout pColor rangeCount pRanges world = (m_vk "cmdClearColorImage" [commandBuffer, image, imageLayout, pColor, rangeCount, pRanges] world).2) ∧
    (∀ commandBuffer image imageLayout pDepthStencil rangeCount pRanges world,
      DeviceDriver.cmdClearDepthStencilImage m_vk commandBuffer image imageLayout pDepthStencil rangeCount pRanges world = (m_vk "cmdClearDepthStencilImage" [commandBuffer, image, imageLayout, pDepthStencil, rangeCount, pRanges] world).2) ∧
    (∀ commandBuffer attachmentCount pAttachments rectCount pRects world,
      DeviceDriver.cmdClearAttachments m_vk commandBuffer attachmentCount pAttachments rectCount pRects world = (m_vk "cmdClearAttachments" [commandBuffer, attachmentCount, pAttachments, rectCount, pRects] world).2) ∧
    (∀ commandBuffer srcImage srcImageLayout dstImage dstImageLayout regionCount pRegions world,
      DeviceDriver.cmdResolveImage m_vk commandBuffer srcImage srcImageLayout dstImage dstImageLayout regionCount pRegions world = (m_vk "cmdResolveImage" [commandBuffer, srcImage, srcImageLayout, dstImage, dstImageLayout, regionCount, pRegions] world).2) ∧
    (∀ commandBuffer event stageMask world,
      DeviceDriver.cmdSetEvent m_vk commandBuffer event stageMask world = (m_vk "cmdSetEvent" [commandBuffer, event, stageMask] world).2) ∧
    (∀ commandBuffer event stageMask world,
      DeviceDriver.cmdResetEvent m_vk commandBuffer event stageMask world = (m_vk "cmdResetEvent" [commandBuffer, event, stageMask] world).2) ∧
    (∀ commandBuffer eventCount pEvents srcStageMask dstStageMask memoryBarrierCount pMemoryBarriers bufferMemoryBarrierCount pBufferMemoryBarriers imageMemoryBarrierCount pImageMemoryBarriers world,
      DeviceDriver.cmdWaitEvents m_vk commandBuffer eventCount pEvents srcStageMask dstStageMask memoryBarrierCount pMemoryBarriers bufferMemoryBarrierCount pBufferMemoryBarriers imageMemoryBarrierCount pImageMemoryBarriers world = (m_vk "cmdWaitEvents" [commandBuffer, eventCount, pEvents, srcStageMask, dstStageMask, memoryBarrierCount, pMemoryBarriers, bufferMemoryBarrierCount, pBufferMemoryBarriers, imageMemoryBarrierCount, pImageMemoryBarriers] world).2) ∧
    (∀ commandBuffer srcStageMask dstStageMask dependencyFlags memoryBarrierCount pMemoryBarriers bufferMemoryBarrierCount pBufferMemoryBarriers imageMemoryBarrierCount pImageMemoryBarriers world,
      DeviceDriver.cmdPipelineBarrier m_vk commandBuffer srcStageMask dstStageMask dependencyFlags memoryBarrierCount pMemoryBarriers bufferMemoryBarrierCount pBufferMemoryBarriers imageMemoryBarrierCount pImageMemoryBarriers world = (m_vk "cmdPipelineBarrier" [commandBuffer, srcStageMask, dstStageMask, dependencyFlags, memoryBarrierCount, pMemoryBarriers, bufferMemoryBarrierCount, pBufferMemoryBarriers, imageMemoryBarrierCount, pImageMemoryBarriers] world).2) ∧
    (∀ commandBuffer queryPool query flags world,
      DeviceDriver.cmdBeginQuery m_vk commandBuffer queryPool query flags world = (m_vk "cmdBeginQuery" [commandBuffer, queryPool, query, flags] world).2) ∧
    (∀ commandBuffer queryPool query world,
      DeviceDriver.cmdEndQuery m_vk commandBuffer queryPool query world = (m_vk "cmdEndQuery" [commandBuffer, queryPool, query] world).2) ∧
    (∀ commandBuffer queryPool firstQuery queryCount world,
      DeviceDriver.cmdResetQueryPool m_vk commandBuffer queryPool firstQuery queryCount world = (m_vk "cmdResetQueryPool" [commandBuffer, queryPool, firstQuery, queryCount] world).2) ∧
    (∀ commandBuffer pipelineStage queryPool query world,
      DeviceDriver.cmdWriteTimestamp m_vk commandBuffer pipelineStage queryPool query world = (m_vk "cmdWriteTimestamp" [commandBuffer, pipelineStage, queryPool, query] world).2) ∧
    (∀ commandBuffer queryPool firstQuery queryCount dstBuffer dstOffset stride flags world,
      DeviceDriver.cmdCopyQueryPoolResults m_vk commandBuffer queryPool firstQuery queryCount dstBuffer dstOffset stride flags world = (m_vk "cmdCopyQueryPoolResults" [commandBuffer, queryPool, firstQuery, queryCount, dstBuffer, dstOffset, stride, flags] world).2) ∧
    (∀ commandBuffer layout stageFlags offset size pValues world,
      DeviceDriver.cmdPushConstants m_vk commandBuffer layout stageFlags offset size pValues world = (m_vk "cmdPushConstants" [commandBuffer, layout, stageFlags, offset, size, pValues] world).2) ∧
    (∀ commandBuffer pRenderPassBegin contents world,
      DeviceDriver.cmdBeginRenderPass m_vk commandBuffer pRenderPassBegin contents world = (m_vk "cmdBeginRenderPass" [commandBuffer, pRenderPassBegin, contents] world).2) ∧
    (∀ commandBuffer contents world,
      DeviceDriver.cmdNextSubpass m_vk commandBuffer contents world = (m_vk "cmdNextSubpass" [commandBuffer, contents] world).2) ∧
    (∀ commandBuffer world,
      DeviceDriver.cmdEndRenderPass m_vk commandBuffer world = (m_vk "cmdEndRenderPass" [commandBuffer] world).2) ∧
    (∀ commandBuffer commandBufferCount pCommandBuffers world,
      DeviceDriver.cmdExecuteCommands m_vk commandBuffer commandBufferCount pCommandBuffers world = (m_vk "cmdExecuteCommands" [commandBuffer, commandBufferCount, pCommandBuffers] world).2) ∧
    (∀ device bindInfoCount pBindInfos,
      DeviceDriver.bindBufferMemory2 m_vk device bindInfoCount pBindInfos = m_vk "bindBufferMemory2" [device, bindInfoCount, pBindInfos]) ∧
    (∀ device bindInfoCount pBindInfos,
      DeviceDriver.bindImageMemory2 m_vk device bindInfoCount pBindInfos = m_vk "bindImageMemory2" [device, bindInfoCount, pBindInfos]) ∧
    (∀ device heapIndex localDeviceIndex remoteDeviceIndex pPeerMemoryFeatures world,
      DeviceDriver.getDeviceGroupPeerMemoryFeatures m_vk device heapIndex localDeviceIndex remoteDeviceIndex pPeerMemoryFeatures world = (m_vk "getDeviceGroupPeerMemoryFeatures" [device, heapIndex, localDeviceIndex, remoteDeviceIndex, pPeerMemoryFeatures] world).2) ∧
    (∀ commandBuffer deviceMask world,
      DeviceDriver.cmdSetDeviceMask m_vk commandBuffer deviceMask world = (m_vk "cmdSetDeviceMask" [commandBuffer, deviceMask] world).2) ∧
    (∀ commandBuffer baseGroupX baseGroupY baseGroupZ groupCountX groupCountY groupCountZ world,
      DeviceDriver.cmdDispatchBase m_vk commandBuffer baseGroupX baseGroupY baseGroupZ groupCountX groupCountY groupCountZ world = (m_vk "cmdDispatchBase" [commandBuffer, baseGroupX, baseGroupY, baseGroupZ, groupCountX, groupCountY, groupCountZ] world).2) ∧
    (∀ device pInfo pMemoryRequirements world,
      DeviceDriver.getImageMemoryRequirements2 m_vk device pInfo pMemoryRequirements world = (m_vk "getImageMemoryRequirements2" [device, pInfo, pMemoryRequirements] world).2) ∧
    (∀ device pInfo pMemoryRequirements world,
      DeviceDriver.getBufferMemoryRequirements2 m_vk device pInfo pMemoryRequirements world = (m_vk "getBufferMemoryRequirements2" [device, pInfo, pMemoryRequirements] world).2) ∧
    (∀ device pQueueInfo pQueue world,
      DeviceDriver.getDeviceQueue2 m_vk device pQueueInfo pQueue world = (m_vk "getDeviceQueue2" [device, pQueueInfo, pQueue] world).2) ∧
    (∀ device pCreateInfo pAllocator pYcbcrConversion,
      DeviceDriver.createSamplerYcbcrConversion m_vk device pCreateInfo pAllocator pYcbcrConversion = m_vk "createSamplerYcbcrConversion" [device, pCreateInfo, pAllocator, pYcbcrConversion]) ∧
    (∀ device ycbcrConversion pAllocator world,
      DeviceDriver.destroySamplerYcbcrConversion m_vk device ycbcrConversion pAllocator world = (m_vk "destroySamplerYcbcrConversion" [device, ycbcrConversion, pAllocator] world).2) ∧
    (∀ device pCreateInfo pSupport world,
      DeviceDriver.getDescriptorSetLayoutSupport m_vk device pCreateInfo pSupport world = (m_vk "getDescriptorSetLayoutSupport" [device, pCreateInfo, pSupport] world).2) ∧
    (∀ commandBuffer buffer offset countBuffer countBufferOffset maxDrawCount stride world,
      DeviceDriver.cmdDrawIndirectCount m_vk commandBuffer buffer offset countBuffer countBufferOffset maxDrawCount stride world = (m_vk "cmdDrawIndirectCount" [commandBuffer, buffer, offset, countBuffer, countBufferOffset, maxDrawCount, stride] world).2) ∧
    (∀ commandBuffer buffer offset countBuffer countBufferOffset maxDrawCount stride world,
      DeviceDriver.cmdDrawIndexedIndirectCount m_vk commandBuffer buffer offset countBuffer countBufferOffset maxDrawCount stride world = (m_vk "cmdDrawIndexedIndirectCount" [commandBuffer, buffer, offset, countBuffer, countBufferOffset, maxDrawCount, stride] world).2) ∧
    (∀ device pCreateInfo pAllocator pRenderPass,
      DeviceDriver.createRenderPass2 m_vk device pCreateInfo pAllocator pRenderPass = m_vk "createRenderPass2" [device, pCreateInfo, pAllocator, pRenderPass]) ∧
    (∀ commandBuffer pRenderPassBegin pSubpassBeginInfo world,
      DeviceDriver.cmdBeginRenderPass2 m_vk commandBuffer pRenderPassBegin pSubpassBeginInfo world = (m_vk "cmdBeginRenderPass2" [commandBuffer, pRenderPassBegin, pSubpassBeginInfo] world).2) ∧
    (∀ commandBuffer pSubpassBeginInfo pSubpassEndInfo world,
      DeviceDriver.cmdNextSubpass2 m_vk commandBuffer pSubpassBeginInfo pSubpassEndInfo world = (m_vk "cmdNextSubpass2" [commandBuffer, pSubpassBeginInfo, pSubpassEndInfo] world).2) ∧
    (∀ commandBuffer pSubpassEndInfo world,
      DeviceDriver.cmdEndRenderPass2 m_vk commandBuffer pSubpassEndInfo world = (m_vk "cmdEndRenderPass2" [commandBuffer, pSubpassEndInfo] world).2) ∧
    (∀ device queryPool firstQuery queryCount world,
      DeviceDriver.resetQueryPool m_vk device queryPool firstQuery queryCount world = (m_vk "resetQueryPool" [device, queryPool, firstQuery, queryCount] world).2) ∧
    (∀ device semaphore pValue,
      DeviceDriver.getSemaphoreCounterValue m_vk device semaphore pValue = m_vk "getSemaphoreCounterValue" [device, semaphore, pValue]) ∧
    (∀ device pWaitInfo timeout,
      DeviceDriver.waitSemaphores m_vk device pWaitInfo timeout = m_vk "waitSemaphores" [device, pWaitInfo, timeout]) ∧
    (∀ device pSignalInfo,
      DeviceDriver.signalSemaphore m_vk device pSignalInfo = m_vk "signalSemaphore" [device, pSignalInfo]) ∧
    (∀ device pInfo,
      DeviceDriver.getBufferDeviceAddress m_vk device pInfo = m_vk "getBufferDeviceAddress" [device, pInfo]) ∧
    (∀ device pInfo,
      DeviceDriver.getBufferOpaqueCaptureAddress m_vk device pInfo = m_vk "getBufferOpaqueCaptureAddress" [device, pInfo]) ∧
    (∀ device pInfo,
      DeviceDriver.getDeviceMemoryOpaqueCaptureAddress m_vk device pInfo = m_vk "getDeviceMemoryOpaqueCaptureAddress" [device, pInfo]) ∧
    (∀ device commandPool commandBuffer pConsumption world,
      DeviceDriver.getCommandPoolMemoryConsumption m_vk device commandPool commandBuffer pConsumption world = (m_vk "getCommandPoolMemoryConsumption" [device, commandPool, commandBuffer, pConsumption] world).2) ∧
    (∀ device faultQueryBehavior pUnrecordedFaults pFaultCount pFaults,
      DeviceDriver.getFaultData m_vk device faultQueryBehavior pUnrecordedFaults pFaultCount pFaults = m_vk "getFaultData" [device, faultQueryBehavior, pUnrecordedFaults, pFaultCount, pFaults]) ∧
    (∀ device pCreateInfo pAllocator pSwapchain,
      DeviceDriver.createSwapchainKHR m_vk device pCreateInfo pAllocator pSwapchain = m_vk "createSwapchainKHR" [device, pCreateInfo, pAllocator, pSwapchain]) ∧
    (∀ device swapchain pSwapchainImageCount pSwapchainImages,
      DeviceDriver.getSwapchainImagesKHR m_vk device swapchain pSwapchainImageCount pSwapchainImages = m_vk "getSwapchainImagesKHR" [device, swapchain, pSwapchainImageCount, pSwapchainImages]) ∧
    (∀ device swapchain timeout semaphore fence pImageIndex,
      DeviceDriver.acquireNextImageKHR m_vk device swapchain timeout semaphore fence pImageIndex = m_vk "acquireNextImageKHR" [device, swapchain, timeout, semaphore, fence, pImageIndex]) ∧
    (∀ queue pPresentInfo,
      DeviceDriver.queuePresentKHR m_vk queue pPresentInfo = m_vk "queuePresentKHR" [queue, pPresentInfo]) ∧
    (∀ device pDeviceGroupPresentCapabilities,
      DeviceDriver.getDeviceGroupPresentCapabilitiesKHR m_vk device pDeviceGroupPresentCapabilities = m_vk "getDeviceGroupPresentCapabilitiesKHR" [device, pDeviceGroupPresentCapabilities]) ∧
    (∀ device surface pModes,
      DeviceDriver.getDeviceGroupSurfacePresentModesKHR m_vk device surface pModes = m_vk "getDeviceGroupSurfacePresentModesKHR" [device, surface, pModes]) ∧
    (∀ device pAcquireInfo pImageIndex,
      DeviceDriver.acquireNextImage2KHR m_vk device pAcquireInfo pImageIndex = m_vk "acquireNextImage2KHR" [device, pAcquireInfo, pImageIndex]) ∧
    (∀ device swapchainCount pCreateInfos pAllocator pSwapchains,
      DeviceDriver.createSharedSwapchainsKHR m_vk device swapchainCount pCreateInfos pAllocator pSwapchains = m_vk "createSharedSwapchainsKHR" [device, swapchainCount, pCreateInfos, pAllocator, pSwapchains]) ∧
    (∀ device pGetFdInfo pFd,
      DeviceDriver.getMemoryFdKHR m_vk device pGetFdInfo pFd = m_vk "getMemoryFdKHR" [device, pGetFdInfo, pFd]) ∧
    (∀ device handleType fd pMemoryFdProperties,
      DeviceDriver.getMemoryFdPropertiesKHR m_vk device handleType fd pMemoryFdProperties = m_vk "getMemoryFdPropertiesKHR" [device, handleType, fd, pMemoryFdProperties]) ∧
    (∀ device pImportSemaphoreFdInfo,
      DeviceDriver.importSemaphoreFdKHR m_vk device pImportSemaphoreFdInfo = m_vk "importSemaphoreFdKHR" [device, pImportSemaphoreFdInfo]) ∧
    (∀ device pGetFdInfo pFd,
      DeviceDriver.getSemaphoreFdKHR m_vk device pGetFdInfo pFd = m_vk "getSemaphoreFdKHR" [device, pGetFdInfo, pFd]) ∧
    (∀ device swapchain,
      DeviceDriver.getSwapchainStatusKHR m_vk device swapchain = m_vk "getSwapchainStatusKHR" [device, swapchain]) ∧
    (∀ device pImportFenceFdInfo,
      DeviceDriver.importFenceFdKHR m_vk device pImportFenceFdInfo = m_vk "importFenceFdKHR" [device, pImportFenceFdInfo]) ∧
    (∀ device pGetFdInfo pFd,
      DeviceDriver.getFenceFdKHR m_vk device pGetFdInfo pFd = m_vk "getFenceFdKHR" [device, pGetFdInfo, pFd]) ∧
    (∀ device pInfo,
      DeviceDriver.acquireProfilingLockKHR m_vk device pInfo = m_vk "acquireProfilingLockKHR" [device, pInfo]) ∧
    (∀ device world,
      DeviceDriver.releaseProfilingLockKHR m_vk device world = (m_vk "releaseProfilingLockKHR" [device] world).2) ∧
    (∀ commandBuffer pFragmentSize combinerOps world,
      DeviceDriver.cmdSetFragmentShadingRateKHR m_vk commandBuffer pFragmentSize combinerOps world = (m_vk "cmdSetFragmentShadingRateKHR" [commandBuffer, pFragmentSize, combinerOps] world).2) ∧
    (∀ commandBuffer pRefreshObjects world,
      DeviceDriver.cmdRefreshObjectsKHR m_vk commandBuffer pRefreshObjects world = (m_vk "cmdRefreshObjectsKHR" [commandBuffer, pRefreshObjects] world).2) ∧
    (∀ commandBuffer event pDependencyInfo world,
      DeviceDriver.cmdSetEvent2KHR m_vk commandBuffer event pDependencyInfo world = (m_vk "cmdSetEvent2KHR" [commandBuffer, event, pDependencyInfo] world).2) ∧
    (∀ commandBuffer event stageMask world,
      DeviceDriver.cmdResetEvent2KHR m_vk commandBuffer event stageMask world = (m_vk "cmdResetEvent2KHR" [commandBuffer, event, stageMask] world).2) ∧
    (∀ commandBuffer eventCount pEvents pDependencyInfos world,
      DeviceDriver.cmdWaitEvents2KHR m_vk commandBuffer eventCount pEvents pDependencyInfos world = (m_vk "cmdWaitEvents2KHR" [commandBuffer, eventCount, pEvents, pDependencyInfos] world).2) ∧
    (∀ commandBuffer pDependencyInfo world,
      DeviceDriver.cmdPipelineBarrier2KHR m_vk commandBuffer pDependencyInfo world = (m_vk "cmdPipelineBarrier2KHR" [commandBuffer, pDependencyInfo] world).2) ∧
    (∀ commandBuffer stage queryPool query world,
      DeviceDriver.cmdWriteTimestamp2KHR m_vk commandBuffer stage queryPool query world = (m_vk "cmdWriteTimestamp2KHR" [commandBuffer, stage, queryPool, query] world).2) ∧
    (∀ queue submitCount pSubmits fence,
      DeviceDriver.queueSubmit2KHR m_vk queue submitCount pSubmits fence = m_vk "queueSubmit2KHR" [queue, submitCount, pSubmits, fence]) ∧
    (∀ commandBuffer stage dstBuffer dstOffset marker world,
      DeviceDriver.cmdWriteBufferMarker2AMD m_vk commandBuffer stage dstBuffer dstOffset marker world = (m_vk "cmdWriteBufferMarker2AMD" [commandBuffer, stage, dstBuffer, dstOffset, marker] world).2) ∧
    (∀ queue pCheckpointDataCount pCheckpointData world,
      DeviceDriver.getQueueCheckpointData2NV m_vk queue pCheckpointDataCount pCheckpointData world = (m_vk "getQueueCheckpointData2NV" [queue, pCheckpointDataCount, pCheckpointData] world).2) ∧
    (∀ commandBuffer pCopyBufferInfo world,
      DeviceDriver.cmdCopyBuffer2KHR m_vk commandBuffer pCopyBufferInfo world = (m_vk "cmdCopyBuffer2KHR" [commandBuffer, pCopyBufferInfo] world).2) ∧
    (∀ commandBuffer pCopyImageInfo world,
      DeviceDriver.cmdCopyImage2KHR m_vk commandBuffer pCopyImageInfo world = (m_vk "cmdCopyImage2KHR" [commandBuffer, pCopyImageInfo] world).2) ∧
    (∀ commandBuffer pCopyBufferToImageInfo world,
      DeviceDriver.cmdCopyBufferToImage2KHR m_vk commandBuffer pCopyBufferToImageInfo world = (m_vk "cmdCopyBufferToImage2KHR" [commandBuffer, pCopyBufferToImageInfo] world).2) ∧
    (∀ commandBuffer pCopyImageToBufferInfo world,
      DeviceDriver.cmdCopyImageToBuffer2KHR m_vk commandBuffer pCopyImageToBufferInfo world = (m_vk "cmdCopyImageToBuffer2KHR" [commandBuffer, pCopyImageToBufferInfo] world).2) ∧
    (∀ commandBuffer pBlitImageInfo world,
      DeviceDriver.cmdBlitImage2KHR m_vk commandBuffer pBlitImageInfo world = (m_vk "cmdBlitImage2KHR" [commandBuffer, pBlitImageInfo] world).2) ∧
    (∀ commandBuffer pResolveImageInfo world,
      DeviceDriver.cmdResolveImage2KHR m_vk commandBuffer pResolveImageInfo world = (m_vk "cmdResolveImage2KHR" [commandBuffer, pResolveImageInfo] world).2) ∧
    (∀ device display pDisplayPowerInfo,
      DeviceDriver.displayPowerControlEXT m_vk device display pDisplayPowerInfo = m_vk "displayPowerControlEXT" [device, display, pDisplayPowerInfo]) ∧
    (∀ device pDeviceEventInfo pAllocator pFence,
      DeviceDriver.registerDeviceEventEXT m_vk device pDeviceEventInfo pAllocator pFence = m_vk "registerDeviceEventEXT" [device, pDeviceEventInfo, pAllocator, pFence]) ∧
    (∀ device display pDisplayEventInfo pAllocator pFence,
      DeviceDriver.registerDisplayEventEXT m_vk device display pDisplayEventInfo pAllocator pFence = m_vk "registerDisplayEventEXT" [device, display, pDisplayEventInfo, pAllocator, pFence]) ∧
    (∀ device swapchain counter pCounterValue,
      DeviceDriver.getSwapchainCounterEXT m_vk device swapchain counter pCounterValue = m_vk "getSwapchainCounterEXT" [device, swapchain, counter, pCounterValue]) ∧
    (∀ commandBuffer firstDiscardRectangle discardRectangleCount pDiscardRectangles world,
      DeviceDriver.cmdSetDiscardRectangleEXT m_vk commandBuffer firstDiscardRectangle discardRectangleCount pDiscardRectangles world = (m_vk "cmdSetDiscardRectangleEXT" [commandBuffer, firstDiscardRectangle, discardRectangleCount, pDiscardRectangles] world).2) ∧
    (∀ device swapchainCount pSwapchains pMetadata world,
      DeviceDriver.setHdrMetadataEXT m_vk device swapchainCount pSwapchains pMetadata world = (m_vk "setHdrMetadataEXT" [device, swapchainCount, pSwapchains, pMetadata] world).2) ∧
    (∀ device pNameInfo,
      DeviceDriver.setDebugUtilsObjectNameEXT m_vk device pNameInfo = m_vk "setDebugUtilsObjectNameEXT" [device, pNameInfo]) ∧
    (∀ device pTagInfo,
      DeviceDriver.setDebugUtilsObjectTagEXT m_vk device pTagInfo = m_vk "setDebugUtilsObjectTagEXT" [device, pTagInfo]) ∧
    (∀ queue pLabelInfo world,
      DeviceDriver.queueBeginDebugUtilsLabelEXT m_vk queue pLabelInfo world = (m_vk "queueBeginDebugUtilsLabelEXT" [queue, pLabelInfo] world).2) ∧
    (∀ queue world,
      DeviceDriver.queueEndDebugUtilsLabelEXT m_vk queue world = (m_vk "queueEndDebugUtilsLabelEXT" [queue] world).2) ∧
    (∀ queue pLabelInfo world,
      DeviceDriver.queueInsertDebugUtilsLabelEXT m_vk queue pLabelInfo world = (m_vk "queueInsertDebugUtilsLabelEXT" [queue, pLabelInfo] world).2) ∧
    (∀ commandBuffer pLabelInfo world,
      DeviceDriver.cmdBeginDebugUtilsLabelEXT m_vk commandBuffer pLabelInfo world = (m_vk "cmdBeginDebugUtilsLabelEXT" [commandBuffer, pLabelInfo] world).2) ∧
    (∀ commandBuffer world,
      DeviceDriver.cmdEndDebugUtilsLabelEXT m_vk commandBuffer world = (m_vk "cmdEndDebugUtilsLabelEXT" [commandBuffer] world).2) ∧
    (∀ commandBuffer pLabelInfo world,
      DeviceDriver.cmdInsertDebugUtilsLabelEXT m_vk commandBuffer pLabelInfo world = (m_vk "cmdInsertDebugUtilsLabelEXT" [commandBuffer, pLabelInfo] world).2) ∧
    (∀ commandBuffer pSampleLocationsInfo world,
      DeviceDriver.cmdSetSampleLocationsEXT m_vk commandBuffer pSampleLocationsInfo world = (m_vk "cmdSetSampleLocationsEXT" [commandBuffer, pSampleLocationsInfo] world).2) ∧
    (∀ device image pProperties,
      DeviceDriver.getImageDrmFormatModifierPropertiesEXT m_vk device image pProperties = m_vk "getImageDrmFormatModifierPropertiesEXT" [device, image, pProperties]) ∧
    (∀ device handleType pHostPointer pMemoryHostPointerProperties,
      DeviceDriver.getMemoryHostPointerPropertiesEXT m_vk device handleType pHostPointer pMemoryHostPointerProperties = m_vk "getMemoryHostPointerPropertiesEXT" [device, handleType, pHostPointer, pMemoryHostPointerProperties]) ∧
    (∀ device timestampCount pTimestampInfos pTimestamps pMaxDeviation,
      DeviceDriver.getCalibratedTimestampsEXT m_vk device timestampCount pTimestampInfos pTimestamps pMaxDeviation = m_vk "getCalibratedTimestampsEXT" [device, timestampCount, pTimestampInfos, pTimestamps, pMaxDeviation]) ∧
    (∀ commandBuffer lineStippleFactor lineStipplePattern world,
      DeviceDriver.cmdSetLineStippleEXT m_vk commandBuffer lineStippleFactor lineStipplePattern world = (m_vk "cmdSetLineStippleEXT" [commandBuffer, lineStippleFactor, lineStipplePattern] world).2) ∧
    (∀ commandBuffer cullMode world,
      DeviceDriver.cmdSetCullModeEXT m_vk commandBuffer cullMode world = (m_vk "cmdSetCullModeEXT" [commandBuffer, cullMode] world).2) ∧
    (∀ commandBuffer frontFace world,
      DeviceDriver.cmdSetFrontFaceEXT m_vk commandBuffer frontFace world = (m_vk "cmdSetFrontFaceEXT" [commandBuffer, frontFace] world).2) ∧
    (∀ commandBuffer primitiveTopology world,
      DeviceDriver.cmdSetPrimitiveTopologyEXT m_vk commandBuffer primitiveTopology world = (m_vk "cmdSetPrimitiveTopologyEXT" [commandBuffer, primitiveTopology] world).2) ∧
    (∀ commandBuffer viewportCount pViewports world,
      DeviceDriver.cmdSetViewportWithCountEXT m_vk commandBuffer viewportCount pViewports world = (m_vk "cmdSetViewportWithCountEXT" [commandBuffer, viewportCount, pViewports] world).2) ∧
    (∀ commandBuffer scissorCount pScissors world,
      DeviceDriver.cmdSetScissorWithCountEXT m_vk commandBuffer scissorCount pScissors world = (m_vk "cmdSetScissorWithCountEXT" [commandBuffer, scissorCount, pScissors] world).2) ∧
    (∀ commandBuffer firstBinding bindingCount pBuffers pOffsets pSizes pStrides world,
      DeviceDriver.cmdBindVertexBuffers2EXT m_vk commandBuffer firstBinding bindingCount pBuffers pOffsets pSizes pStrides world = (m_vk "cmdBindVertexBuffers2EXT" [commandBuffer, firstBinding, bindingCount, pBuffers, pOffsets, pSizes, pStrides] world).2) ∧
    (∀ commandBuffer depthTestEnable world,
      DeviceDriver.cmdSetDepthTestEnableEXT m_vk commandBuffer depthTestEnable world = (m_vk "cmdSetDepthTestEnableEXT" [commandBuffer, depthTestEnable] world).2) ∧
    (∀ commandBuffer depthWriteEnable world,
      DeviceDriver.cmdSetDepthWriteEnableEXT m_vk commandBuffer depthWriteEnable world = (m_vk "cmdSetDepthWriteEnableEXT" [commandBuffer, depthWriteEnable] world).2) ∧
    (∀ commandBuffer depthCompareOp world,
      DeviceDriver.cmdSetDepthCompareOpEXT m_vk commandBuffer depthCompareOp world = (m_vk "cmdSetDepthCompareOpEXT" [commandBuffer, depthCompareOp] world).2) ∧
    (∀ commandBuffer depthBoundsTestEnable world,
      DeviceDriver.cmdSetDepthBoundsTestEnableEXT m_vk commandBuffer depthBoundsTestEnable world = (m_vk "cmdSetDepthBoundsTestEnableEXT" [commandBuffer, depthBoundsTestEnable] world).2) ∧
    (∀ commandBuffer stencilTestEnable world,
      DeviceDriver.cmdSetStencilTestEnableEXT m_vk commandBuffer stencilTestEnable world = (m_vk "cmdSetStencilTestEnableEXT" [commandBuffer, stencilTestEnable] world).2) ∧
    (∀ commandBuffer faceMask failOp passOp depthFailOp compareOp world,
      DeviceDriver.cmdSetStencilOpEXT m_vk commandBuffer faceMask failOp passOp depthFailOp compareOp world = (m_vk "cmdSetStencilOpEXT" [commandBuffer, faceMask, failOp, passOp, depthFailOp, compareOp] world).2) ∧
    (∀ commandBuffer vertexBindingDescriptionCount pVertexBindingDescriptions vertexAttributeDescriptionCount pVertexAttributeDescriptions world,
      DeviceDriver.cmdSetVertexInputEXT m_vk commandBuffer vertexBindingDescriptionCount pVertexBindingDescriptions vertexAttributeDescriptionCount pVertexAttributeDescriptions world = (m_vk "cmdSetVertexInputEXT" [commandBuffer, vertexBindingDescriptionCount, pVertexBindingDescriptions, vertexAttributeDescriptionCount, pVertexAttributeDescriptions] world).2) ∧
    (∀ commandBuffer patchControlPoints world,
      DeviceDriver.cmdSetPatchControlPointsEXT m_vk commandBuffer patchControlPoints world = (m_vk "cmdSetPatchControlPointsEXT" [commandBuffer, patchControlPoints] world).2) ∧
    (∀ commandBuffer rasterizerDiscardEnable world,
      DeviceDriver.cmdSetRasterizerDiscardEnableEXT m_vk commandBuffer rasterizerDiscardEnable world = (m_vk "cmdSetRasterizerDiscardEnableEXT" [commandBuffer, rasterizerDiscardEnable] world).2) ∧
    (∀ commandBuffer depthBiasEnable world,
      DeviceDriver.cmdSetDepthBiasEnableEXT m_vk commandBuffer depthBiasEnable world = (m_vk "cmdSetDepthBiasEnableEXT" [commandBuffer, depthBiasEnable] world).2) ∧
    (∀ commandBuffer logicOp world,
      DeviceDriver.cmdSetLogicOpEXT m_vk commandBuffer logicOp world = (m_vk "cmdSetLogicOpEXT" [commandBuffer, logicOp] world).2) ∧
    (∀ commandBuffer primitiveRestartEnable world,
      DeviceDriver.cmdSetPrimitiveRestartEnableEXT m_vk commandBuffer primitiveRestartEnable world = (m_vk "cmdSetPrimitiveRestartEnableEXT" [commandBuffer, primitiveRestartEnable] world).2) ∧
    (∀ commandBuffer attachmentCount pColorWriteEnables world,
      DeviceDriver.cmdSetColorWriteEnableEXT m_vk commandBuffer attachmentCount pColorWriteEnables world = (m_vk "cmdSetColorWriteEnableEXT" [commandBuffer, attachmentCount, pColorWriteEnables] world).2) := by
  refine ⟨fun _ _ _ _ _ => rfl, ?_⟩
  repeat (first | constructor | (intros; rfl))

end vk

/-! ## Claims about the conditional rendering utilities and the serialized header -/

namespace vkt
namespace conditional

open vk (Byte Failure deMemcpy deMemset usize)

/-- C7: outcome of `checkConditionalRenderingCapabilities` when
`VK_EXT_conditional_rendering` is present. It fails the test exactly when the
`conditionalRendering` feature is `VK_FALSE`; it throws `NotSupportedError` exactly
when that feature is not `VK_FALSE`, `data.conditionInherited` is set and the
`inheritedConditionalRendering` feature is false; otherwise it returns normally. -/
theorem checkConditionalRenderingCapabilities_outcome {sizeofConditionValue : Nat}
    (context : Context) (data : ConditionalData sizeofConditionValue)
    (hpresent : context.requireDeviceFunctionality "VK_EXT_conditional_rendering" = .ok ()) :
    ((∃ msg, checkConditionalRenderingCapabilities context data = .error (Thrown.fail msg)) ↔
      context.getConditionalRenderingFeaturesEXT.conditionalRendering = VK_FALSE) ∧
    ((∃ msg, checkConditionalRenderingCapabilities context data
        = .error (Thrown.notSupported msg)) ↔
      (context.getConditionalRenderingFeaturesEXT.conditionalRendering ≠ VK_FALSE ∧
        data.conditionInherited = true ∧
        context.getConditionalRenderingFeaturesEXT.inheritedConditionalRendering = VK_FALSE)) ∧
    (checkConditionalRenderingCapabilities context data = .ok () ↔
      (context.getConditionalRenderingFeaturesEXT.conditionalRendering ≠ VK_FALSE ∧
        ¬ (data.conditionInherited = true ∧
          context.getConditionalRenderingFeaturesEXT.inheritedConditionalRendering
            = VK_FALSE))) := by
  unfold checkConditionalRenderingCapabilities VK_FALSE
  simp only [hpresent, bind, Except.bind, throw, throwThe, MonadExceptOf.throw, pure,
    Except.pure]
  by_cases h1 : context.getConditionalRenderingFeaturesEXT.conditionalRendering = 0
  · simp [h1]
  · by_cases h2 : data.conditionInherited = true
    · by_cases h3 : context.getConditionalRenderingFeaturesEXT.inheritedConditionalRendering = 0
      · simp [h1, h2, h3]
      · simp [h1, h2, h3]
    · simp [h1, h2]

/-- Instance of C7: the extension is present, `conditionalRendering` is supported,
the condition is inherited and `inheritedConditionalRendering` is not supported:
the outcome is `NotSupportedError`. -/
theorem checkConditionalRenderingCapabilities_outcome_witness :
    checkConditionalRenderingCapabilities
        (⟨fun _ => .ok (), ⟨1, 0⟩⟩ : Context)
        (⟨true, false, false, true, ⟨[1, 0, 0, 0], rfl⟩, false, true⟩ : ConditionalData 4)
      = .error (Thrown.notSupported "Device does not support inherited conditional rendering") := by
  obtain ⟨msg, hmsg⟩ :=
    (checkConditionalRenderingCapabilities_outcome
      (⟨fun _ => .ok (), ⟨1, 0⟩⟩ : Context)
      (⟨true, false, false, true, ⟨[1, 0, 0, 0], rfl⟩, false, true⟩ : ConditionalData 4)
      rfl).2.1.mpr ⟨by decide, rfl, rfl⟩
  rw [hmsg]
  exact hmsg.symm.trans rfl

/-- C9: contents of the condition buffer. With `s = sizeof (data.conditionValue)`
(and `3 * s` below `2^64`), on host memory that covers the buffer,
`createConditionalRenderingBuffer` yields, when `padConditionValue` is set, a
buffer of `3 * s` bytes: `s` bytes `0x01`, the bytes of the condition value, `s`
bytes `0x01`; when it is not set, a buffer of `s` bytes holding the bytes of the
condition value. -/
theorem createConditionalRenderingBuffer_contents {sizeofConditionValue : Nat}
    (hostMemory : List Byte) (data : ConditionalData sizeofConditionValue)
    (hs : 3 * sizeofConditionValue < 2 ^ 64)
    (hmem : (if data.padConditionValue then 3 * sizeofConditionValue else sizeofConditionValue)
      ≤ hostMemory.length) :
    ∃ buffer, createConditionalRenderingBuffer hostMemory data = .ok buffer ∧
      (data.padConditionValue = true →
        buffer.size = 3 * sizeofConditionValue ∧
        buffer.memory.take buffer.size =
          List.replicate sizeofConditionValue 1 ++ data.conditionValue.bytes ++
            List.replicate sizeofConditionValue 1) ∧
      (data.padConditionValue = false →
        buffer.size = sizeofConditionValue ∧
        buffer.memory.take buffer.size = data.conditionValue.bytes) := by
  have hsz : usize sizeofConditionValue = sizeofConditionValue := by
    apply vk.usize_of_lt
    unfold vk.SIZE_RANGE
    omega
  have hlenv := data.conditionValue.size_eq
  cases hpad : data.padConditionValue with
  | true =>
    rw [hpad] at hmem
    simp only [if_true] at hmem
    have h3 : usize (sizeofConditionValue * 3) = sizeofConditionValue * 3 := by
      apply vk.usize_of_lt
      unfold vk.SIZE_RANGE
      omega
    have hset : deMemset hostMemory 1 (sizeofConditionValue * 3) =
        .ok (List.replicate sizeofConditionValue 1 ++ List.replicate sizeofConditionValue 1 ++
          (List.replicate sizeofConditionValue 1 ++ hostMemory.drop (sizeofConditionValue * 3))) := by
      unfold deMemset
      rw [if_pos (by omega)]
      have : sizeofConditionValue * 3
          = sizeofConditionValue + sizeofConditionValue + sizeofConditionValue := by ring
      rw [this, List.replicate_add, List.replicate_add]
      simp only [List.append_assoc]
    have hcopy := vk.deMemcpy_mid (List.replicate sizeofConditionValue 1)
      (List.replicate sizeofConditionValue 1)
      (List.replicate sizeofConditionValue 1 ++ hostMemory.drop (sizeofConditionValue * 3))
      data.conditionValue.bytes (by simp [hlenv])
    rw [List.length_replicate] at hcopy
    have hrun : createConditionalRenderingBuffer hostMemory data = .ok
        { size := sizeofConditionValue * 3
          memory := List.replicate sizeofConditionValue 1 ++ data.conditionValue.bytes ++
            (List.replicate sizeofConditionValue 1 ++ hostMemory.drop (sizeofConditionValue * 3)) } := by
      unfold createConditionalRenderingBuffer
      simp only [hpad, if_true, hsz, h3, hset, hcopy, bind, Except.bind, pure, Except.pure]
    refine ⟨_, hrun, fun _ => ⟨by ring, ?_⟩, fun h => by cases h⟩
    have hlen : (List.replicate sizeofConditionValue (1 : Byte) ++ data.conditionValue.bytes ++
        List.replicate sizeofConditionValue 1).length = sizeofConditionValue * 3 := by
      simp only [List.length_append, List.length_replicate, hlenv]
      ring
    show List.take (sizeofConditionValue * 3) _ = _
    rw [← List.append_assoc, ← hlen, List.take_left]
  | false =>
    rw [hpad] at hmem
    simp only [Bool.false_eq_true, if_false] at hmem
    have h0 : usize 0 = 0 := rfl
    have hset : deMemset hostMemory 1 sizeofConditionValue =
        .ok ([] ++ List.replicate sizeofConditionValue 1 ++
          hostMemory.drop sizeofConditionValue) := by
      unfold deMemset
      rw [if_pos hmem]
      rfl
    have hcopy := vk.deMemcpy_mid [] (List.replicate sizeofConditionValue 1)
      (hostMemory.drop sizeofConditionValue) data.conditionValue.bytes (by simp [hlenv])
    simp only [List.length_nil] at hcopy
    have hrun : createConditionalRenderingBuffer hostMemory data = .ok
        { size := sizeofConditionValue
          memory := [] ++ data.conditionValue.bytes ++ hostMemory.drop sizeofConditionValue } := by
      unfold createConditionalRenderingBuffer
      simp only [hpad, Bool.false_eq_true, if_false, Nat.mul_one, hsz, h0, hset, hcopy, bind,
        Except.bind, pure, Except.pure]
    refine ⟨_, hrun, (fun h => by cases h), fun _ => ⟨rfl, ?_⟩⟩
    have htake := List.take_left data.conditionValue.bytes
      (hostMemory.drop sizeofConditionValue)
    rw [hlenv] at htake
    exact htake

/-- Instance of C9: a padded four-byte condition value in eight-word memory. -/
theorem createConditionalRenderingBuffer_contents_witness :
    ∃ buffer, createConditionalRenderingBuffer
        [7, 7, 7, 7, 7, 7, 7, 7, 7, 7, 7, 7, 7, 7, 7, 7]
        (⟨true, false, false, false, ⟨[0, 0, 0, 0], rfl⟩, true, false⟩ : ConditionalData 4)
        = .ok buffer ∧
      buffer.size = 12 ∧
      buffer.memory.take buffer.size = [1, 1, 1, 1, 0, 0, 0, 0, 1, 1, 1, 1] := by
  obtain ⟨buffer, hrun, hpad, _⟩ :=
    createConditionalRenderingBuffer_contents
      [7, 7, 7, 7, 7, 7, 7, 7, 7, 7, 7, 7, 7, 7, 7, 7]
      (⟨true, false, false, false, ⟨[0, 0, 0, 0], rfl⟩, true, false⟩ : ConditionalData 4)
      (by norm_num) (by decide)
  exact ⟨buffer, hrun, hpad rfl⟩

end conditional
end vkt

namespace vk
namespace SerialStorage

/-- C8: serialization header layout. With `VK_UUID_SIZE = 16` the serialized fields
have the offsets `DRIVER_UUID = 0`, `COMPAT_UUID = 16`, `SERIALIZED_SIZE = 32`,
`DESERIALIZED_SIZE = 40`, `HANDLES_COUNT = 48` and `SERIAL_STORAGE_SIZE_MIN = 56`, the
sum of the field sizes; `AccelerationStructureHeader` places `driverUUID`,
`compactUUID`, `serializedSize`, `deserializedSize` and `handleCount` at these
offsets and `handleArray` at `SERIAL_STORAGE_SIZE_MIN`. -/
theorem serialized_header_layout :
    serializedFields 16 =
      { DRIVER_UUID := 0, COMPAT_UUID := 16, SERIALIZED_SIZE := 32, DESERIALIZED_SIZE := 40,
        HANDLES_COUNT := 48, SERIAL_STORAGE_SIZE_MIN := 56 } ∧
    (serializedFields 16).SERIAL_STORAGE_SIZE_MIN = 16 + 16 + 8 + 8 + 8 ∧
    headerOffsetOf 16 "driverUUID" = some (serializedFields 16).DRIVER_UUID ∧
    headerOffsetOf 16 "compactUUID" = some (serializedFields 16).COMPAT_UUID ∧
    headerOffsetOf 16 "serializedSize" = some (serializedFields 16).SERIALIZED_SIZE ∧
    headerOffsetOf 16 "deserializedSize" = some (serializedFields 16).DESERIALIZED_SIZE ∧
    headerOffsetOf 16 "handleCount" = some (serializedFields 16).HANDLES_COUNT ∧
    headerOffsetOf 16 "handleArray" = some (serializedFields 16).SERIAL_STORAGE_SIZE_MIN := by
  refine ⟨by decide, by decide, by decide, by decide, by decide, by decide, by decide, by decide⟩

end SerialStorage
end vk

/-! ## Frame and failure behaviour of the packer -/

namespace vk

theorem deMemcpy_ok {dst src r : List Byte} {offset : Nat}
    (h : deMemcpy dst offset src = .ok r) :
    offset + src.length ≤ dst.length ∧
      r = dst.take offset ++ src ++ dst.drop (offset + src.length) := by
  unfold deMemcpy at h
  by_cases hle : offset + src.length ≤ dst.length
  · rw [if_pos hle] at h
    exact ⟨hle, (Except.ok.inj h).symm⟩
  · rw [if_neg hle] at h
    cases h

theorem deMemcpy_length {dst src r : List Byte} {offset : Nat}
    (h : deMemcpy dst offset src = .ok r) : r.length = dst.length := by
  obtain ⟨hle, hr⟩ := deMemcpy_ok h
  rw [hr]
  simp only [List.length_append, List.length_take, List.length_drop]
  omega

theorem deMemcpy_take {dst src r : List Byte} {offset : Nat}
    (h : deMemcpy dst offset src = .ok r) : r.take offset = dst.take offset := by
  obtain ⟨hle, hr⟩ := deMemcpy_ok h
  have hlen : (dst.take offset).length = offset := by
    rw [List.length_take]
    omega
  have key := List.take_left (dst.take offset) (src ++ dst.drop (offset + src.length))
  rw [hlen] at key
  rw [hr, List.append_assoc]
  exact key

theorem deMemcpy_drop {dst src r : List Byte} {offset : Nat}
    (h : deMemcpy dst offset src = .ok r) :
    r.drop (offset + src.length) = dst.drop (offset + src.length) := by
  obtain ⟨hle, hr⟩ := deMemcpy_ok h
  have hlen : (dst.take offset ++ src).length = offset + src.length := by
    rw [List.length_append, List.length_take]
    omega
  have key := List.drop_left (dst.take offset ++ src) (dst.drop (offset + src.length))
  rw [hlen] at key
  rw [hr]
  exact key

theorem resize_prefix (l : List Byte) (n : Nat) (value : Byte) (h : l.length ≤ n) :
    (resize l n value).take l.length = l := by
  unfold resize
  by_cases hle : n ≤ l.length
  · have : n = l.length := by omega
    subst this
    simp
  · rw [if_neg hle, List.take_left]

namespace RaytracedGeometry

variable {kVertexSize : Nat}

theorem getBlockSize_eq (g : RaytracedGeometry kVertexSize) : g.getBlockSize = g.m_blockSize := by
  unfold getBlockSize
  simp only [ite_self]

/-- What a returning call did when it appended a block. -/
theorem addNativeVertex_ok_newBlock (g g1 : RaytracedGeometry kVertexSize)
    (v : NativeVertex kVertexSize)
    (hnew : g.isTrianglesType = true ∨ g.m_vertexCount % 2 = 0)
    (h : g.addNativeVertex v = .ok g1) :
    ∃ written,
      deMemcpy (resize g.m_vertices (usize (g.m_vertices.length + g.m_blockSize)) 0)
        g.m_vertices.length v.bytes = .ok written ∧
      g1 = { g with m_vertices := written, m_vertexCount := usize (g.m_vertexCount + 1) } := by
  unfold addNativeVertex at h
  simp only [getBlockSize_eq] at h
  have hbranch : (if g.isTrianglesType = true then
        (do
          let written ← deMemcpy
            (resize g.m_vertices (usize (g.m_vertices.length + g.m_blockSize)) 0)
            g.m_vertices.length v.bytes
          pure { g with m_vertices := written, m_vertexCount := usize (g.m_vertexCount + 1) } :
          Except Failure (RaytracedGeometry kVertexSize))
      else if g.m_vertexCount % 2 = 0 then
        (do
          let written ← deMemcpy
            (resize g.m_vertices (usize (g.m_vertices.length + g.m_blockSize)) 0)
            g.m_vertices.length v.bytes
          pure { g with m_vertices := written, m_vertexCount := usize (g.m_vertexCount + 1) })
      else
        (do
          let written ← deMemcpy g.m_vertices
            (usize (usizeSub g.m_vertices.length g.m_blockSize + kVertexSize)) v.bytes
          pure { g with m_vertices := written, m_vertexCount := usize (g.m_vertexCount + 1) }))
      = (do
          let written ← deMemcpy
            (resize g.m_vertices (usize (g.m_vertices.length + g.m_blockSize)) 0)
            g.m_vertices.length v.bytes
          pure { g with m_vertices := written, m_vertexCount := usize (g.m_vertexCount + 1) }) := by
    rcases hnew with ht | he
    · rw [if_pos ht]
    · by_cases ht : g.isTrianglesType = true
      · rw [if_pos ht]
      · rw [if_neg ht, if_pos he]
  rw [hbranch] at h
  cases hc : deMemcpy (resize g.m_vertices (usize (g.m_vertices.length + g.m_blockSize)) 0)
      g.m_vertices.length v.bytes with
  | error e =>
    rw [hc] at h
    cases h
  | ok written =>
    rw [hc] at h
    exact ⟨written, rfl, (Except.ok.inj h).symm⟩

/-- What a returning call did when it filled the second slot. -/
theorem addNativeVertex_ok_secondSlot (g g1 : RaytracedGeometry kVertexSize)
    (v : NativeVertex kVertexSize)
    (htype : g.isTrianglesType = false) (hodd : g.m_vertexCount % 2 = 1)
    (h : g.addNativeVertex v = .ok g1) :
    ∃ written,
      deMemcpy g.m_vertices (usize (usizeSub g.m_vertices.length g.m_blockSize + kVertexSize))
        v.bytes = .ok written ∧
      g1 = { g with m_vertices := written, m_vertexCount := usize (g.m_vertexCount + 1) } := by
  unfold addNativeVertex at h
  have hne : ¬ (g.m_vertexCount % 2 = 0) := by omega
  simp only [getBlockSize_eq, htype, Bool.false_eq_true, if_false, hne] at h
  cases hc : deMemcpy g.m_vertices
      (usize (usizeSub g.m_vertices.length g.m_blockSize + kVertexSize)) v.bytes with
  | error e =>
    rw [hc] at h
    cases h
  | ok written =>
    rw [hc] at h
    exact ⟨written, rfl, (Except.ok.inj h).symm⟩

theorem resize_length (l : List Byte) (n : Nat) (value : Byte) :
    (resize l n value).length = n := by
  unfold resize
  by_cases hle : n ≤ l.length
  · rw [if_pos hle, List.length_take]
    omega
  · rw [if_neg hle, List.length_append, List.length_replicate]
    omega

/-- A call on the second slot returns when the block size is consistent. -/
theorem addNativeVertex_secondSlot_defined (g : RaytracedGeometry kVertexSize)
    (v : NativeVertex kVertexSize)
    (htype : g.isTrianglesType = false) (hodd : g.m_vertexCount % 2 = 1)
    (hB : 2 * kVertexSize ≤ g.m_blockSize) (hlen : g.m_blockSize ≤ g.m_vertices.length)
    (hfit : g.m_vertices.length < SIZE_RANGE) :
    ∃ g1, g.addNativeVertex v = .ok g1 := by
  have hoff : usize (usizeSub g.m_vertices.length g.m_blockSize + kVertexSize)
      = g.m_vertices.length - g.m_blockSize + kVertexSize := by
    rw [usizeSub_of_le hlen hfit, usize_of_lt (by omega)]
  have hne : ¬ (g.m_vertexCount % 2 = 0) := by omega
  have hle : g.m_vertices.length - g.m_blockSize + kVertexSize + v.bytes.length
      ≤ g.m_vertices.length := by
    rw [v.size_eq]
    omega
  unfold addNativeVertex deMemcpy
  simp only [getBlockSize_eq, htype, Bool.false_eq_true, if_false, hne, hoff, if_pos hle]
  exact ⟨_, rfl⟩

/-- With block size zero nothing is appended, and the copy of a vertex of at
least one byte lands outside the empty buffer. -/
theorem addNativeVertex_zero_block (g : RaytracedGeometry kVertexSize)
    (v : NativeVertex kVertexSize) (htype : g.isTrianglesType = true)
    (hB : g.m_blockSize = 0) (hbuf : g.m_vertices = []) (hk : 0 < kVertexSize) :
    g.addNativeVertex v = .error Failure.outOfBounds := by
  have hlen := v.size_eq
  have hne : ¬ (0 + v.bytes.length ≤ 0) := by omega
  have hresize : resize ([] : List Byte) (usize (0 + 0)) 0 = [] := by decide
  unfold addNativeVertex
  simp only [getBlockSize_eq, htype, if_true, hB, hbuf, List.length_nil, hresize]
  unfold deMemcpy
  simp only [List.length_nil, if_neg hne]
  rfl

end RaytracedGeometry

/-- Frame of a returning call. For every geometry whose vertex counter is not at
the end of `size_t` and every added vertex, a returning `addNativeVertex` leaves the index list, the geometry flags, the geometry type,
the padding and the block size as they were and adds one to the vertex count.
When it appends a block (triangles, or an even vertex count) the old buffer is a
prefix of the new one; when it fills the second slot (AABBs, odd vertex count) the
buffer keeps its length and changes only inside `kVertexSize` bytes at one
offset, which is `oldSize - blockSize + kVertexSize`, the second slot of the last
block. The call returns whenever the block size is consistent with the type. -/
theorem addNativeVertex_frame {kVertexSize : Nat} (g : RaytracedGeometry kVertexSize)
    (v : NativeVertex kVertexSize) (hcount : g.m_vertexCount + 1 < 2 ^ 64) :
    (∀ g1, g.addNativeVertex v = .ok g1 →
      g1.m_indices = g.m_indices ∧ g1.m_geometryFlags = g.m_geometryFlags ∧
      g1.m_geometryType = g.m_geometryType ∧ g1.m_indexType = g.m_indexType ∧
      g1.m_paddingBlocks = g.m_paddingBlocks ∧ g1.m_blockSize = g.m_blockSize ∧
      g1.m_vertexCount = g.m_vertexCount + 1 ∧
      ((g.isTrianglesType = true ∨ g.m_vertexCount % 2 = 0) →
        g1.m_vertices.take g.m_vertices.length = g.m_vertices) ∧
      ((g.isTrianglesType = false ∧ g.m_vertexCount % 2 = 1) →
        g1.m_vertices.length = g.m_vertices.length ∧
        ∃ offset, offset + kVertexSize ≤ g.m_vertices.length ∧
          (kVertexSize ≤ g.getBlockSize → g.getBlockSize ≤ g.m_vertices.length →
            g.m_vertices.length < 2 ^ 64 →
            offset = g.m_vertices.length - g.getBlockSize + kVertexSize) ∧
          g1.m_vertices.take offset = g.m_vertices.take offset ∧
          (g1.m_vertices.drop offset).take kVertexSize = v.bytes ∧
          g1.m_vertices.drop (offset + kVertexSize)
            = g.m_vertices.drop (offset + kVertexSize))) ∧
    ((g.isTrianglesType = true ∨ g.m_vertexCount % 2 = 0) →
      kVertexSize ≤ g.getBlockSize → g.m_vertices.length + g.getBlockSize < 2 ^ 64 →
      ∃ g1, g.addNativeVertex v = .ok g1) ∧
    ((g.isTrianglesType = false ∧ g.m_vertexCount % 2 = 1) →
      2 * kVertexSize ≤ g.getBlockSize → g.getBlockSize ≤ g.m_vertices.length →
      g.m_vertices.length < 2 ^ 64 →
      ∃ g1, g.addNativeVertex v = .ok g1) := by
  have hcnt : usize (g.m_vertexCount + 1) = g.m_vertexCount + 1 := usize_of_lt hcount
  refine ⟨?_, ?_, ?_⟩
  · intro g1 h
    by_cases hnew : g.isTrianglesType = true ∨ g.m_vertexCount % 2 = 0
    · obtain ⟨written, hw, hg1⟩ := RaytracedGeometry.addNativeVertex_ok_newBlock g g1 v hnew h
      subst hg1
      refine ⟨rfl, rfl, rfl, rfl, rfl, rfl, hcnt, ?_, ?_⟩
      · intro _
        show written.take g.m_vertices.length = g.m_vertices
        have hbound := (deMemcpy_ok hw).1
        rw [RaytracedGeometry.resize_length] at hbound
        rw [deMemcpy_take hw]
        exact resize_prefix _ _ _ (by omega)
      · rintro ⟨ht, ho⟩
        rcases hnew with h1 | h2
        · rw [ht] at h1
          cases h1
        · omega
    · have ht : g.isTrianglesType = false := by
        cases hb : g.isTrianglesType with
        | true => exact absurd (Or.inl hb) hnew
        | false => rfl
      have ho : g.m_vertexCount % 2 = 1 := by
        have : ¬ g.m_vertexCount % 2 = 0 := fun h0 => hnew (Or.inr h0)
        omega
      obtain ⟨written, hw, hg1⟩ :=
        RaytracedGeometry.addNativeVertex_ok_secondSlot g g1 v ht ho h
      subst hg1
      refine ⟨rfl, rfl, rfl, rfl, rfl, rfl, hcnt, fun hn => absurd hn hnew, ?_⟩
      intro _
      have hbound := (deMemcpy_ok hw).1
      have hdrop := deMemcpy_drop hw
      have hmid : (written.drop
          (usize (usizeSub g.m_vertices.length g.m_blockSize + kVertexSize))).take
            v.bytes.length = v.bytes := by
        have hr := (deMemcpy_ok hw).2
        have hl : (g.m_vertices.take
            (usize (usizeSub g.m_vertices.length g.m_blockSize + kVertexSize))).length
            = usize (usizeSub g.m_vertices.length g.m_blockSize + kVertexSize) := by
          rw [List.length_take]
          omega
        have k1 := List.drop_left
          (g.m_vertices.take (usize (usizeSub g.m_vertices.length g.m_blockSize + kVertexSize)))
          (v.bytes ++ g.m_vertices.drop
            (usize (usizeSub g.m_vertices.length g.m_blockSize + kVertexSize) + v.bytes.length))
        rw [hl, ← List.append_assoc, ← hr] at k1
        rw [k1, List.take_left]
      rw [v.size_eq] at hbound hdrop hmid
      refine ⟨deMemcpy_length hw, _, hbound, ?_, deMemcpy_take hw, hmid, hdrop⟩
      intro hk hB hfit
      rw [RaytracedGeometry.getBlockSize_eq] at hk hB ⊢
      rw [usizeSub_of_le hB hfit, usize_of_lt]
      have : g.m_vertices.length < SIZE_RANGE := hfit
      omega
  · intro hnew hB hfit
    rw [RaytracedGeometry.getBlockSize_eq] at hB hfit
    exact ⟨_, RaytracedGeometry.addNativeVertex_newBlock g v hnew hB hfit⟩
  · rintro ⟨ht, ho⟩ hB hlen hfit
    rw [RaytracedGeometry.getBlockSize_eq] at hB hlen
    exact RaytracedGeometry.addNativeVertex_secondSlot_defined g v ht ho hB hlen hfit

end vk

namespace vk

/-- Instance of the frame: an AABB geometry of two-byte vertices holding one vertex
receives its second vertex: the buffer keeps its twelve bytes, only bytes 2 and 3
change, and the vertex count becomes two. -/
theorem addNativeVertex_frame_witness :
    ((1 : Nat) + 1 < 2 ^ 64) ∧
    ∃ g1, RaytracedGeometry.addNativeVertex
        (⟨VkGeometryTypeKHR.AABBS, VkIndexType.NONE_KHR, 0, 1, 1,
          [1, 2, 0, 0, 0, 0, 0, 0, 0, 0, 0, 0], [], 12⟩ : RaytracedGeometry 2)
        ⟨[3, 4], rfl⟩ = .ok g1 ∧
      g1.m_vertices = [1, 2, 3, 4, 0, 0, 0, 0, 0, 0, 0, 0] ∧ g1.m_vertexCount = 2 := by
  have hframe := addNativeVertex_frame
    (⟨VkGeometryTypeKHR.AABBS, VkIndexType.NONE_KHR, 0, 1, 1,
      [1, 2, 0, 0, 0, 0, 0, 0, 0, 0, 0, 0], [], 12⟩ : RaytracedGeometry 2)
    ⟨[3, 4], rfl⟩ (by norm_num)
  obtain ⟨g1, hg1⟩ := hframe.2.2 ⟨rfl, rfl⟩ (by decide) (by decide) (by norm_num)
  have hcount := (hframe.1 g1 hg1).2.2.2.2.2.2.1
  have hval : g1 = ⟨VkGeometryTypeKHR.AABBS, VkIndexType.NONE_KHR, 0, 1, 2,
      [1, 2, 3, 4, 0, 0, 0, 0, 0, 0, 0, 0], [], 12⟩ :=
    Except.ok.inj (hg1.symm.trans rfl)
  exact ⟨by norm_num, g1, hg1, by rw [hval], hcount⟩

/-- C12: adding an index to a geometry without indices is an error. For every
index, `convertIndexTo<EmptyIndex>` throws `TestError ("Cannot add empty index")`,
and `addIndex` on a geometry whose index type is `EmptyIndex` throws it and leaves
the geometry, in particular the index list, the vertex buffer and the vertex
count, as it was. -/
theorem addIndex_emptyIndex {kVertexSize : Nat} (g : RaytracedGeometry kVertexSize)
    (index : Nat) (hempty : g.m_indexType = VkIndexType.NONE_KHR) :
    convertIndexTo VkIndexType.NONE_KHR index
      = .error (Failure.testError "Cannot add empty index") ∧
    (g.addIndex index).1 = .error (Failure.testError "Cannot add empty index") ∧
    (g.addIndex index).2 = g ∧
    (g.addIndex index).2.m_indices = g.m_indices ∧
    (g.addIndex index).2.m_vertices = g.m_vertices ∧
    (g.addIndex index).2.m_vertexCount = g.m_vertexCount := by
  have hrun : g.addIndex index = (.error (Failure.testError "Cannot add empty index"), g) := by
    unfold RaytracedGeometry.addIndex
    rw [hempty]
    rfl
  rw [hrun]
  exact ⟨rfl, rfl, rfl, rfl, rfl, rfl⟩

/-- Instance of C12: a triangles geometry without indices holding one vertex. -/
theorem addIndex_emptyIndex_witness :
    RaytracedGeometry.addIndex
        (⟨VkGeometryTypeKHR.TRIANGLES, VkIndexType.NONE_KHR, 0, 0, 1, [1, 2], [], 2⟩ :
          RaytracedGeometry 2) 7 =
      (.error (Failure.testError "Cannot add empty index"),
        ⟨VkGeometryTypeKHR.TRIANGLES, VkIndexType.NONE_KHR, 0, 0, 1, [1, 2], [], 2⟩) := by
  have h := addIndex_emptyIndex
    (⟨VkGeometryTypeKHR.TRIANGLES, VkIndexType.NONE_KHR, 0, 0, 1, [1, 2], [], 2⟩ :
      RaytracedGeometry 2) 7 rfl
  exact Prod.ext h.2.1 h.2.2.1

/-- C13, evaluated where it fails: with `paddingBlocks = 2^32 - 1` the block size of
a `TRIANGLES` geometry is `0`, so the first `addNativeVertex`, from the vertex-list
constructor or after the plain one, appends nothing and copies the twelve bytes
of the vertex outside the empty buffer, in debug and in release builds. -/
theorem triangles_first_write_out_of_bounds (deDebug : Bool) :
    (∀ v : NativeVertex 12,
      RaytracedGeometry.constructFrom deDebug 12 VkIndexType.UINT32 0
        VkGeometryTypeKHR.TRIANGLES [v] [] 4294967295 = .error Failure.outOfBounds) ∧
    (∀ v : NativeVertex 12, ∃ g,
      RaytracedGeometry.construct deDebug 12 VkIndexType.UINT32 0 VkGeometryTypeKHR.TRIANGLES
        4294967295 = .ok g ∧
      g.m_vertices = [] ∧ g.getBlockSize = 0 ∧
      resize g.m_vertices (usize (g.m_vertices.length + g.getBlockSize)) 0 = [] ∧
      g.addNativeVertex v = .error Failure.outOfBounds) := by
  have hstep : ∀ v : NativeVertex 12,
      RaytracedGeometry.addNativeVertex
        (⟨VkGeometryTypeKHR.TRIANGLES, VkIndexType.UINT32, 0, 4294967295, 0, [], [], 0⟩ :
          RaytracedGeometry 12) v = .error Failure.outOfBounds := by
    intro v
    have hlen := v.size_eq
    have hne : ¬ (0 + v.bytes.length ≤ 0) := by omega
    have hresize : resize ([] : List Byte) (usize (0 + 0)) 0 = [] := by decide
    unfold RaytracedGeometry.addNativeVertex
    simp only [RaytracedGeometry.getBlockSize_eq, RaytracedGeometry.isTrianglesType,
      beq_self_eq_true, if_true, List.length_nil, hresize]
    unfold deMemcpy
    simp only [List.length_nil, if_neg hne]
    rfl
  have hinit : RaytracedGeometry.init deDebug
      (⟨VkGeometryTypeKHR.TRIANGLES, VkIndexType.UINT32, 0, 4294967295, 0, [], [], 0⟩ :
        RaytracedGeometry 12)
      = .ok ⟨VkGeometryTypeKHR.TRIANGLES, VkIndexType.UINT32, 0, 4294967295, 0, [], [], 0⟩ := by
    cases deDebug <;> rfl
  refine ⟨fun v => ?_, fun v => ⟨_, hinit, rfl, by decide, by decide, hstep v⟩⟩
  unfold RaytracedGeometry.constructFrom
  rw [hinit]
  simp only [bind, Except.bind, List.foldlM_cons, List.foldlM_nil, hstep v]

/-- C14, evaluated where it fails: the `TRIANGLES` geometry that the constructor
returns for `paddingBlocks = 2^32 - 1` holds no vertex and its counter is far from
the end of `size_t`, yet no `addNativeVertex` on it returns: the block size is `0`,
nothing is appended and the two bytes of the vertex are copied outside the empty
buffer, so no state follows in which the vertex count has grown by one. -/
theorem addNativeVertex_count_not_grown (deDebug : Bool) (v : NativeVertex 2) :
    ∃ g, RaytracedGeometry.construct deDebug 2 VkIndexType.NONE_KHR 0
        VkGeometryTypeKHR.TRIANGLES 4294967295 = .ok g ∧
      g.m_vertexCount = 0 ∧ g.m_vertexCount + 1 < 2 ^ 64 ∧ g.m_vertices = [] ∧
      g.addNativeVertex v = .error Failure.outOfBounds ∧
      ¬ ∃ g1, g.addNativeVertex v = .ok g1 ∧ g1.m_vertexCount = g.m_vertexCount + 1 := by
  have hinit : RaytracedGeometry.construct deDebug 2 VkIndexType.NONE_KHR 0
      VkGeometryTypeKHR.TRIANGLES 4294967295
      = .ok ⟨VkGeometryTypeKHR.TRIANGLES, VkIndexType.NONE_KHR, 0, 4294967295, 0, [], [], 0⟩ := by
    cases deDebug <;> rfl
  have hstep := RaytracedGeometry.addNativeVertex_zero_block
    (⟨VkGeometryTypeKHR.TRIANGLES, VkIndexType.NONE_KHR, 0, 4294967295, 0, [], [], 0⟩ :
      RaytracedGeometry 2) v rfl rfl rfl (by decide)
  refine ⟨_, hinit, rfl, by norm_num, rfl, hstep, ?_⟩
  rintro ⟨g1, hg1, _⟩
  rw [hstep] at hg1
  cases hg1

end vk

/-! ## `makeBufferCreateInfo` -/

namespace vk

theorem makeBufferCreateInfoIndices_count {Pointer : Type}
    (dataOrNull : List Nat → Option Pointer) (size usage : Nat) (queueFamilyIndices : List Nat) :
    (makeBufferCreateInfoIndices dataOrNull size usage queueFamilyIndices).queueFamilyIndexCount
      = u32 queueFamilyIndices.length :=
  rfl

/-- C16 as amended: with `de::dataOrNull` yielding the null pointer for an empty
vector, `makeBufferCreateInfo (size, usage, {})` equals
`makeBufferCreateInfo (size, usage)` field for field (`BUFFER_CREATE_INFO`, null
`pNext`, flags 0, the given size and usage, `EXCLUSIVE`, count 0, null indices);
for any list only `queueFamilyIndexCount` and `pQueueFamilyIndices` are set
otherwise: the count is the list length converted to `uint32_t`, which is the
list length when that is below `2^32`, and the pointer is `de::dataOrNull` of
the list. -/
theorem makeBufferCreateInfo_agrees {Pointer : Type}
    (dataOrNull : List Nat → Option Pointer) (size usage : Nat) (queueFamilyIndices : List Nat)
    (hnull : dataOrNull [] = none) :
    makeBufferCreateInfoIndices dataOrNull size usage [] = makeBufferCreateInfo size usage ∧
    (makeBufferCreateInfo size usage : VkBufferCreateInfo Pointer) =
      { sType := VkStructureType.BUFFER_CREATE_INFO, pNext := none, flags := 0, size := size,
        usage := usage, sharingMode := VkSharingMode.EXCLUSIVE, queueFamilyIndexCount := 0,
        pQueueFamilyIndices := none } ∧
    makeBufferCreateInfoIndices dataOrNull size usage queueFamilyIndices =
      { (makeBufferCreateInfo size usage : VkBufferCreateInfo Pointer) with
        queueFamilyIndexCount := u32 queueFamilyIndices.length
        pQueueFamilyIndices := dataOrNull queueFamilyIndices } ∧
    (queueFamilyIndices.length < 2 ^ 32 →
      (makeBufferCreateInfoIndices dataOrNull size usage queueFamilyIndices).queueFamilyIndexCount
        = queueFamilyIndices.length) := by
  refine ⟨?_, rfl, rfl, ?_⟩
  · unfold makeBufferCreateInfoIndices makeBufferCreateInfo
    simp only [hnull, List.length_nil]
    rfl
  · intro hlen
    rw [makeBufferCreateInfoIndices_count]
    exact u32_of_lt hlen

/-- Instance of C16 as amended: two queue families, with a `dataOrNull` that is
null exactly on the empty vector. -/
theorem makeBufferCreateInfo_agrees_witness :
    makeBufferCreateInfoIndices (fun l => if l.isEmpty then none else some (4096 : Nat))
        1024 3 [] = makeBufferCreateInfo 1024 3 ∧
    makeBufferCreateInfoIndices (fun l => if l.isEmpty then none else some (4096 : Nat))
        1024 3 [0, 2] =
      { sType := VkStructureType.BUFFER_CREATE_INFO, pNext := none, flags := 0, size := 1024,
        usage := 3, sharingMode := VkSharingMode.EXCLUSIVE, queueFamilyIndexCount := 2,
        pQueueFamilyIndices := some 4096 } := by
  have h := makeBufferCreateInfo_agrees
    (fun l => if l.isEmpty then none else some (4096 : Nat)) 1024 3 [0, 2] rfl
  exact ⟨h.1, h.2.2.1.trans rfl⟩

/-- C16 as stated fails: for a list of `2^32` queue family indices the count,
a `uint32_t`, is `0` and not the list length. -/
theorem makeBufferCreateInfo_counterexample :
    (makeBufferCreateInfoIndices (fun l => if l.isEmpty then none else some (4096 : Nat))
        1024 3 (List.replicate 4294967296 0)).queueFamilyIndexCount = 0 ∧
    (makeBufferCreateInfoIndices (fun l => if l.isEmpty then none else some (4096 : Nat))
        1024 3 (List.replicate 4294967296 0)).queueFamilyIndexCount
      ≠ (List.replicate 4294967296 0).length := by
  have hcount : u32 (List.replicate 4294967296 (0 : Nat)).length = 0 := by
    rw [List.length_replicate]
    decide
  rw [makeBufferCreateInfoIndices_count, hcount, List.length_replicate]
  exact ⟨rfl, by decide⟩

end vk
